import Mathlib

/-!
# apteryx-netconf: a shallow embedding of `netconf.c`

The definitions below follow the C source function by function.  Conventions:

* bytes on the wire are natural numbers (`10` is `'\n'`, `35` is `'#'`, `48..57` are the digits);
* a C `int` is an `Int` kept in the 32-bit range with `toInt32`, a `uint32_t` is a `Nat` reduced
  modulo `2^32`;
* libxml2 documents are trees of `XmlNode`; namespaces are not represented, element names are
  local names as in `node->name`;
* global variables of `netconf.c` are the fields of `Global`.
-/

namespace Netconf

/-! ## XML trees (libxml2) -/

/-- A libxml2 node: an element, a text node, or any other node kind (comment, PI). -/
inductive XmlNode where
  | element (name : String) (attrs : List (String × String)) (children : List XmlNode)
  | text (content : String)
  | other
  deriving Repr, Inhabited

/-- A parsed document: the top-level nodes, among them the root element. -/
structure XmlDoc where
  children : List XmlNode
  deriving Repr, Inhabited

namespace XmlNode

/-- Test `node->type == XML_ELEMENT_NODE`. -/
def isElement : XmlNode → Bool
  | element _ _ _ => true
  | _ => false

/-- Field `node->name` (for text and other nodes libxml2 uses fixed pseudo names). -/
def name : XmlNode → String
  | element n _ _ => n
  | text _ => "text"
  | other => "comment"

/-- Field `node->children` as a list. -/
def children : XmlNode → List XmlNode
  | element _ _ cs => cs
  | _ => []

/-- Attribute list of an element. -/
def attrs : XmlNode → List (String × String)
  | element _ as _ => as
  | _ => []

end XmlNode

/-- Element children in document order: the nodes visited by
`xmlFirstElementChild` followed by repeated `xmlNextElementSibling`. -/
def elementChildren (n : XmlNode) : List XmlNode :=
  n.children.filter XmlNode.isElement

/-- Function `xmlFirstElementChild`. -/
def xmlFirstElementChild (n : XmlNode) : Option XmlNode :=
  (elementChildren n).head?

/-- Function `xmlDocGetRootElement`: the first top-level element. -/
def xmlDocGetRootElement (doc : XmlDoc) : Option XmlNode :=
  (doc.children.filter XmlNode.isElement).head?

mutual
/-- Function `xmlNodeGetContent`: the concatenated text of a node and its descendants. -/
def xmlNodeGetContent : XmlNode → String
  | .element _ _ cs => xmlNodeListGetContent cs
  | .text s => s
  | .other => ""
/-- Content of a sibling list, used by `xmlNodeGetContent`. -/
def xmlNodeListGetContent : List XmlNode → String
  | [] => ""
  | c :: cs => xmlNodeGetContent c ++ xmlNodeListGetContent cs
end

/-- Function `xmlGetProp`: the value of the named attribute, if present. -/
def xmlGetProp (n : XmlNode) (attr : String) : Option String :=
  (n.attrs.find? (fun p => p.1 == attr)).map Prod.snd

/-- Function `xmlHasProp`. -/
def xmlHasProp (n : XmlNode) (attr : String) : Bool :=
  (xmlGetProp n attr).isSome

/-- Function `xmlFindNodeByName` of `netconf.c`: first element child with the given name. -/
def xmlFindNodeByName (root : XmlNode) (name : String) : Option XmlNode :=
  (elementChildren root).find? (fun child => child.name == name)

/-! ## Hello validation -/

/-- The capability URI looked for by `validate_hello`. -/
def BASE_1_1 : String := "urn:ietf:params:netconf:base:1.1"

/-- The capability loop of `validate_hello`, over the element children of `<capabilities>`:
stops with `found_base11 = true` at the first `capability` whose content is the base:1.1 URI. -/
def validate_hello_caps : List XmlNode → Bool
  | [] => false
  | cap_node :: rest =>
    if cap_node.name = "capability" then
      if xmlNodeGetContent cap_node = BASE_1_1 then true
      else validate_hello_caps rest
    else validate_hello_caps rest

/-- Function `validate_hello`, applied to the result of `xmlParseMemory` (`none` when the
buffer is not well-formed XML). -/
def validate_hello (parsed : Option XmlDoc) : Bool :=
  match parsed with
  | none => false
  | some doc =>
    match xmlDocGetRootElement doc with
    | none => false
    | some root =>
      if root.name ≠ "hello" then false
      else
        match xmlFirstElementChild root with
        | none => false
        | some node =>
          if node.name ≠ "capabilities" then false
          else validate_hello_caps (elementChildren node)

/-- A document is a hello document when its root element is named `hello`. -/
def isHelloDoc (doc : XmlDoc) : Prop :=
  ∃ root, xmlDocGetRootElement doc = some root ∧ root.name = "hello"

/-- The capabilities list as the claim reads it: some `<capabilities>` element child of the
root holds a `<capability>` element child whose text content is exactly the base:1.1 URI. -/
def capsListHasBase11 (doc : XmlDoc) : Prop :=
  ∃ root caps cap, xmlDocGetRootElement doc = some root ∧
    caps ∈ elementChildren root ∧ caps.name = "capabilities" ∧
    cap ∈ elementChildren caps ∧ cap.name = "capability" ∧ xmlNodeGetContent cap = BASE_1_1

/-- The same, with the `<capabilities>` element required to be the first element child. -/
def firstChildCapsHasBase11 (doc : XmlDoc) : Prop :=
  ∃ root caps cap, xmlDocGetRootElement doc = some root ∧
    xmlFirstElementChild root = some caps ∧ caps.name = "capabilities" ∧
    cap ∈ elementChildren caps ∧ cap.name = "capability" ∧ xmlNodeGetContent cap = BASE_1_1

/-- A client hello in which another element precedes `<capabilities>`. -/
def helloSessionIdFirst : XmlDoc :=
  ⟨[.element "hello" []
      [.element "session-id" [] [.text "4"],
       .element "capabilities" []
         [.element "capability" [] [.text "urn:ietf:params:netconf:base:1.1"]]]]⟩

/-- The hello of scenario S1. -/
def helloS1 : XmlDoc :=
  ⟨[.element "hello" []
      [.element "capabilities" []
         [.element "capability" [] [.text "urn:ietf:params:netconf:base:1.1"]]]]⟩

/-! ## Machine integers and libc helpers -/

/-- Conversion to a 32-bit two's complement `int`. -/
def toInt32 (v : Int) : Int := (v + 2147483648) % 4294967296 - 2147483648

/-- Conversion to `uint32_t`. -/
def toUInt32 (v : Nat) : Nat := v % 4294967296

/-- Function `isspace` in the C locale. -/
def isspace (c : Nat) : Bool := c == 32 || (9 ≤ c && c ≤ 13)

/-- Function `isdigit`. -/
def isdigit (c : Nat) : Bool := 48 ≤ c && c ≤ 57

/-- The C string held in a buffer: the bytes before the first NUL. -/
def cstr (buf : List Nat) : List Nat := buf.takeWhile (fun b => b != 0)

/-- Accumulate the leading decimal digits of the input. -/
def scan_digits : Nat → List Nat → Nat
  | acc, [] => acc
  | acc, c :: cs => if isdigit c then scan_digits (acc * 10 + (c - 48)) cs else acc

/-- Function `strtol` on a sign and a magnitude: the value, saturated to the 64-bit `long`. -/
def strtol (neg : Bool) (magnitude : Nat) : Int :=
  if neg then (if magnitude > 9223372036854775808 then -9223372036854775808 else -(magnitude : Int))
  else (if magnitude > 9223372036854775807 then 9223372036854775807 else (magnitude : Int))

/-- Conversion `%d` of `sscanf` into an `int`: skips white space, reads an optional sign and
at least one digit; the `long` computed by `strtol` is stored through the `int *`, keeping its
low 32 bits (glibc on LP64).  `none` is a matching or input failure. -/
def scan_int (s : List Nat) : Option Int :=
  match s.dropWhile isspace with
  | [] => none
  | c :: cs =>
    if c = 45 ∨ c = 43 then
      match cs with
      | [] => none
      | d :: _ =>
        if isdigit d then some (toInt32 (strtol (c == 45) (scan_digits 0 cs))) else none
    else if isdigit c then some (toInt32 (strtol false (scan_digits 0 (c :: cs))))
    else none

/-- Call `sscanf (chunk_header, "\n#%d", &chunk_len)`: `some v` when it returns 1 having
stored `v`.  The white-space directive skips any white space, `#` must match literally. -/
def sscanf_chunk_header (chunk_header : List Nat) : Option Int :=
  match (cstr chunk_header).dropWhile isspace with
  | 35 :: rest => scan_int rest
  | _ => none

/-- The decimal digits of a number as bytes, most significant digit first: the `<len>` of a
chunk header. -/
def decimalBytes (n : Nat) : List Nat :=
  if n = 0 then [48] else ((Nat.digits 10 n).map (fun d => d + 48)).reverse

/-- Output of `printf ("%u", v)` for a `uint32_t`. -/
def fmt_u (v : Nat) : String := toString (toUInt32 v)

/-- The decimal form of a signed integer, as `printf ("%d")` writes it. -/
def int_decimal (x : Int) : String := toString x

/-- Output of `printf ("%d", v)` for a `uint32_t` passed where an `int` is expected. -/
def fmt_d (v : Nat) : String := int_decimal (toInt32 (toUInt32 v))

/-! ## Framing constants -/

/-- Macro `MAX_CHUNK_HEADER_SIZE`. -/
def MAX_CHUNK_HEADER_SIZE : Nat := 13

/-- Macro `MAX_REQUEST_MESSAGE_SIZE`. -/
def MAX_REQUEST_MESSAGE_SIZE : Int := 32768

/-- Macro `NETCONF_BASE_1_1_END`, the bytes of "\n##\n". -/
def NETCONF_BASE_1_1_END : List Nat := [10, 35, 35, 10]

/-! ## Reading a chunk header -/

/-- The loop of `read_chunk_size` while the main loop is running.  `chunk_header` holds the
bytes stored so far, so `len = chunk_header.length`; `input` is what the socket will deliver,
an empty list making `recv` fail.  Returns `chunk_len` and the unread input.  The array of
the source has 14 bytes and this list has no bound: the two agree up to the pass with 13
bytes stored, whose NUL goes to index 14, outside the array (`read_chunk_size_writes` lists
the indices); what the source does from that write on is undefined, and the result given
here for a header of 14 bytes and more is the one of a run that the write does not
disturb. -/
def read_chunk_size_loop (chunk_header : List Nat) (input : List Nat) : Int × List Nat :=
  if chunk_header.length > MAX_CHUNK_HEADER_SIZE then (0, input)
  else
    match input with
    | [] => (0, [])
    | b :: rest =>
      let len := chunk_header.length
      let chunk_header1 := chunk_header ++ [b]
      if 3 ≤ len ∧ chunk_header1.head? = some 10 ∧ chunk_header1.get? 1 = some 35 ∧ b = 10 then
        if cstr chunk_header1 = NETCONF_BASE_1_1_END then (0, rest)
        else
          match sscanf_chunk_header chunk_header1 with
          | some chunk_len => (chunk_len, rest)
          | none => read_chunk_size_loop chunk_header1 rest
      else read_chunk_size_loop chunk_header1 rest

/-- Function `read_chunk_size`: `loop_running` is the value of `g_main_loop_is_running`
during the call; the third component is `session->running` on return. -/
def read_chunk_size (loop_running : Bool) (input : List Nat) : Int × List Nat × Bool :=
  if loop_running then
    let r := read_chunk_size_loop [] input
    (r.1, r.2, true)
  else (0, input, false)

/-! ## Sessions, the running-datastore lock and global state -/

/-- Modelled from the spec: `session_counters_t` is declared outside `src/`; the four
per-session counters of the data model, as unbounded naturals. -/
structure session_counters_t where
  in_rpcs : Nat
  in_bad_rpcs : Nat
  out_rpc_errors : Nat
  out_notifications : Nat
  deriving DecidableEq, Repr, Inhabited

/-- The C structure `netconf_session`; `id` is a `uint32_t`, absent strings are `none`. -/
structure netconf_session where
  fd : Int
  id : Nat
  username : Option String
  rem_addr : Option String
  rem_port : Option String
  login_time : Option String
  running : Bool
  counters : session_counters_t
  deriving DecidableEq, Repr, Inhabited

/-- The C structure `_running_ds_lock_t` (global `running_ds_lock`). -/
structure running_ds_lock_t where
  nc_sess : netconf_session
  locked : Bool
  deriving DecidableEq, Repr, Inhabited

/-- Modelled from the spec: `global_statistics_t` is declared outside `src/`; the global
statistics of the data model. -/
structure global_statistics_t where
  netconf_start_time : Option String
  in_bad_hellos : Nat
  in_sessions : Nat
  dropped_sessions : Nat
  session_totals : session_counters_t
  deriving DecidableEq, Repr, Inhabited

/-- The file-scope variables of `netconf.c`. -/
structure Global where
  netconf_session_id : Nat
  netconf_max_sessions : Nat
  netconf_num_sessions : Nat
  open_sessions_list : List netconf_session
  running_ds_lock : running_ds_lock_t
  netconf_global_stats : global_statistics_t
  deriving DecidableEq, Repr, Inhabited

/-- A reply document handed to `write` on a session socket; `complete` tells whether the
header, the body and the trailer were all written in full. -/
structure Tx where
  fd : Int
  doc : XmlNode
  complete : Bool
  deriving Repr, Inhabited

/-- Modelled from the spec: the mutation tree (`GNode *`) that the schema adapter builds is
declared outside `src/` and is opaque to `netconf.c`, which only passes it on; here it is the
list of its leaves, each a path with a value. -/
structure GNodeTree where
  leaves : List (String × String)
  deriving DecidableEq, Repr, Inhabited

/-- A call made to the datastore client. -/
inductive DsOp where
  | search (path : String)
  | get (path : String)
  | get_tree (path : String)
  | query
  | prune (path : String)
  | set (path : String) (value : String)
  | set_tree (tree : GNodeTree)
  deriving DecidableEq, Repr, Inhabited

/-- Whether a call changes the content of the datastore. -/
def DsOp.mutates : DsOp → Bool
  | .prune _ => true
  | .set _ _ => true
  | .set_tree _ => true
  | _ => false

/-- Everything a session worker can change: the globals, the documents written so far, the
datastore calls issued so far and the sockets shut down so far. -/
structure World where
  g : Global
  tx : List Tx
  ds_log : List DsOp
  shutdown_log : List Int
  deriving Repr, Inhabited

/-- Ways in which a computation stops instead of returning: a `NULL` pointer is dereferenced,
GLib aborts on a failed allocation, a loop of this embedding was given too little fuel
(which the fuel theorems exclude for the functions below), or a variable is read that was
never assigned. -/
inductive Fault where
  | null_deref
  | alloc_abort
  | out_of_fuel
  | uninit_read
  deriving DecidableEq, Repr, Inhabited

/-! ## The error-response builder -/

/-- Modelled from the spec: the enumeration `NC_ERR_TAG` is declared outside `src/`; the
closed set of error tags, with `UNKNOWN` for the value 0. -/
inductive NC_ERR_TAG where
  | UNKNOWN | IN_USE | INVALID_VAL | TOO_BIG | MISSING_ATTR | BAD_ATTR | UNKNOWN_ATTR
  | MISSING_ELEM | BAD_ELEM | UNKNOWN_ELEM | UNKNOWN_NS | ACCESS_DENIED | LOCK_DENIED
  | RESOURCE_DENIED | DATA_EXISTS | DATA_MISSING | OPR_NOT_SUPPORTED | OPR_FAILED | MALFORMED_MSG
  deriving DecidableEq, Repr, Inhabited

/-- Modelled from the spec: the enumeration `NC_ERR_TYPE` is declared outside `src/`. -/
inductive NC_ERR_TYPE where
  | UNKNOWN | TRANSPORT | RPC | PROTOCOL | APP
  deriving DecidableEq, Repr, Inhabited

/-- Modelled from the spec: the structure `nc_error_parms` is declared outside `src/`; the
error value `(tag, type, message, info)`, the hash table `info` as an association list. -/
structure nc_error_parms where
  tag : NC_ERR_TAG
  type : NC_ERR_TYPE
  msg : String
  info : List (String × String)
  deriving DecidableEq, Repr, Inhabited

/-- Modelled from the spec: the macro `NC_ERROR_PARMS_INIT` is defined outside `src/`; an
error value with no tag, an empty message and an empty table. -/
def NC_ERROR_PARMS_INIT : nc_error_parms := ⟨.UNKNOWN, .UNKNOWN, "", []⟩

/-- Function `g_hash_table_insert` on string keys: replaces the value of an existing key. -/
def g_hash_table_insert (t : List (String × String)) (k v : String) : List (String × String) :=
  (t.filter (fun p => p.1 != k)) ++ [(k, v)]

/-- Function `g_hash_table_lookup` on string keys. -/
def g_hash_table_lookup (t : List (String × String)) (k : String) : Option String :=
  (t.find? (fun p => p.1 == k)).map Prod.snd

/-- Function `rpc_error_tag_to_msg`. -/
def rpc_error_tag_to_msg : NC_ERR_TAG → Option String
  | .IN_USE => some "Resource is already in use"
  | .INVALID_VAL => some "Unacceptable value for one or more parameters"
  | .TOO_BIG => some "The request is too large to be handled"
  | .MISSING_ATTR => some "An expected attribute is missing"
  | .BAD_ATTR => some "An attribute value is not correct"
  | .UNKNOWN_ATTR => some "An unexpected attribute is present"
  | .MISSING_ELEM => some "An expected element is missing"
  | .BAD_ELEM => some "An element value is not correct"
  | .UNKNOWN_ELEM => some "An unexpected element is present"
  | .UNKNOWN_NS => some "An unexpected namespace is present"
  | .ACCESS_DENIED =>
    some "Access to the requested resource is denied due to authorization failure"
  | .LOCK_DENIED =>
    some "Access to the requested lock is denied because the lock is currently held by another entity"
  | .RESOURCE_DENIED => some "Request could not be completed because of insufficient resources"
  | .DATA_EXISTS => some "Requested data model content already exists"
  | .DATA_MISSING => some "Requested data model content does not exist"
  | .OPR_NOT_SUPPORTED => some "Requested operation is not supported by this implementation"
  | .OPR_FAILED => some "Requested operation failed due to some reason"
  | .MALFORMED_MSG => some "Failed to parse XML message"
  | .UNKNOWN => none

/-- Function `rpc_error_tag_to_string`. -/
def rpc_error_tag_to_string : NC_ERR_TAG → Option String
  | .IN_USE => some "in-use"
  | .INVALID_VAL => some "invalid-value"
  | .TOO_BIG => some "too-big"
  | .MISSING_ATTR => some "missing-attribute"
  | .BAD_ATTR => some "bad-attribute"
  | .UNKNOWN_ATTR => some "unknown-attribute"
  | .MISSING_ELEM => some "missing-element"
  | .BAD_ELEM => some "bad-element"
  | .UNKNOWN_ELEM => some "unknown-element"
  | .UNKNOWN_NS => some "unknown-namespace"
  | .ACCESS_DENIED => some "access-denied"
  | .LOCK_DENIED => some "lock-denied"
  | .RESOURCE_DENIED => some "resource-denied"
  | .DATA_EXISTS => some "data-exists"
  | .DATA_MISSING => some "data-missing"
  | .OPR_NOT_SUPPORTED => some "operation-not-supported"
  | .OPR_FAILED => some "operation-failed"
  | .MALFORMED_MSG => some "malformed-message"
  | .UNKNOWN => none

/-- Function `rpc_error_type_to_string`. -/
def rpc_error_type_to_string : NC_ERR_TYPE → Option String
  | .TRANSPORT => some "transport"
  | .RPC => some "rpc"
  | .PROTOCOL => some "protocol"
  | .APP => some "application"
  | .UNKNOWN => none

/-- Function `xmlNewChild (parent, NULL, name, content)`: the new element, with a text child
when a non-empty content is given. -/
def xmlNewChild (name : String) (content : Option String) : XmlNode :=
  match content with
  | none => .element name [] []
  | some c => if c = "" then .element name [] [] else .element name [] [.text c]

/-- Function `_create_error_info_xml`. -/
def _create_error_info_xml (parms : nc_error_parms) : XmlNode :=
  let kids : List XmlNode :=
    if parms.tag = .UNKNOWN_NS then
      match g_hash_table_lookup parms.info "bad-namespace",
            g_hash_table_lookup parms.info "bad-element" with
      | some bad_ns, some bad_elem =>
        [xmlNewChild "bad-namespace" (some bad_ns), xmlNewChild "bad-element" (some bad_elem)]
      | _, _ => []
    else if parms.tag = .IN_USE ∨ parms.tag = .LOCK_DENIED then
      match g_hash_table_lookup parms.info "session-id" with
      | some session_id => [xmlNewChild "session-id" (some session_id)]
      | none => []
    else if parms.tag = .MISSING_ATTR ∨ parms.tag = .BAD_ATTR ∨ parms.tag = .UNKNOWN_ATTR then
      match g_hash_table_lookup parms.info "bad-attribute",
            g_hash_table_lookup parms.info "bad-element" with
      | some bad_attr, some bad_elem =>
        [xmlNewChild "bad-attribute" (some bad_attr), xmlNewChild "bad-element" (some bad_elem)]
      | _, _ => []
    else if parms.tag = .MISSING_ELEM ∨ parms.tag = .BAD_ELEM ∨ parms.tag = .UNKNOWN_ELEM then
      match g_hash_table_lookup parms.info "bad-element" with
      | some bad_elem => [xmlNewChild "bad-element" (some bad_elem)]
      | none => []
    else []
  .element "error-info" [] kids

/-- Function `create_rpc`: the root element of a new document, with the `message-id`
attribute when one is given. -/
def create_rpc (type : String) (msg_id : Option String) (children : List XmlNode) : XmlNode :=
  match msg_id with
  | some id => .element type [("message-id", id)] children
  | none => .element type [] children

/-! ## External collaborators -/

/-- Flags handed to the schema engine (`SCH_F_*`, declared outside `src/`). -/
structure SchFlags where
  debug : Bool
  config : Bool
  add_defaults : Bool
  trim_defaults : Bool
  deriving DecidableEq, Repr, Inhabited

/-- Modelled from the spec: the result `sch_xml_to_gnode_parms` of the translation of an edit
is declared outside `src/`; `handle_edit` reads it through the accessors `sch_parm_tree`,
`sch_parm_error`, `sch_parm_deletes`, `sch_parm_removes`, `sch_parm_creates`,
`sch_parm_replaces`, `sch_parm_merges`, `sch_parm_conditions` and `sch_parm_need_tree_set`.
The tree is `none` for a `NULL` pointer; `conditions` alternates paths and conditions. -/
structure sch_xml_to_gnode_parms where
  tree : Option GNodeTree
  error : nc_error_parms
  deletes : List String
  removes : List String
  creates : List String
  replaces : List String
  merges : List String
  conditions : List String
  need_tree_set : Bool

/-- Modelled from the spec: the enumeration `xpath_type` is declared outside `src/`; the kind
of an XPath filter as `sch_xpath_to_gnode` reports it. -/
inductive xpath_type where
  | XPATH_NONE | XPATH_SIMPLE | XPATH_EVALUATE | XPATH_ERROR
  deriving DecidableEq, Repr, Inhabited

/-- Modelled from the spec: the schema node `sch_node` is declared outside `src/`; what the
query pipeline asks of it through `sch_is_leaf` and `sch_is_readable`. -/
structure sch_node where
  is_leaf : Bool
  is_readable : Bool
  deriving DecidableEq, Repr, Inhabited

/-- What `sch_xpath_to_gnode` hands back: the query tree (`none` for `NULL`), the schema node
stored through `qschema` and the kind stored through `x_type`. -/
structure XPathQuery where
  query : Option GNodeTree
  qschema : Option sch_node
  x_type : xpath_type
  deriving DecidableEq, Repr, Inhabited

/-- What libxml2 does with an XPath expression in `xpath_evaluate`: `xmlXPathNewContext`
returns `NULL`, `xmlXPathEvalExpression` returns `NULL`, the result has no node set, or it
has one, in which case `result` is what is appended to the list: `none` for an empty node
set or a deleted root, else the tree left by `cleanup_xpath_tree`. -/
inductive XPathEval where
  | no_context
  | invalid
  | no_nodeset
  | nodes (result : Option XmlNode)
  deriving Repr, Inhabited

/-- What `getsockopt (SO_PEERCRED)`, `getpwuid` and `add_session_data` find out about the
calling process: the user name, and the address, the port and the login time as
`add_session_data` leaves them in the session. -/
structure PeerCred where
  pw_name : Option String
  rem_addr : Option String
  rem_port : Option String
  login_time : Option String
  deriving DecidableEq, Repr, Inhabited

/-- What the environment decides: the state of the GLib main loop, the verbose switch, the
outcome of each `write` sequence (indexed by the number of documents written before it), the
libxml2 parser, the query pipeline (`query_pipeline` stands for the part of `handle_get` after
the with-defaults option has been read), the schema adapter (`sch_xml_to_gnode` on the first
element child of `<config>`, the flags and the default operation; `sch_process_condition` on
the mutation tree, a path and a condition) and the answers of the datastore, each a function
of the mutating calls issued before: `ds_get_tree` tells whether `apteryx_get_tree` returns a
tree, `ds_get` whether `apteryx_get` returns a value, `ds_set_tree` whether `apteryx_set_tree`
succeeds.  For the start of a session: `model_capabilities` are the capability strings that
`schema_set_model_information` adds for the loaded models, `setsockopt_rcvtimeo_ok` tells
whether the receive timeout could be set, `getsockopt_peercred` is what is found out about the
peer (`none` when `getsockopt` fails), and `hello_recv k` is the number of bytes that the peek
number `k` of `handle_hello` finds in the socket, when the stream holds as many.  For the
query pipeline: `sch_xpath_to_gnode` on the request, the `<filter>` element (whose name spaces
it reads), a path and the flags; `sch_xml_to_gnode_query` is `sch_xml_to_gnode` as called for
a subtree filter, giving the query tree and the schema node stored through `qschema`;
`get_tree_xml` stands for the part of `get_query_schema` and `get_query_to_xml` that queries
the datastore, treats the defaults and converts the result with `sch_gnode_to_xml` (`none`
when there is no tree or no XML), a function of the content of the datastore, the query, the
schema node, the flags, the kind of filter and the arguments `is_subtree` and `is_filter`;
`xpath_eval` is the evaluation of an XPath expression on such a result. -/
structure Env where
  loop_running : Bool
  apteryx_netconf_verbose : Bool
  write_ok : Nat → Bool
  xmlParseMemory : List Nat → Option XmlDoc
  query_pipeline : World → netconf_session → XmlNode → SchFlags →
    Except Fault (World × netconf_session × Bool)
  sch_xml_to_gnode : Option XmlNode → SchFlags → String → sch_xml_to_gnode_parms
  sch_process_condition : Option GNodeTree → String → String → Bool
  ds_get_tree : List DsOp → String → Bool
  ds_get : List DsOp → String → Bool
  ds_set_tree : List DsOp → GNodeTree → Bool
  model_capabilities : List String := []
  setsockopt_rcvtimeo_ok : Bool := true
  getsockopt_peercred : Option PeerCred := none
  hello_recv : Nat → Nat := fun _ => 1012
  sch_xpath_to_gnode : XmlNode → XmlNode → String → SchFlags → XPathQuery :=
    fun _ _ _ _ => ⟨none, none, .XPATH_ERROR⟩
  sch_xml_to_gnode_query : XmlNode → SchFlags → Option GNodeTree × Option sch_node :=
    fun _ _ => (none, none)
  get_tree_xml : List DsOp → Option GNodeTree → Option sch_node → SchFlags → xpath_type →
    Bool → Bool → Option XmlNode := fun _ _ _ _ _ _ _ => none
  xpath_eval : XmlNode → String → XPathEval := fun _ _ => .nodes none

/-- Write one framed document (header, body, trailer) on a socket. -/
def write_doc (env : Env) (w : World) (fd : Int) (doc : XmlNode) : World × Bool :=
  let ok := env.write_ok w.tx.length
  ({ w with tx := w.tx ++ [⟨fd, doc, ok⟩] }, ok)

/-- Function `send_rpc_ok`. -/
def send_rpc_ok (env : Env) (w : World) (session : netconf_session) (rpc : XmlNode) :
    World × Bool :=
  let doc := create_rpc "rpc-reply" (xmlGetProp rpc "message-id") [xmlNewChild "ok" none]
  write_doc env w session.fd doc

/-- The document built by `_send_rpc_error`. -/
def rpc_error_doc (rpc : Option XmlNode) (error_parms : nc_error_parms) : XmlNode :=
  let msg_id := match rpc with
    | some r => xmlGetProp r "message-id"
    | none => none
  let msg :=
    if error_parms.msg = "" then (rpc_error_tag_to_msg error_parms.tag).getD "(null)"
    else error_parms.msg
  let error_msg := XmlNode.element "error-message" [("xml:lang", "en")]
    (if msg = "" then [] else [.text msg])
  let error_info :=
    if error_parms.info.length > 0 then [_create_error_info_xml error_parms] else []
  create_rpc "rpc-reply" msg_id
    [.element "rpc-error" []
      ([xmlNewChild "error-tag" (rpc_error_tag_to_string error_parms.tag),
        xmlNewChild "error-type" (rpc_error_type_to_string error_parms.type),
        xmlNewChild "error-severity" (some "error"),
        error_msg] ++ error_info)]

/-- Function `_send_rpc_error`: a complete write counts one `out_rpc_errors` on the session
and on the global totals. -/
def _send_rpc_error (env : Env) (w : World) (session : netconf_session) (rpc : Option XmlNode)
    (error_parms : nc_error_parms) : World × netconf_session × Bool :=
  let r := write_doc env w session.fd (rpc_error_doc rpc error_parms)
  if r.2 then
    let session1 := { session with
      counters := { session.counters with out_rpc_errors := session.counters.out_rpc_errors + 1 } }
    let g := r.1.g
    let stats := { g.netconf_global_stats with
      session_totals := { g.netconf_global_stats.session_totals with
        out_rpc_errors := g.netconf_global_stats.session_totals.out_rpc_errors + 1 } }
    ({ r.1 with g := { g with netconf_global_stats := stats } }, session1, true)
  else (r.1, session, false)

/-- The error value assembled by `send_rpc_error_full`. -/
def error_parms_full (w : World) (err_tag : NC_ERR_TAG) (err_type : NC_ERR_TYPE)
    (error_msg bad_elem bad_attr : Option String) (no_info : Bool) : nc_error_parms :=
  let p0 : nc_error_parms := { NC_ERROR_PARMS_INIT with tag := err_tag, type := err_type }
  let p1 : nc_error_parms :=
    if bad_elem.isNone ∧ no_info = false then
      let sess_id_str := fmt_u w.g.running_ds_lock.nc_sess.id
      { p0 with info := (g_hash_table_insert p0.info "session-id" sess_id_str) }
    else p0
  let p2 : nc_error_parms := match error_msg with
    | some m => { p1 with msg := m }
    | none => p1
  let p3 : nc_error_parms := match bad_elem with
    | some e => { p2 with info := (g_hash_table_insert p2.info "bad_element" e) }
    | none => p2
  match bad_attr with
  | some a => { p3 with info := (g_hash_table_insert p3.info "bad-attribute" a) }
  | none => p3

/-- Function `send_rpc_error_full`. -/
def send_rpc_error_full (env : Env) (w : World) (session : netconf_session)
    (rpc : Option XmlNode) (err_tag : NC_ERR_TAG) (err_type : NC_ERR_TYPE)
    (error_msg bad_elem bad_attr : Option String) (no_info : Bool) :
    World × netconf_session × Bool :=
  _send_rpc_error env w session rpc
    (error_parms_full w err_tag err_type error_msg bad_elem bad_attr no_info)

/-! ## The lock manager -/

/-- Function `set_lock`. -/
def set_lock (g : Global) (session : netconf_session) : Global :=
  { g with running_ds_lock :=
      { locked := true
        nc_sess := { g.running_ds_lock.nc_sess with id := session.id, fd := session.fd } } }

/-- Function `reset_lock`. -/
def reset_lock (g : Global) : Global :=
  { g with running_ds_lock :=
      { locked := false
        nc_sess := { g.running_ds_lock.nc_sess with id := 0, fd := -1 } } }

/-- Outcome of the target test shared by `handle_edit`, `handle_lock` and `handle_unlock`:
the target is `<running/>`, or it names another datastore, or the error message dereferences
the missing first element child of a missing or empty `<target>`. -/
inductive TargetCheck where
  | running
  | unsupported (name : String)
  | null_deref
  deriving DecidableEq, Repr

/-- The target test `!node || !xmlFirstElementChild (node) || xmlStrcmp (..., "running")`
on `node = xmlFindNodeByName (action, "target")`. -/
def check_target (action : Option XmlNode) : TargetCheck :=
  match action.bind (fun a => xmlFindNodeByName a "target") with
  | none => .null_deref
  | some node =>
    match xmlFirstElementChild node with
    | none => .null_deref
    | some ds => if ds.name = "running" then .running else .unsupported ds.name

/-- Increment of `in_rpcs` on the session and on the global totals. -/
def count_in_rpcs (w : World) (session : netconf_session) : World × netconf_session :=
  let g := w.g
  let stats := { g.netconf_global_stats with
    session_totals := { g.netconf_global_stats.session_totals with
      in_rpcs := g.netconf_global_stats.session_totals.in_rpcs + 1 } }
  ({ w with g := { g with netconf_global_stats := stats } },
   { session with counters := { session.counters with in_rpcs := session.counters.in_rpcs + 1 } })

/-- Increment of `in_bad_rpcs` on the session and on the global totals. -/
def count_in_bad_rpcs (w : World) (session : netconf_session) : World × netconf_session :=
  let g := w.g
  let stats := { g.netconf_global_stats with
    session_totals := { g.netconf_global_stats.session_totals with
      in_bad_rpcs := g.netconf_global_stats.session_totals.in_bad_rpcs + 1 } }
  ({ w with g := { g with netconf_global_stats := stats } },
   { session with
     counters := { session.counters with in_bad_rpcs := session.counters.in_bad_rpcs + 1 } })

/-- Function `handle_lock`. -/
def handle_lock (env : Env) (w : World) (session : netconf_session) (rpc : XmlNode) :
    Except Fault (World × netconf_session × Bool) :=
  let action := xmlFirstElementChild rpc
  match check_target action with
  | .null_deref => .error .null_deref
  | .unsupported name =>
    .ok (send_rpc_error_full env w session (some rpc) .OPR_NOT_SUPPORTED .PROTOCOL
      (some ("Datastore \"" ++ name ++ "\" not supported")) none none true)
  | .running =>
    if w.g.running_ds_lock.locked = false then
      let w1 := { w with g := set_lock w.g session }
      let c := count_in_rpcs w1 session
      let r := send_rpc_ok env c.1 c.2 rpc
      .ok (r.1, c.2, r.2)
    else
      .ok (send_rpc_error_full env w session (some rpc) .LOCK_DENIED .PROTOCOL
        (some ("Lock is already held by session id " ++ fmt_d w.g.running_ds_lock.nc_sess.id))
        none none false)

/-- Function `handle_unlock`. -/
def handle_unlock (env : Env) (w : World) (session : netconf_session) (rpc : XmlNode) :
    Except Fault (World × netconf_session × Bool) :=
  let action := xmlFirstElementChild rpc
  match check_target action with
  | .null_deref => .error .null_deref
  | .unsupported name =>
    .ok (send_rpc_error_full env w session (some rpc) .OPR_NOT_SUPPORTED .PROTOCOL
      (some ("Datastore \"" ++ name ++ "\" not supported")) none none false)
  | .running =>
    if w.g.running_ds_lock.locked = false then
      .ok (send_rpc_error_full env w session (some rpc) .OPR_FAILED .PROTOCOL
        (some "Unlock failed, no lock configured on the \"running\" datastore")
        none none true)
    else if session.id ≠ w.g.running_ds_lock.nc_sess.id then
      .ok (send_rpc_error_full env w session (some rpc) .LOCK_DENIED .PROTOCOL
        (some ("Unlock failed, session " ++ fmt_u session.id ++ " does not own the lock"))
        none none false)
    else
      let w1 := { w with g := reset_lock w.g }
      let c := count_in_rpcs w1 session
      let r := send_rpc_ok env c.1 c.2 rpc
      .ok (r.1, c.2, r.2)

/-! ## The session manager -/

/-- The variables of `netconf.c` as the loader initialises them, before `netconf_init`. -/
def Global.static_init : Global :=
  { netconf_session_id := 1
    netconf_max_sessions := 4
    netconf_num_sessions := 0
    open_sessions_list := []
    running_ds_lock := ⟨⟨0, 0, none, none, none, none, false, ⟨0, 0, 0, 0⟩⟩, false⟩
    netconf_global_stats := ⟨none, 0, 0, 0, ⟨0, 0, 0, 0⟩⟩ }

/-- The state changes of `netconf_init` once the data models are loaded: `rand_value` is the
result of `rand ()`. -/
def netconf_init (rand_value : Nat) : Global :=
  reset_lock { Global.static_init with netconf_session_id := toUInt32 (rand_value % 32768) }

/-- Function `create_session`: the new session and the updated globals. -/
def create_session (env : Env) (g : Global) (fd : Int) : Global × netconf_session :=
  let id0 := toUInt32 g.netconf_session_id
  let next0 := toUInt32 (g.netconf_session_id + 1)
  let id := if id0 = 0 then next0 else id0
  let next := if id0 = 0 then toUInt32 (next0 + 1) else next0
  let session : netconf_session :=
    { fd := fd, id := id, username := none, rem_addr := none, rem_port := none,
      login_time := none, running := env.loop_running, counters := ⟨0, 0, 0, 0⟩ }
  ({ g with
      netconf_session_id := next
      open_sessions_list := g.open_sessions_list ++ [session]
      netconf_num_sessions := toUInt32 (g.netconf_num_sessions + 1)
      netconf_global_stats :=
        { g.netconf_global_stats with in_sessions := g.netconf_global_stats.in_sessions + 1 } },
   session)

/-- Function `remove_netconf_session`: drops the first entry with the id of `session`.  The
table of the source holds pointers and this one holds the sessions themselves: the two agree
as long as the entry found is the one of `session`, which is so when the ids of the table are
pairwise distinct.  When an older entry has the same id, that entry is the one dropped in both;
what then stays behind in the source is the pointer to `session`, which the caller frees, and
nothing is stated here about the entries that remain in that case. -/
def remove_netconf_session (g : Global) (session : netconf_session) : Global :=
  if g.open_sessions_list.any (fun nc_session => session.id == nc_session.id) then
    { g with
        open_sessions_list := g.open_sessions_list.eraseP (fun nc_session => session.id == nc_session.id)
        netconf_num_sessions := toUInt32 (g.netconf_num_sessions + 4294967295) }
  else g

/-- Function `find_netconf_session_by_id`. -/
def find_netconf_session_by_id (g : Global) (session_id : Nat) : Option netconf_session :=
  g.open_sessions_list.find? (fun nc_session => session_id == nc_session.id)

/-- Function `destroy_session`. -/
def destroy_session (g : Global) (session : netconf_session) : Global :=
  let g1 := if session.id = g.running_ds_lock.nc_sess.id then reset_lock g else g
  remove_netconf_session g1 session

/-! ## The state publisher -/

/-- A record built by `_netconf_sessions_refresh`: the key of the node and its leaves. -/
structure SessionRecord where
  key : String
  leaves : List (String × Option String)
  deriving DecidableEq, Repr, Inhabited

/-- The body of the loop of `_netconf_sessions_refresh` for one session. -/
def session_record (g : Global) (nc_session : netconf_session) : SessionRecord :=
  let has_lock := g.running_ds_lock.locked && nc_session.id == g.running_ds_lock.nc_sess.id
  let lock_str := if has_lock then "R" else "-"
  let sess_id := fmt_d nc_session.id
  { key := sess_id
    leaves :=
      [("session-id", some sess_id),
       ("transport", some "netconf-ssh"),
       ("username", nc_session.username),
       ("login-time", nc_session.login_time),
       ("source-host", nc_session.rem_addr),
       ("source-port", nc_session.rem_port),
       ("lock", some lock_str),
       ("status", some "active"),
       ("in-rpcs", some (toString nc_session.counters.in_rpcs)),
       ("in-bad-rpcs", some (toString nc_session.counters.in_bad_rpcs)),
       ("out-rpc-errors", some (toString nc_session.counters.out_rpc_errors)),
       ("out-notifications", some (toString nc_session.counters.out_notifications))] }

/-- The records built by `_netconf_sessions_refresh`, one per open session. -/
def _netconf_sessions_refresh (g : Global) : List SessionRecord :=
  g.open_sessions_list.map (session_record g)

/-- The `lock` leaf of a record. -/
def SessionRecord.lock (r : SessionRecord) : Option String :=
  (r.leaves.find? (fun p => p.1 == "lock")).bind Prod.snd

/-! ## Receiving a framed message -/

/-- What `receive_message` leaves behind: the world, the session, the returned pointer
(`none` for `NULL`), the length stored through `rlen` and the unread input. -/
structure RecvOut where
  w : World
  session : netconf_session
  message : Option (List Nat)
  rlen : Int
  input : List Nat
  deriving Repr, Inhabited

/-- The `while` loop of `receive_message`.  `message` and `len` are the local variables;
`g_malloc` and `g_realloc` end the process when handed a negative `int` (an enormous
`gsize`), and are taken to succeed otherwise; `recv` with `MSG_WAITALL` delivers the whole
chunk or, the input being exhausted, less.  A negative `chunk_len` is followed up to the
allocation only: when `len + chunk_len` is not negative the source shrinks the buffer and
hands `recv` the negative length as an enormous size, and the pass given here for that case
(nothing read, `len` made smaller) is not the one of the source. -/
def receive_message_loop (env : Env) : Nat → World → netconf_session → Option (List Nat) →
    Int → List Nat → Except Fault RecvOut
  | 0, _, _, _, _, _ => .error .out_of_fuel
  | fuel + 1, w, session, message, len, input =>
    if env.loop_running = false then
      .ok ⟨w, { session with running := false }, message, len, input⟩
    else
      let r := read_chunk_size env.loop_running input
      let chunk_len := r.1
      let session1 := { session with running := r.2.2 }
      if session1.running = false then .ok ⟨w, session1, none, 0, r.2.1⟩
      else if chunk_len = 0 then .ok ⟨w, session1, message, len, r.2.1⟩
      else if chunk_len > MAX_REQUEST_MESSAGE_SIZE then
        let e := send_rpc_error_full env w session1 none .TOO_BIG .APP
          (some "NETCONF: The request is too large for the implementation to handle.")
          none none true
        .ok ⟨e.1, e.2.1, none, 0, r.2.1⟩
      else
        let size : Int := match message with
          | none => chunk_len
          | some _ => toInt32 (len + chunk_len)
        if size < 0 then .error .alloc_abort
        else if r.2.1.length < chunk_len.toNat then .ok ⟨w, session1, none, 0, []⟩
        else
          receive_message_loop env fuel w session1
            (some (message.getD [] ++ r.2.1.take chunk_len.toNat))
            (toInt32 (len + chunk_len)) (r.2.1.drop chunk_len.toNat)

/-- Function `receive_message` on the bytes the socket will deliver. -/
def receive_message (env : Env) (w : World) (session : netconf_session) (input : List Nat) :
    Except Fault RecvOut :=
  receive_message_loop env (input.length + 1) w session none 0 input

/-- One chunk on the wire: the header announcing its length, then its bytes. -/
def chunk_frame (chunk : List Nat) : List Nat :=
  [10, 35] ++ decimalBytes chunk.length ++ [10] ++ chunk

/-- The byte stream of the framing claim: every chunk preceded by its header, then the end
marker. -/
def frame_chunks (chunks : List (List Nat)) : List Nat :=
  (chunks.map chunk_frame).flatten ++ NETCONF_BASE_1_1_END

/-- A message of 65536 chunks of 32768 bytes each, 2 GiB in total. -/
def chunks_2GiB : List (List Nat) := List.replicate 65536 (List.replicate 32768 0)

/-- The fault of a computation that stopped, if it did. -/
def fault? {α : Type} : Except Fault α → Option Fault
  | .error f => some f
  | .ok _ => none

/-! ## Request handlers -/

/-- The lock test of `handle_get` and `handle_edit`:
`running_ds_lock.locked == TRUE && session->id != running_ds_lock.nc_sess.id`. -/
def lock_held_by_other (g : Global) (session : netconf_session) : Bool :=
  g.running_ds_lock.locked && session.id != g.running_ds_lock.nc_sess.id

/-- Outcome of reading the `<with-defaults>` option in `handle_get`. -/
inductive WithDefaults where
  | flags (add_defaults trim_defaults : Bool)
  | unsupported (defaults_type : String)
  deriving DecidableEq, Repr

/-- The first loop of `handle_get`: only the first `<with-defaults>` child is looked at. -/
def parse_with_defaults : List XmlNode → WithDefaults
  | [] => .flags false false
  | node :: rest =>
    if node.name = "with-defaults" then
      let defaults_type := xmlNodeGetContent node
      if defaults_type = "report-all" then .flags true false
      else if defaults_type = "trim" then .flags false true
      else if defaults_type ≠ "explicit" then .unsupported defaults_type
      else .flags false false
    else parse_with_defaults rest

/-- The part of `handle_get` that follows the lock test: the with-defaults option is read,
then the request goes to the query pipeline. -/
def handle_get_options (env : Env) (w : World) (session : netconf_session) (rpc : XmlNode)
    (config_only : Bool) : Except Fault (World × netconf_session × Bool) :=
  let action := xmlFirstElementChild rpc
  match parse_with_defaults ((action.map elementChildren).getD []) with
  | .unsupported defaults_type =>
    .ok (send_rpc_error_full env w session (some rpc) .OPR_NOT_SUPPORTED .PROTOCOL
      (some ("WITH-DEFAULTS: No support for with-defaults query type \"" ++ defaults_type
        ++ "\"")) none none true)
  | .flags add_defaults trim_defaults =>
    env.query_pipeline w session rpc
      ⟨env.apteryx_netconf_verbose, config_only, add_defaults, trim_defaults⟩

/-- Function `handle_get`. -/
def handle_get (env : Env) (w : World) (session : netconf_session) (rpc : XmlNode)
    (config_only : Bool) : Except Fault (World × netconf_session × Bool) :=
  if lock_held_by_other w.g session then
    .ok (send_rpc_error_full env w session (some rpc) .IN_USE .APP
      (some "Lock is already held") none none false)
  else handle_get_options env w session rpc config_only

/-- Function `_handle_default_operation`: the default operation, or `none` when the element
is present with a body other than `merge`, `replace` or `none`. -/
def _handle_default_operation (action : Option XmlNode) : Option String :=
  match action.bind (fun a => xmlFindNodeByName a "default-operation") with
  | none => some "merge"
  | some def_op_node =>
    let def_op_content := xmlNodeGetContent def_op_node
    if def_op_content = "merge" then some "merge"
    else if def_op_content = "replace" then some "replace"
    else if def_op_content = "none" then some "none"
    else none

/-- The content of the datastore as the calls issued so far left it: the mutating calls, in
the order they were made. -/
def ds_state (w : World) : List DsOp :=
  w.ds_log.filter DsOp.mutates

/-- Call `apteryx_get_tree (path)`: the call is recorded; the result tells whether a tree came
back. -/
def apteryx_get_tree (env : Env) (w : World) (path : String) : World × Bool :=
  ({ w with ds_log := w.ds_log ++ [.get_tree path] }, env.ds_get_tree (ds_state w) path)

/-- Call `apteryx_get (path)`: the call is recorded; the result tells whether a value came
back. -/
def apteryx_get (env : Env) (w : World) (path : String) : World × Bool :=
  ({ w with ds_log := w.ds_log ++ [.get path] }, env.ds_get (ds_state w) path)

/-- Call `apteryx_prune (path)`, whose result `handle_edit` does not read. -/
def apteryx_prune (w : World) (path : String) : World :=
  { w with ds_log := w.ds_log ++ [.prune path] }

/-- Call `apteryx_set_tree (tree)`: the call is recorded; the result tells whether it
succeeded. -/
def apteryx_set_tree (env : Env) (w : World) (tree : GNodeTree) : World × Bool :=
  ({ w with ds_log := w.ds_log ++ [.set_tree tree] }, env.ds_set_tree (ds_state w) tree)

/-- Function `_check_exist`: the error tag is overwritten when the datastore does not hold
what is expected at the path or below it, and left alone otherwise. -/
def _check_exist (env : Env) (w : World) (check_xpath : String) (err_tag : NC_ERR_TAG)
    (expected : Bool) : World × NC_ERR_TAG :=
  let r := apteryx_get_tree env w check_xpath
  let check_result := r.2
  if check_result && !expected then (r.1, .DATA_EXISTS)
  else if !check_result && expected then (r.1, .DATA_MISSING)
  else (r.1, err_tag)

/-- One of the two loops "Check delete and create paths" of `handle_edit`, entered with
`err_tag` unset: the paths are checked in order and the loop is left at the first path that
sets `err_tag`. -/
def check_paths (env : Env) (expected : Bool) : List String → World → World × NC_ERR_TAG
  | [], w => (w, .UNKNOWN)
  | path :: rest, w =>
    let r := _check_exist env w path .UNKNOWN expected
    if r.2 ≠ .UNKNOWN then r else check_paths env expected rest r.1

/-- One of the three loops "Delete delete, remove and replace paths" of `handle_edit`. -/
def prune_paths : List String → World → World
  | [], w => w
  | path :: rest, w => prune_paths rest (apteryx_prune w path)

/-- The loop "For a create make sure the data does not already exist" of `handle_edit`: the
result tells whether a value was found, at which point the loop is left. -/
def creates_exist (env : Env) : List String → World → World × Bool
  | [], w => (w, false)
  | path :: rest, w =>
    let r := apteryx_get env w path
    if r.2 then (r.1, true) else creates_exist env rest r.1

/-- The loop over the conditions of `handle_edit`, stored as path, condition, path,
condition, ...: the result tells whether a condition failed. -/
def conditions_fail (env : Env) (tree : Option GNodeTree) : List String → Bool
  | path :: condition :: rest =>
    if !env.sch_process_condition tree path condition then true
    else conditions_fail env tree rest
  | _ => false

/-- The statement "Edit database" of `handle_edit`:
`tree && sch_parm_need_tree_set (parms) && !apteryx_set_tree (tree)`; the result tells whether
the condition holds. -/
def edit_database (env : Env) (w : World) (parms : sch_xml_to_gnode_parms) : World × Bool :=
  match parms.tree with
  | none => (w, false)
  | some tree =>
    if parms.need_tree_set then
      let r := apteryx_set_tree env w tree
      (r.1, !r.2)
    else (w, false)

/-- The part of `handle_edit` that follows the translation of the edit. -/
def handle_edit_parms (env : Env) (w : World) (session : netconf_session) (rpc : XmlNode)
    (parms : sch_xml_to_gnode_parms) : World × netconf_session × Bool :=
  let tree := parms.tree
  let error_parms := parms.error
  if error_parms.tag ≠ .UNKNOWN then
    let c := if error_parms.type = .RPC then count_in_bad_rpcs w session else (w, session)
    _send_rpc_error env c.1 c.2 (some rpc) error_parms
  else
    let d := check_paths env true parms.deletes w
    if d.2 ≠ .UNKNOWN then
      send_rpc_error_full env d.1 session (some rpc) d.2 .APP none none none true
    else
      let c := check_paths env false parms.creates d.1
      if c.2 ≠ .UNKNOWN then
        send_rpc_error_full env c.1 session (some rpc) c.2 .APP none none none true
      else
        let w1 := prune_paths parms.replaces
          (prune_paths parms.removes (prune_paths parms.deletes c.1))
        let e := creates_exist env parms.creates w1
        if e.2 then
          send_rpc_error_full env e.1 session (some rpc) .DATA_EXISTS .APP none none none true
        else if conditions_fail env tree parms.conditions then
          send_rpc_error_full env e.1 session (some rpc) .INVALID_VAL .PROTOCOL none none none
            true
        else
          let t := edit_database env e.1 parms
          if t.2 then
            send_rpc_error_full env t.1 session (some rpc) .OPR_FAILED .APP none none none true
          else
            let n := count_in_rpcs t.1 session
            let r := send_rpc_ok env n.1 n.2 rpc
            (r.1, n.2, r.2)

/-- The part of `handle_edit` that follows the lock test: the `<config>` element is looked
up, its first element child is translated, and the edit is carried out. -/
def handle_edit_config (env : Env) (w : World) (session : netconf_session) (rpc : XmlNode)
    (def_op : String) : Except Fault (World × netconf_session × Bool) :=
  let action := xmlFirstElementChild rpc
  match action.bind (fun a => xmlFindNodeByName a "config") with
  | none =>
    .ok (send_rpc_error_full env w session (some rpc) .MISSING_ELEM .PROTOCOL
      (some "Missing config element") (some "config") none false)
  | some node =>
    .ok (handle_edit_parms env w session rpc
      (env.sch_xml_to_gnode (xmlFirstElementChild node)
        ⟨env.apteryx_netconf_verbose, false, false, false⟩ def_op))

/-- Function `handle_edit`. -/
def handle_edit (env : Env) (w : World) (session : netconf_session) (rpc : XmlNode) :
    Except Fault (World × netconf_session × Bool) :=
  let action := xmlFirstElementChild rpc
  match check_target action with
  | .null_deref => .error .null_deref
  | .unsupported name =>
    .ok (send_rpc_error_full env w session (some rpc) .OPR_NOT_SUPPORTED .PROTOCOL
      (some ("Datastore \"" ++ name ++ "\" not supported")) none none true)
  | .running =>
    match _handle_default_operation action with
    | none =>
      .ok (send_rpc_error_full env w session (some rpc) .INVALID_VAL .PROTOCOL
        (some "Invalid value for default-operation parameter") none none true)
    | some def_op =>
      if lock_held_by_other w.g session then
        .ok (send_rpc_error_full env w session (some rpc) .IN_USE .APP
          (some "Lock is already held") none none false)
      else handle_edit_config env w session rpc def_op

/-- Function `strtoul` of the C library on a sign and a magnitude, then the store into a
`uint32_t`: a magnitude beyond `ULONG_MAX` yields `ULONG_MAX` whatever the sign, and
otherwise a minus sign negates the value modulo 2^64. -/
def strtoul32 (neg : Bool) (magnitude : Nat) : Nat :=
  toUInt32 (if magnitude > 18446744073709551615 then 18446744073709551615
    else if neg then (18446744073709551616 - magnitude) % 18446744073709551616
    else magnitude)

/-- Call `sscanf (content, "%u", &kill_session_id)` with `kill_session_id` preset to 0. -/
def scan_session_id (content : List Nat) : Nat :=
  match (cstr content).dropWhile isspace with
  | [] => 0
  | c :: cs =>
    if c = 45 ∨ c = 43 then
      match cs with
      | [] => 0
      | d :: _ => if isdigit d then strtoul32 (c == 45) (scan_digits 0 cs) else 0
    else if isdigit c then strtoul32 false (scan_digits 0 (c :: cs))
    else 0

/-- Function `handle_kill_session`. -/
def handle_kill_session (env : Env) (w : World) (session : netconf_session) (rpc : XmlNode) :
    Except Fault (World × netconf_session × Bool) :=
  let action := xmlFirstElementChild rpc
  match action.bind (fun a => xmlFindNodeByName a "session-id") with
  | none =>
    .ok (send_rpc_error_full env w session (some rpc) .MISSING_ELEM .PROTOCOL
      (some "Missing \"session-id\" element") (some "session-id") none false)
  | some node =>
    let kill_session_id := scan_session_id ((xmlNodeGetContent node).toList.map Char.toNat)
    if kill_session_id = 0 then
      .ok (send_rpc_error_full env w session (some rpc) .INVALID_VAL .PROTOCOL
        (some "Invalid session ID - 0") none none true)
    else if session.id = kill_session_id then
      .ok (send_rpc_error_full env w session (some rpc) .INVALID_VAL .PROTOCOL
        (some "Attempt to kill own session is forbidden") none none true)
    else
      match find_netconf_session_by_id w.g kill_session_id with
      | none =>
        .ok (send_rpc_error_full env w session (some rpc) .INVALID_VAL .PROTOCOL
          (some ("Session ID - " ++ fmt_u kill_session_id ++ " not found!")) none none true)
      | some kill_session =>
        let w1 := { w with shutdown_log := w.shutdown_log ++ [kill_session.fd] }
        let c := count_in_rpcs w1 session
        let r := send_rpc_ok env c.1 c.2 rpc
        .ok (r.1, c.2, r.2)

/-! ## The session worker -/

/-- Increment of `netconf_global_stats.dropped_sessions`. -/
def count_dropped (w : World) : World :=
  { w with g := { w.g with netconf_global_stats :=
      { w.g.netconf_global_stats with
        dropped_sessions := w.g.netconf_global_stats.dropped_sessions + 1 } } }

/-- How one pass through the body of the worker loop ends: with `break`, or at the bottom of
the body, from where the loop condition is tested again. -/
inductive LoopExit where
  | leave
  | again
  deriving DecidableEq, Repr, Inhabited

/-- The result of a handler whose return value the worker ignores: the loop goes on. -/
def after_handler (input : List Nat) (h : Except Fault (World × netconf_session × Bool)) :
    Except Fault (LoopExit × World × netconf_session × List Nat) :=
  match h with
  | .error f => .error f
  | .ok r => .ok (.again, r.1, r.2.1, input)

/-- The dispatch on the name of the first element child of `<rpc>`, in the body of the loop
"Process chunked RPC's" of `netconf_handle_session`. -/
def netconf_handle_session_dispatch (env : Env) (w : World) (session : netconf_session)
    (rpc child : XmlNode) (input : List Nat) :
    Except Fault (LoopExit × World × netconf_session × List Nat) :=
  if child.name = "close-session" then
    let t := send_rpc_ok env w session rpc
    let c := count_in_rpcs t.1 session
    .ok (.leave, c.1, c.2, input)
  else if child.name = "kill-session" then
    after_handler input (handle_kill_session env w session rpc)
  else if child.name = "get" then
    after_handler input (handle_get env w session rpc false)
  else if child.name = "get-config" then
    after_handler input (handle_get env w session rpc true)
  else if child.name = "edit-config" then
    after_handler input (handle_edit env w session rpc)
  else if child.name = "lock" then
    after_handler input (handle_lock env w session rpc)
  else if child.name = "unlock" then
    after_handler input (handle_unlock env w session rpc)
  else
    let e := send_rpc_error_full env w session (some rpc) .OPR_NOT_SUPPORTED .PROTOCOL
      (some ("Unknown RPC (" ++ child.name ++ ")")) none none true
    .ok (.leave, count_dropped e.1, e.2.1, input)

/-- The part of the loop body that follows `receive_message`: the message is parsed, the
`<rpc>` root, its first element child and its `message-id` are checked, and the request is
dispatched. -/
def netconf_handle_session_message (env : Env) (r : RecvOut) :
    Except Fault (LoopExit × World × netconf_session × List Nat) :=
  match r.message with
  | none => .ok (.leave, count_dropped r.w, r.session, r.input)
  | some message =>
    if r.session.running = false then .ok (.leave, count_dropped r.w, r.session, r.input)
    else
      match (env.xmlParseMemory (message.take r.rlen.toNat)).bind xmlDocGetRootElement with
      | none => .ok (.leave, count_dropped r.w, r.session, r.input)
      | some rpc =>
        if rpc.name ≠ "rpc" then .ok (.leave, count_dropped r.w, r.session, r.input)
        else
          match xmlFirstElementChild rpc with
          | none => .ok (.leave, count_dropped r.w, r.session, r.input)
          | some child =>
            if xmlHasProp rpc "message-id" = false then
              let e := send_rpc_error_full env r.w r.session (some rpc) .MISSING_ATTR
                .PROTOCOL (some "RPC missing message-id attribute") (some "rpc")
                (some "message-id") false
              .ok (.leave, count_dropped e.1, e.2.1, r.input)
            else netconf_handle_session_dispatch env r.w r.session rpc child r.input

/-- The body of the loop "Process chunked RPC's" of `netconf_handle_session`, entered with
`session->running` just set: one message is received, parsed and dispatched. -/
def netconf_handle_session_body (env : Env) (w : World) (session : netconf_session)
    (input : List Nat) : Except Fault (LoopExit × World × netconf_session × List Nat) :=
  match receive_message env w session input with
  | .error f => .error f
  | .ok r => netconf_handle_session_message env r

/-- The loop "Process chunked RPC's" of `netconf_handle_session`: returns the world, the
session and the unread input when the loop is left. -/
def netconf_handle_session_loop (env : Env) : Nat → World → netconf_session → List Nat →
    Except Fault (World × netconf_session × List Nat)
  | 0, _, _, _ => .error .out_of_fuel
  | fuel + 1, w, session, input =>
    if env.loop_running = false then .ok (w, { session with running := false }, input)
    else
      match netconf_handle_session_body env w { session with running := true } input with
      | .error f => .error f
      | .ok (.leave, w1, session1, input1) => .ok (w1, session1, input1)
      | .ok (.again, w1, session1, input1) =>
        netconf_handle_session_loop env fuel w1 session1 input1

/-- The tail of `netconf_handle_session` once the hello exchange is done: the loop over the
incoming requests, then `destroy_session`.  Returns the world and the unread input. -/
def netconf_handle_session_rpcs (env : Env) (w : World) (session : netconf_session)
    (input : List Nat) : Except Fault (World × List Nat) :=
  match netconf_handle_session_loop env (input.length + 1) w session input with
  | .error f => .error f
  | .ok r => .ok ({ r.1 with g := destroy_session r.1.g r.2.1 }, r.2.2)

/-! ## Reachable states and expected replies -/

/-- The session at position `i` of the table is replaced by `s` (the worker and the table
share one structure, so what a handler writes to the session shows in the table). -/
def store_session (w : World) (i : Nat) (s : netconf_session) : World :=
  { w with g := { w.g with open_sessions_list := w.g.open_sessions_list.set i s } }

/-- States reachable from `netconf_init` by `create_session`, `handle_lock`, `handle_unlock`
and `destroy_session` steps, each handler step being run by a session of the table. -/
inductive Reachable : World → Prop where
  | init (rand_value : Nat) : Reachable ⟨netconf_init rand_value, [], [], []⟩
  | create (env : Env) (w : World) (fd : Int) :
      Reachable w → Reachable { w with g := (create_session env w.g fd).1 }
  | lock (env : Env) (w : World) (i : Nat) (s : netconf_session) (rpc : XmlNode)
      (w1 : World) (s1 : netconf_session) (ret : Bool) :
      Reachable w → w.g.open_sessions_list.get? i = some s →
      handle_lock env w s rpc = .ok (w1, s1, ret) → Reachable (store_session w1 i s1)
  | unlock (env : Env) (w : World) (i : Nat) (s : netconf_session) (rpc : XmlNode)
      (w1 : World) (s1 : netconf_session) (ret : Bool) :
      Reachable w → w.g.open_sessions_list.get? i = some s →
      handle_unlock env w s rpc = .ok (w1, s1, ret) → Reachable (store_session w1 i s1)
  | destroy (w : World) (i : Nat) (s : netconf_session) :
      Reachable w → w.g.open_sessions_list.get? i = some s →
      Reachable { w with g := destroy_session w.g s }

/-- The reply `<rpc-reply><ok/></rpc-reply>` to a request. -/
def ok_reply (rpc : XmlNode) : XmlNode :=
  create_rpc "rpc-reply" (xmlGetProp rpc "message-id") [.element "ok" [] []]

/-- The reply `<rpc-reply><rpc-error>...</rpc-error></rpc-reply>` with the given tag, type and
message, followed by the given `<error-info>` elements. -/
def error_reply (rpc : Option XmlNode) (tag type msg : String) (info : List XmlNode) : XmlNode :=
  create_rpc "rpc-reply" (rpc.bind (fun r => xmlGetProp r "message-id"))
    [.element "rpc-error" []
      ([.element "error-tag" [] [.text tag],
        .element "error-type" [] [.text type],
        .element "error-severity" [] [.text "error"],
        .element "error-message" [("xml:lang", "en")] [.text msg]] ++ info)]

/-- The `<error-info>` element that names a session. -/
def session_id_info (id : Nat) : XmlNode :=
  .element "error-info" [] [xmlNewChild "session-id" (some (fmt_u id))]

/-- A session owns the lock when the lock is held and records the id and the socket of the
session, the two values that `set_lock` stores when the session takes the lock.  The tests
of the source compare the id only. -/
def owns_lock (g : Global) (session : netconf_session) : Prop :=
  g.running_ds_lock.locked = true ∧ session.id = g.running_ds_lock.nc_sess.id ∧
    session.fd = g.running_ds_lock.nc_sess.fd

/-- A request `<rpc message-id="101"><lock><target><running/></target></lock></rpc>`. -/
def rpc_lock : XmlNode :=
  .element "rpc" [("message-id", "101")]
    [.element "lock" [] [.element "target" [] [.element "running" [] []]]]

/-- A request `<rpc message-id="102"><unlock><target><running/></target></unlock></rpc>`. -/
def rpc_unlock : XmlNode :=
  .element "rpc" [("message-id", "102")]
    [.element "unlock" [] [.element "target" [] [.element "running" [] []]]]

/-- An environment in which the main loop runs, every write succeeds, the parser and the
query pipeline do nothing, every edit translates to nothing and the datastore is empty and
accepts every tree. -/
def env_ok : Env :=
  { loop_running := true
    apteryx_netconf_verbose := false
    write_ok := fun _ => true
    xmlParseMemory := fun _ => none
    query_pipeline := fun w s _ _ => .ok (w, s, true)
    sch_xml_to_gnode := fun _ _ _ => ⟨none, NC_ERROR_PARMS_INIT, [], [], [], [], [], [], false⟩
    sch_process_condition := fun _ _ _ => true
    ds_get_tree := fun _ _ => false
    ds_get := fun _ _ => false
    ds_set_tree := fun _ _ => true }

/-- A session with the given socket and id and zeroed counters. -/
def mk_session (fd : Int) (id : Nat) : netconf_session :=
  { fd := fd, id := id, username := none, rem_addr := none, rem_port := none,
    login_time := none, running := true, counters := ⟨0, 0, 0, 0⟩ }

/-- The world right after `netconf_init` drew the start id 5. -/
def world_init : World := ⟨netconf_init 5, [], [], []⟩

/-- The worlds and sessions before and after an error reply: one more document written on
the session socket, `out_rpc_errors` possibly counted, and nothing else changed. -/
structure ErrorSent (w w1 : World) (s s1 : netconf_session) (doc : XmlNode) (ok : Bool) :
    Prop where
  tx : w1.tx = w.tx ++ [⟨s.fd, doc, ok⟩]
  ds_log : w1.ds_log = w.ds_log
  shutdown_log : w1.shutdown_log = w.shutdown_log
  lock : w1.g.running_ds_lock = w.g.running_ds_lock
  sessions : w1.g.open_sessions_list = w.g.open_sessions_list
  session_id : w1.g.netconf_session_id = w.g.netconf_session_id
  num_sessions : w1.g.netconf_num_sessions = w.g.netconf_num_sessions
  max_sessions : w1.g.netconf_max_sessions = w.g.netconf_max_sessions
  dropped : w1.g.netconf_global_stats.dropped_sessions = w.g.netconf_global_stats.dropped_sessions
  in_sessions : w1.g.netconf_global_stats.in_sessions = w.g.netconf_global_stats.in_sessions
  in_bad_hellos : w1.g.netconf_global_stats.in_bad_hellos = w.g.netconf_global_stats.in_bad_hellos
  total_in_rpcs : w1.g.netconf_global_stats.session_totals.in_rpcs =
    w.g.netconf_global_stats.session_totals.in_rpcs
  total_in_bad_rpcs : w1.g.netconf_global_stats.session_totals.in_bad_rpcs =
    w.g.netconf_global_stats.session_totals.in_bad_rpcs
  id : s1.id = s.id
  fd : s1.fd = s.fd
  running : s1.running = s.running
  in_rpcs : s1.counters.in_rpcs = s.counters.in_rpcs
  in_bad_rpcs : s1.counters.in_bad_rpcs = s.counters.in_bad_rpcs

/-- The world after one session was created on socket 7. -/
def world_created : World :=
  { world_init with g := (create_session env_ok world_init.g 7).1 }

/-- The world after that session took the lock. -/
def world_locked : World :=
  match handle_lock env_ok world_created (mk_session 7 5) rpc_lock with
  | .ok r => store_session r.1 0 r.2.1
  | .error _ => world_created

/-- The world after a second session was created on socket 8. -/
def world_two : World :=
  { world_locked with g := (create_session env_ok world_locked.g 8).1 }

/-- The first session of `world_two`, as the table holds it after its lock request. -/
def session_a : netconf_session :=
  { mk_session 7 5 with counters := ⟨1, 0, 0, 0⟩ }

/-- A request `<rpc message-id="103"><get-config><source><running/></source></get-config></rpc>`. -/
def rpc_get_config : XmlNode :=
  .element "rpc" [("message-id", "103")]
    [.element "get-config" [] [.element "source" [] [.element "running" [] []]]]

/-- The translation that `handle_edit` obtains for a request, when it gets that far: the
target is `running`, the default operation is valid, no other session holds the lock and there
is a `<config>` element. -/
def edit_translation (env : Env) (w : World) (session : netconf_session) (rpc : XmlNode) :
    Option sch_xml_to_gnode_parms :=
  let action := xmlFirstElementChild rpc
  match check_target action with
  | .running =>
    match _handle_default_operation action with
    | some def_op =>
      if lock_held_by_other w.g session then none
      else
        match action.bind (fun a => xmlFindNodeByName a "config") with
        | some node =>
          some (env.sch_xml_to_gnode (xmlFirstElementChild node)
            ⟨env.apteryx_netconf_verbose, false, false, false⟩ def_op)
        | none => none
    | none => none
  | _ => none

/-- The `get_tree` calls of the pre-flight checks on the given paths. -/
def get_tree_calls (paths : List String) : List DsOp :=
  paths.map DsOp.get_tree

/-- The `get` calls of the create re-checks on the given paths. -/
def get_calls (paths : List String) : List DsOp :=
  paths.map DsOp.get

/-- The `prune` calls of an edit: the deletes, then the removes, then the replaces. -/
def prune_calls (parms : sch_xml_to_gnode_parms) : List DsOp :=
  (parms.deletes ++ parms.removes ++ parms.replaces).map DsOp.prune

/-- The `set_tree` call of an edit: one call when there is a mutation tree and
`need_tree_set` holds, none otherwise. -/
def set_tree_calls (parms : sch_xml_to_gnode_parms) : List DsOp :=
  match parms.tree with
  | some tree => if parms.need_tree_set then [.set_tree tree] else []
  | none => []

/-- The world `w` after the given datastore calls were issued. -/
def after_calls (w : World) (calls : List DsOp) : World :=
  { w with ds_log := w.ds_log ++ calls }

/-- A request `<rpc message-id="104"><edit-config><target><running/></target>
<config><interfaces/></config></edit-config></rpc>`. -/
def rpc_edit : XmlNode :=
  .element "rpc" [("message-id", "104")]
    [.element "edit-config" []
      [.element "target" [] [.element "running" [] []],
       .element "config" [] [.element "interfaces" [] []]]]

/-- The request `rpc_edit` with a `<default-operation>` of the given body. -/
def rpc_edit_default (body : String) : XmlNode :=
  .element "rpc" [("message-id", "105")]
    [.element "edit-config" []
      [.element "target" [] [.element "running" [] []],
       .element "default-operation" [] [.text body],
       .element "config" [] [.element "interfaces" [] []]]]

/-- An environment like `env_ok` in which every edit translates to `parms`, the datastore
holds data exactly at the paths of `held` (whatever calls were made), `apteryx_set_tree`
answers `set_ok` and every condition evaluates to `cond_ok`. -/
def env_edit (parms : sch_xml_to_gnode_parms) (held : List String) (set_ok cond_ok : Bool) :
    Env :=
  { env_ok with
    sch_xml_to_gnode := fun _ _ _ => parms
    sch_process_condition := fun _ _ _ => cond_ok
    ds_get_tree := fun _ path => decide (path ∈ held)
    ds_get := fun _ path => decide (path ∈ held)
    ds_set_tree := fun _ _ => set_ok }

/-- An edit that deletes `/a` and `/b`, removes `/r`, creates `/c` and `/d` and replaces
`/p`, with one condition and a mutation tree to be set. -/
def parms_edit : sch_xml_to_gnode_parms :=
  { tree := some ⟨[("/c", "1"), ("/d", "2"), ("/p", "3")]⟩
    error := NC_ERROR_PARMS_INIT
    deletes := ["/a", "/b"]
    removes := ["/r"]
    creates := ["/c", "/d"]
    replaces := ["/p"]
    merges := []
    conditions := ["/c", "../p = 3"]
    need_tree_set := true }

/-- The calls of an edit up to the end of the prunes: the look-ups of the deletes, the
look-ups of the creates, then the prunes. -/
def checked_calls (parms : sch_xml_to_gnode_parms) : List DsOp :=
  get_tree_calls parms.deletes ++ get_tree_calls parms.creates ++ prune_calls parms

/-- The content of the datastore once the prunes of an edit were applied. -/
def pruned_state (w : World) (parms : sch_xml_to_gnode_parms) : List DsOp :=
  ds_state w ++ prune_calls parms

/-- The `set_tree` call of an edit is issued and fails. -/
def set_tree_fails (env : Env) (w : World) (parms : sch_xml_to_gnode_parms) : Prop :=
  ∃ tree, parms.tree = some tree ∧ parms.need_tree_set = true ∧
    env.ds_set_tree (pruned_state w parms) tree = false

/-- A request `<rpc message-id="106"><kill-session><session-id>body</session-id>
</kill-session></rpc>`. -/
def rpc_kill (body : String) : XmlNode :=
  .element "rpc" [("message-id", "106")]
    [.element "kill-session" [] [.element "session-id" [] [.text body]]]

/-- The bytes of a text of ASCII characters. -/
def wire (text : String) : List Nat :=
  text.toList.map Char.toNat

/-- The text of the request `rpc_lock`. -/
def xml_lock : String :=
  "<rpc message-id=\"101\"><lock><target><running/></target></lock></rpc>"

/-- The text of the request `rpc_unlock`. -/
def xml_unlock : String :=
  "<rpc message-id=\"102\"><unlock><target><running/></target></unlock></rpc>"

/-- The text of a request for an operation that the server does not know. -/
def xml_commit : String :=
  "<rpc message-id=\"107\"><commit/></rpc>"

/-- The request `<rpc message-id="107"><commit/></rpc>`. -/
def rpc_commit : XmlNode :=
  .element "rpc" [("message-id", "107")] [.element "commit" [] []]

/-- The text of a lock request without `message-id`. -/
def xml_no_id : String :=
  "<rpc><lock><target><running/></target></lock></rpc>"

/-- The request `<rpc><lock><target><running/></target></lock></rpc>`. -/
def rpc_no_id : XmlNode :=
  .element "rpc" [] [.element "lock" [] [.element "target" [] [.element "running" [] []]]]

/-- An environment like `env_ok` whose parser knows the four texts above and in which the
outcome of each write is given by `write_ok`. -/
def env_wire (write_ok : Nat → Bool) : Env :=
  { env_ok with
    write_ok := write_ok
    xmlParseMemory := fun bytes =>
      if bytes = wire xml_lock then some ⟨[rpc_lock]⟩
      else if bytes = wire xml_unlock then some ⟨[rpc_unlock]⟩
      else if bytes = wire xml_commit then some ⟨[rpc_commit]⟩
      else if bytes = wire xml_no_id then some ⟨[rpc_no_id]⟩
      else none }

/-- The globals after `n` successive calls of `create_session`, the call number `i` (from 0)
being made for the socket `fd i`. -/
def after_creates (env : Env) (fd : Nat → Int) : Nat → Global → Global
  | 0, g => g
  | n + 1, g => (create_session env (after_creates env fd n g) (fd n)).1

/-- The session that call number `n` (from 0) of a run of `create_session` calls creates. -/
def nth_session (env : Env) (fd : Nat → Int) (g : Global) (n : Nat) : netconf_session :=
  (create_session env (after_creates env fd n g) (fd n)).2

/-- The id that the next call of `create_session` hands out: the counter read as a 32-bit
value, or 1 when that is 0. -/
def next_session_id (g : Global) : Nat :=
  if toUInt32 g.netconf_session_id = 0 then 1 else toUInt32 g.netconf_session_id

/-- The indices of the array `chunk_header` that the loop of `read_chunk_size` writes, in
order, while the main loop is running: a pass that receives a byte stores it at index `len`
(through `pt`) and then a NUL at index `len + 1` (`pt[1] = 0`).  The passes are those of
`read_chunk_size_loop`: the list is that of the source up to and including the first index
outside the array, after which the behaviour of the source is undefined. -/
def read_chunk_size_writes (chunk_header : List Nat) (input : List Nat) : List Nat :=
  if chunk_header.length > MAX_CHUNK_HEADER_SIZE then []
  else
    match input with
    | [] => []
    | b :: rest =>
      let len := chunk_header.length
      let chunk_header1 := chunk_header ++ [b]
      if 3 ≤ len ∧ chunk_header1.head? = some 10 ∧ chunk_header1.get? 1 = some 35 ∧ b = 10 then
        if cstr chunk_header1 = NETCONF_BASE_1_1_END then [len, len + 1]
        else
          match sscanf_chunk_header chunk_header1 with
          | some _ => [len, len + 1]
          | none => [len, len + 1] ++ read_chunk_size_writes chunk_header1 rest
      else [len, len + 1] ++ read_chunk_size_writes chunk_header1 rest

/-- The size of the array `chunk_header` of `read_chunk_size`. -/
def chunk_header_size : Nat := MAX_CHUNK_HEADER_SIZE + 1

/-- Macro `NETCONF_MAX_SESSIONS_MIN`. -/
def NETCONF_MAX_SESSIONS_MIN : Nat := 1

/-- Macro `NETCONF_MAX_SESSIONS_MAX`. -/
def NETCONF_MAX_SESSIONS_MAX : Nat := 10

/-- Macro `NETCONF_MAX_SESSIONS_DEF`. -/
def NETCONF_MAX_SESSIONS_DEF : Nat := 4

/-- The result of GLib's `g_parse_long_long` on a sign and a magnitude, as
`g_ascii_strtoull` returns it: `G_MAXUINT64` on overflow, negated modulo 2^64 after a minus
sign. -/
def strtoull (neg : Bool) (magnitude : Nat) : Nat :=
  let v := if magnitude > 18446744073709551615 then 18446744073709551615 else magnitude
  if neg then (18446744073709551616 - v) % 18446744073709551616 else v

/-- Call `g_ascii_strtoull (nptr, NULL, 10)`: white space is skipped, an optional sign and
the decimal digits are read; without a digit the result is 0. -/
def g_ascii_strtoull (nptr : List Nat) : Nat :=
  match (cstr nptr).dropWhile isspace with
  | [] => 0
  | c :: cs =>
    if c = 45 ∨ c = 43 then
      match cs with
      | [] => 0
      | d :: _ => if isdigit d then strtoull (c == 45) (scan_digits 0 cs) else 0
    else if isdigit c then strtoull false (scan_digits 0 (c :: cs))
    else 0

/-- The local variable `max_sessions` of `_netconf_max_sessions` when it is compared with
the bound in force: `value` is `none` for a `NULL` pointer, and the result of
`g_ascii_strtoull` is stored in a `uint32_t` before it is clamped. -/
def max_sessions_value (value : Option (List Nat)) : Nat :=
  match value with
  | none => NETCONF_MAX_SESSIONS_DEF
  | some v =>
    if (cstr v).length = 0 then NETCONF_MAX_SESSIONS_DEF
    else
      let max_sessions := toUInt32 (g_ascii_strtoull v)
      if max_sessions < NETCONF_MAX_SESSIONS_MIN then NETCONF_MAX_SESSIONS_MIN
      else if max_sessions > NETCONF_MAX_SESSIONS_MAX then NETCONF_MAX_SESSIONS_MAX
      else max_sessions

/-- Function `_netconf_max_sessions`, the watch on `/netconf/config/max-sessions`: a changed
bound is stored and written to `/netconf/state/max-sessions`. -/
def _netconf_max_sessions (w : World) (value : Option (List Nat)) : World :=
  let max_sessions := max_sessions_value value
  if w.g.netconf_max_sessions ≠ max_sessions then
    { w with
      g := { w.g with netconf_max_sessions := max_sessions }
      ds_log := w.ds_log ++ [.set "/netconf/state/max-sessions" (toString max_sessions)] }
  else w

/-- An XML result tree as `cleanup_xpath_tree` sees it: every element carries whether
`node_table` holds it; `text` stands for any node that is not an element. -/
inductive MarkedNode where
  | element (name : String) (marked : Bool) (children : List MarkedNode)
  | text (content : String)
  deriving Repr, Inhabited

/-- Test `node->type == XML_ELEMENT_NODE`. -/
def MarkedNode.isElement : MarkedNode → Bool
  | .element _ _ _ => true
  | .text _ => false

/-- Test `g_hash_table_lookup (node_table, node)`. -/
def MarkedNode.marked : MarkedNode → Bool
  | .element _ m _ => m
  | .text _ => false

/-- Field `node->children`. -/
def MarkedNode.children : MarkedNode → List MarkedNode
  | .element _ _ cs => cs
  | .text _ => []

/-- The node with its children replaced by what a sweep left of them. -/
def MarkedNode.setChildren : MarkedNode → List MarkedNode → MarkedNode
  | .element n m _, cs => .element n m cs
  | .text c, _ => .text c

mutual
/-- The call `cleanup_empty_branches (cur_node->children, depth, max_depth, root_deleted)`
for a node that is kept: what is left of its children, and `*root_deleted`. -/
def cleanup_empty_children (depth max_depth : Int) (root_deleted : Bool) :
    MarkedNode → List MarkedNode × Bool
  | .element _ _ children => cleanup_empty_branches depth max_depth true root_deleted children
  | .text _ => ([], root_deleted)
/-- Function `cleanup_empty_branches` on the siblings from `node` on: `first` tells whether
`cur_node == node`; the test `depth < max_depth - 1`, which does not change during the loop,
is made at each node.  Returns what is left of the siblings, and `*root_deleted`. -/
def cleanup_empty_branches (depth max_depth : Int) (first : Bool) (root_deleted : Bool) :
    List MarkedNode → List MarkedNode × Bool
  | [] => ([], root_deleted)
  | cur_node :: next_node =>
    if depth < max_depth - 1 then
      if cur_node.isElement && cur_node.children.isEmpty then
        cleanup_empty_branches depth max_depth false
          (if depth = 0 ∧ first = true then true else root_deleted) next_node
      else
        let r := cleanup_empty_children (depth + 1) max_depth root_deleted cur_node
        let t := cleanup_empty_branches depth max_depth false r.2 next_node
        (cur_node.setChildren r.1 :: t.1, t.2)
    else (cur_node :: next_node, root_deleted)
end

mutual
/-- The call `cleanup_xpath_tree (node_table, cur_node->children, depth, max_depth,
root_deleted)` for a node that is kept: what is left of its children, `*max_depth` and
`*root_deleted`. -/
def cleanup_xpath_children (depth : Int) (max_depth : Int) (root_deleted : Bool) :
    MarkedNode → List MarkedNode × Int × Bool
  | .element _ _ children => cleanup_xpath_tree_sweep depth true max_depth root_deleted children
  | .text _ => ([], if depth > max_depth then depth else max_depth, root_deleted)
/-- The loop of `cleanup_xpath_tree` on the siblings from `node` on, with the update of
`*max_depth` that follows the loop: an element that `node_table` does not hold is removed
with all that is below it.  `first` tells whether `cur_node == node`. -/
def cleanup_xpath_tree_sweep (depth : Int) (first : Bool) (max_depth : Int)
    (root_deleted : Bool) : List MarkedNode → List MarkedNode × Int × Bool
  | [] => ([], if depth > max_depth then depth else max_depth, root_deleted)
  | cur_node :: next_node =>
    if cur_node.isElement && !cur_node.marked then
      cleanup_xpath_tree_sweep depth false max_depth
        (if depth = 0 ∧ first = true then true else root_deleted) next_node
    else
      let r := cleanup_xpath_children (depth + 1) max_depth root_deleted cur_node
      let t := cleanup_xpath_tree_sweep depth false r.2.1 r.2.2 next_node
      (cur_node.setChildren r.1 :: t.1, t.2.1, t.2.2)
end

/-- Function `cleanup_xpath_tree` as `xpath_evaluate` calls it: on the root element `xml` of a
fresh document (so `xml` has no siblings), at depth 0, with `max_depth = 0` and
`root_deleted = false`.  Returns what is left of the tree and `root_deleted`.  The second
sweep runs on what the first one left; when the first sweep removed the root itself, the
source hands the pointer to the freed root to `cleanup_empty_branches`, which is taken here
as a sweep over nothing. -/
def cleanup_xpath_tree (xml : MarkedNode) : Option MarkedNode × Bool :=
  let r := cleanup_xpath_tree_sweep 0 true 0 false [xml]
  let e := cleanup_empty_branches 0 r.2.1 true r.2.2 r.1
  (e.1.head?, e.2)

/-- The depths of the elements without children among the given siblings (at `depth`) and
below them. -/
def empty_element_depths (depth : Nat) : List MarkedNode → List Nat
  | [] => []
  | .element _ _ [] :: rest => depth :: empty_element_depths depth rest
  | .element _ _ (c :: cs) :: rest =>
    empty_element_depths (depth + 1) (c :: cs) ++ empty_element_depths depth rest
  | .text _ :: rest => empty_element_depths depth rest

/-- The depths of all elements among the given siblings (at `depth`) and below them. -/
def element_depths (depth : Nat) : List MarkedNode → List Nat
  | [] => []
  | .element _ _ children :: rest =>
    depth :: (element_depths (depth + 1) children ++ element_depths depth rest)
  | .text _ :: rest => element_depths depth rest

/-- The tree `<root><a><b/></a><c><d>x</d></c></root>` with every element marked. -/
def tree_all_marked : MarkedNode :=
  .element "root" true
    [.element "a" true [.element "b" true []],
     .element "c" true [.element "d" true [.text "x"]]]

/-- The tree `<root><a><b><e>1</e></b></a><c><d>x</d></c></root>` with every element but
`<e>` marked. -/
def tree_one_unmarked : MarkedNode :=
  .element "root" true
    [.element "a" true [.element "b" true [.element "e" false [.text "1"]]],
     .element "c" true [.element "d" true [.text "x"]]]

/-- The tree `<root><a/><c><d>x</d></c></root>` that the sweeps leave of both. -/
def tree_swept : MarkedNode :=
  .element "root" true
    [.element "a" true [],
     .element "c" true [.element "d" true [.text "x"]]]

/-! ## The hello exchange and the start of a session -/

/-- Macro `NETCONF_BASE_1_0_END`, the bytes of "]]>]]>". -/
def NETCONF_BASE_1_0_END : List Nat := [93, 93, 62, 93, 93, 62]

/-- Macro `NETCONF_HELLO_END`, the bytes of "hello>]]>]]>". -/
def NETCONF_HELLO_END : List Nat := [104, 101, 108, 108, 111, 62, 93, 93, 62, 93, 93, 62]

/-- Macro `NETCONF_HELLO_END_LEN`. -/
def NETCONF_HELLO_END_LEN : Nat := 12

/-- Macro `HELLO_RX_SIZE`. -/
def HELLO_RX_SIZE : Nat := 1024

/-- Macro `MAX_HELLO_RX_SIZE`. -/
def MAX_HELLO_RX_SIZE : Nat := 16384

/-- The document built by `send_hello`: the four fixed capabilities, those of the loaded
models, and the session id printed with `%u`. -/
def hello_doc (env : Env) (session : netconf_session) : XmlNode :=
  create_rpc "hello" none
    [.element "capabilities" []
      ([xmlNewChild "capability" (some "urn:ietf:params:netconf:base:1.1"),
        xmlNewChild "capability" (some "urn:ietf:params:netconf:capability:xpath:1.0"),
        xmlNewChild "capability"
          (some "urn:ietf:params:netconf:capability:writable-running:1.0"),
        xmlNewChild "capability"
          (some ("urn:ietf:params:netconf:capability:with-defaults:1.0?basic-mode=explicit"
            ++ "&also-supported=report-all,trim"))] ++
       env.model_capabilities.map (fun capability => xmlNewChild "capability" (some capability))),
     xmlNewChild "session-id" (some (fmt_u session.id))]

/-- Function `send_hello`: the document and its trailer are written on the session socket. -/
def send_hello (env : Env) (w : World) (session : netconf_session) : World × Bool :=
  write_doc env w session.fd (hello_doc env session)

/-- The text of the `<session-id>` element child of a document. -/
def hello_session_id (doc : XmlNode) : Option String :=
  (xmlFindNodeByName doc "session-id").map xmlNodeGetContent

/-- The loop of `g_strstr_len`: `p` runs over the haystack while the needle still fits and
`*p` is not NUL; returns the offset of the first match. -/
def g_strstr_len_scan (needle : List Nat) : List Nat → Nat → Option Nat
  | [], _ => none
  | b :: rest, p =>
    if (b :: rest).length < needle.length then none
    else if b = 0 then none
    else if (b :: rest).take needle.length = needle then some p
    else g_strstr_len_scan needle rest (p + 1)

/-- Function `g_strstr_len` of GLib with a non-negative `haystack_len`: the offset of the
first occurrence of `needle` within the first `haystack_len` bytes, the search ending at a
NUL byte. -/
def g_strstr_len (haystack : List Nat) (haystack_len : Nat) (needle : List Nat) : Option Nat :=
  if needle.length = 0 then some 0
  else if haystack_len < needle.length then none
  else g_strstr_len_scan needle (haystack.take haystack_len) 0

/-- The `while` loop of `handle_hello`.  `k` counts the calls of `recv`, `front` is the content
of the first `NETCONF_HELLO_END_LEN` bytes of `buf`, `input` is the part of the stream that
was not peeked yet (`SO_PEEK_OFF` makes the peeks sequential).  Returns `some total_len` when
the loop is left, `none` when the function returns `false` from within the loop. -/
def handle_hello_loop (env : Env) : Nat → Nat → List Nat → Nat → List Nat →
    Except Fault (Option Nat)
  | 0, _, _, _, _ => .error .out_of_fuel
  | fuel + 1, k, front, total_len, input =>
    if env.loop_running = false then .ok (some total_len)
    else
      let recv_len := HELLO_RX_SIZE - NETCONF_HELLO_END_LEN
      let len := min (min recv_len (env.hello_recv k)) input.length
      if len > 0 then
        match g_strstr_len (front ++ input.take len) (len + NETCONF_HELLO_END_LEN)
            NETCONF_HELLO_END with
        | some m => .ok (some (total_len + m))
        | none =>
          if len < recv_len then .ok none
          else
            let total_len1 := total_len + recv_len
            if total_len1 ≥ MAX_HELLO_RX_SIZE then .ok none
            else
              handle_hello_loop env fuel (k + 1)
                ((input.take len).drop (recv_len - NETCONF_HELLO_END_LEN)) total_len1
                (input.drop len)
      else .ok none

/-- Function `handle_hello` on the bytes the socket will deliver: the result, and the input
left unread.  `g_malloc0 (0)` returns `NULL`; the final `recv` finds the bytes that were
peeked. -/
def handle_hello (env : Env) (input : List Nat) : Except Fault (Bool × List Nat) :=
  match handle_hello_loop env
      (MAX_HELLO_RX_SIZE / (HELLO_RX_SIZE - NETCONF_HELLO_END_LEN) + 1) 0
      (List.replicate NETCONF_HELLO_END_LEN 32) 0 input with
  | .error f => .error f
  | .ok none => .ok (false, input)
  | .ok (some total_len) =>
    if total_len = 0 then .ok (false, input)
    else
      let buffer := input.take total_len
      let len := buffer.length
      if len = 0 then .ok (false, input)
      else
        match g_strstr_len buffer len NETCONF_BASE_1_0_END with
        | none => .ok (false, input.drop total_len)
        | some endpt =>
          .ok (validate_hello (env.xmlParseMemory (buffer.take endpt)), input.drop total_len)

/-- Increment of `netconf_global_stats.in_bad_hellos`. -/
def count_bad_hello (w : World) : World :=
  { w with g := { w.g with netconf_global_stats :=
      { w.g.netconf_global_stats with
        in_bad_hellos := w.g.netconf_global_stats.in_bad_hellos + 1 } } }

/-- The session with what was found out about the peer. -/
def set_peer (session : netconf_session) (peer : Option PeerCred) : netconf_session :=
  match peer with
  | some p =>
    { session with username := p.pw_name, rem_addr := p.rem_addr, rem_port := p.rem_port,
                   login_time := p.login_time }
  | none => session

/-- The exits of `netconf_handle_session` before the request loop: `destroy_session`, then
`return NULL`. -/
def netconf_handle_session_drop (w : World) (session : netconf_session) (input : List Nat) :
    Except Fault (World × List Nat) :=
  .ok ({ w with g := destroy_session w.g session }, input)

/-- Function `netconf_handle_session` for a connection on `fd` that will deliver `input`:
returns the world and the unread input.  The table entry of the session is brought up to
date when the peer data are stored. -/
def netconf_handle_session (env : Env) (w : World) (fd : Int) (input : List Nat) :
    Except Fault (World × List Nat) :=
  let c := create_session env w.g fd
  let w1 : World := { w with g := c.1 }
  let session := c.2
  if session.running = false ∨ w1.g.netconf_num_sessions > w1.g.netconf_max_sessions then
    netconf_handle_session_drop (count_dropped w1) session input
  else if env.setsockopt_rcvtimeo_ok = false then
    netconf_handle_session_drop (count_dropped w1) session input
  else
    let session1 := set_peer session env.getsockopt_peercred
    let w2 := store_session w1 w.g.open_sessions_list.length session1
    let session2 := { session1 with running := env.loop_running }
    if session2.running = false then
      netconf_handle_session_drop (count_dropped w2) session2 input
    else
      let h := send_hello env w2 session2
      if h.2 = false then netconf_handle_session_drop (count_dropped h.1) session2 input
      else
        let session3 := { session2 with running := env.loop_running }
        if session3.running = false then
          netconf_handle_session_drop (count_bad_hello h.1) session3 input
        else
          match handle_hello env input with
          | .error f => .error f
          | .ok (false, input1) =>
            netconf_handle_session_drop (count_bad_hello h.1) session3 input1
          | .ok (true, input1) => netconf_handle_session_rpcs env h.1 session3 input1

/-- The bytes of the hello of scenario S1. -/
def hello_bytes : List Nat :=
  ("<hello><capabilities><capability>urn:ietf:params:netconf:base:1.1</capability>" ++
    "</capabilities></hello>").toList.map Char.toNat

/-- The byte stream of a client hello that follows `pad` blanks: the blanks, the document and
the trailer. -/
def padded_hello (pad : Nat) : List Nat :=
  List.replicate pad 32 ++ (hello_bytes ++ NETCONF_BASE_1_0_END)

/-- A parser that reads the bytes of the hello of scenario S1, after any number of blanks, as
that document, and nothing else. -/
def parse_hello_bytes (buffer : List Nat) : Option XmlDoc :=
  if buffer.dropWhile (fun b => b == 32) = hello_bytes then some helloS1 else none

/-- An environment with that parser. -/
def env_hello : Env :=
  { env_ok with xmlParseMemory := parse_hello_bytes }

/-- A state with one open session, of id 5, the counter of ids having come round to 5, and
room for one session only. -/
def world_full : World :=
  { world_init with g :=
      { world_init.g with
        netconf_session_id := 5
        netconf_max_sessions := 1
        netconf_num_sessions := 1
        open_sessions_list := [{ mk_session 7 5 with username := some "admin" }] } }

/-- The world with two open sessions, with room for two sessions only. -/
def world_two_full : World :=
  { world_two with g := { world_two.g with netconf_max_sessions := 2 } }

/-! ## The query pipeline -/

/-- The local state of `handle_get` that `get_process_action` reads and writes, with the
world and the session: the list of results, `filter_seen` and `ret`. -/
structure GetState where
  w : World
  session : netconf_session
  xml_list : List (Option XmlNode)
  filter_seen : Bool
  ret : Bool

/-- An error reply of the query pipeline: `send_rpc_error_full` is called and `*ret` set to
its result; `counted` tells whether `in_bad_rpcs` is incremented on the way out (by
`cleanup_on_xpath_error` or in place).  The second component is `true`: the caller sees the
return value -1. -/
def get_error (env : Env) (st : GetState) (rpc : XmlNode) (err_tag : NC_ERR_TAG)
    (err_type : NC_ERR_TYPE) (error_msg : String) (bad_elem bad_attr : Option String)
    (no_info : Bool) (counted : Bool) : GetState × Bool :=
  let e := send_rpc_error_full env st.w st.session (some rpc) err_tag err_type (some error_msg)
    bad_elem bad_attr no_info
  let c := if counted then count_in_bad_rpcs e.1 e.2.1 else (e.1, e.2.1)
  ({ st with w := c.1, session := c.2, ret := e.2.2 }, true)

/-- Function `xpath_evaluate`: the list of results and whether `status == 0`; an expression
that does not evaluate sends its own error reply.  When no XPath context can be allocated,
`xpath_obj` is never assigned: the function sends the error reply and then tests and frees
that variable, and the computation stops there. -/
def xpath_evaluate (env : Env) (st : GetState) (rpc : XmlNode) (path : String)
    (xml : XmlNode) : Except Fault (GetState × Bool) :=
  match env.xpath_eval xml path with
  | .nodes result => .ok ({ st with xml_list := st.xml_list ++ [result] }, true)
  | .no_nodeset => .ok (st, true)
  | .invalid =>
    let e := send_rpc_error_full env st.w st.session (some rpc) .OPR_NOT_SUPPORTED .APP
      (some "NETCONF: XPATH invalid predicate") none none true
    .ok ({ st with w := e.1, session := e.2.1 }, false)
  | .no_context => .error .uninit_read

/-- Function `get_query_to_xml`: the datastore is queried when there is a query or when there
is no filter; the result is appended to the list, after the XPath evaluation when the kind is
`XPATH_EVALUATE`.  The second component is the return value. -/
def get_query_to_xml (env : Env) (st : GetState) (rpc : XmlNode) (query : Option GNodeTree)
    (path : String) (x_type : xpath_type) (schflags : SchFlags) (is_subtree is_filter : Bool)
    (rschema : Option sch_node) : Except Fault (GetState × Bool) :=
  let queried := query.isSome || !is_filter
  let xml :=
    if queried then
      env.get_tree_xml (ds_state st.w) query rschema schflags x_type is_subtree is_filter
    else none
  let st1 :=
    if queried then { st with w := { st.w with ds_log := st.w.ds_log ++ [.query] } } else st
  match xml with
  | some x =>
    if x_type = .XPATH_EVALUATE then xpath_evaluate env st1 rpc path x
    else .ok ({ st1 with xml_list := st1.xml_list ++ [some x] }, true)
  | none => .ok ({ st1 with xml_list := st1.xml_list ++ [none] }, true)

/-- Function `get_query_schema`: the depths and the response schema node it computes enter
the query only, which `get_tree_xml` stands for; it ends in `get_query_to_xml` with
`is_filter = true`. -/
def get_query_schema (env : Env) (st : GetState) (rpc : XmlNode) (query : Option GNodeTree)
    (qschema : sch_node) (path : String) (x_type : xpath_type) (schflags : SchFlags)
    (is_subtree : Bool) : Except Fault (GetState × Bool) :=
  get_query_to_xml env st rpc query path x_type schflags is_subtree true (some qschema)

/-- Call `g_strsplit (attr, "|", -1)`: an empty string has no parts. -/
def g_strsplit_bar (attr : String) : List String :=
  if attr = "" then [] else attr.splitOn "|"

/-- The way out of `get_process_action` after a query that returned `false`, having sent
its own error reply: the request is counted in `in_bad_rpcs` (by `cleanup_on_xpath_error` in
the loop of the XPath filter, in place in the loop of the subtree filter) and the function
returns -1. -/
def query_failed (st : GetState) : GetState × Bool :=
  let c := count_in_bad_rpcs st.w st.session
  ({ st with w := c.1, session := c.2 }, true)

/-- The loop of `get_process_action` over the parts of the `select` attribute of an XPath
filter.  The second component tells whether the function returns -1. -/
def get_process_xpath (env : Env) (rpc node : XmlNode) (attr : String) (schflags : SchFlags) :
    List String → GetState → Except Fault (GetState × Bool)
  | [], st => .ok (st, false)
  | part :: rest, st =>
    let path := (part.trim).replace "child::" ""
    let q := env.sch_xpath_to_gnode rpc node path schflags
    if q.x_type = .XPATH_ERROR ∨ (q.query.isNone ∧ q.x_type = .XPATH_SIMPLE) then
      .ok (get_error env st rpc .MALFORMED_MSG .RPC "XPATH: malformed filter" none none true
        true)
    else
      match q.qschema with
      | some qschema =>
        if qschema.is_leaf = true ∧ qschema.is_readable = false then
          .ok (get_error env st rpc .OPR_NOT_SUPPORTED .APP
            ("NETCONF: Path \"" ++ attr ++ "\" not readable") none none true true)
        else
          match get_query_schema env st rpc q.query qschema path q.x_type schflags false with
          | .error f => .error f
          | .ok (st1, false) => .ok (query_failed st1)
          | .ok (st1, true) => get_process_xpath env rpc node attr schflags rest st1
      | none =>
        if q.query.isNone ∧ q.x_type = .XPATH_EVALUATE then
          match get_query_to_xml env st rpc q.query path q.x_type schflags false true none with
          | .error f => .error f
          | .ok (st1, false) => .ok (query_failed st1)
          | .ok (st1, true) => get_process_xpath env rpc node attr schflags rest st1
        else
          .ok (get_error env st rpc .MALFORMED_MSG .RPC "XPATH: malformed query" none none true
            true)

/-- The loop of `get_process_action` over the element children of a subtree filter; `attr` is
the type of the filter. -/
def get_process_subtree (env : Env) (rpc : XmlNode) (attr : String) (schflags : SchFlags) :
    List XmlNode → GetState → Except Fault (GetState × Bool)
  | [], st => .ok (st, false)
  | tnode :: rest, st =>
    let q := env.sch_xml_to_gnode_query tnode schflags
    match q.1 with
    | none =>
      .ok (get_error env st rpc .MALFORMED_MSG .RPC "SUBTREE: malformed query" none none true
        true)
    | some query =>
      match q.2 with
      | some qschema =>
        if qschema.is_leaf = true ∧ qschema.is_readable = false then
          .ok (get_error env st rpc .OPR_NOT_SUPPORTED .APP
            ("NETCONF: Path \"" ++ attr ++ "\" not readable") none none true false)
        else
          match get_query_schema env st rpc (some query) qschema "" .XPATH_NONE schflags
              true with
          | .error f => .error f
          | .ok (st1, false) => .ok (query_failed st1)
          | .ok (st1, true) => get_process_subtree env rpc attr schflags rest st1
      | none => get_process_subtree env rpc attr schflags rest st

/-- Function `get_process_action` on one element child of the request.  The second component
tells whether the function returns -1.  A `<source>` without an element child makes the
function read the name of a `NULL` node. -/
def get_process_action (env : Env) (rpc node : XmlNode) (schflags : SchFlags)
    (st : GetState) : Except Fault (GetState × Bool) :=
  if node.name = "source" then
    match xmlFirstElementChild node with
    | none => .error .null_deref
    | some ds =>
      if ds.name ≠ "running" then
        .ok (get_error env st rpc .OPR_NOT_SUPPORTED .PROTOCOL
          ("Datastore \"" ++ ds.name ++ "\" not supported") none none true false)
      else .ok (st, false)
  else if node.name = "filter" then
    let st1 := { st with filter_seen := true }
    let attr := (xmlGetProp node "type").getD "subtree"
    if attr = "xpath" then
      match xmlGetProp node "select" with
      | none =>
        .ok (get_error env st1 rpc .MISSING_ATTR .PROTOCOL
          "XPATH filter missing select attribute" (some "xpath") (some "select") false false)
      | some select =>
        get_process_xpath env rpc node select schflags (g_strsplit_bar select) st1
    else if attr = "subtree" then
      match elementChildren node with
      | [] => .ok ({ st1 with xml_list := st1.xml_list ++ [none] }, false)
      | tnode :: rest => get_process_subtree env rpc attr schflags (tnode :: rest) st1
    else
      .ok (get_error env st1 rpc .OPR_NOT_SUPPORTED .APP
        ("FILTER: unsupported/missing type (" ++ attr ++ ")") none none true false)
  else .ok (st, false)

/-- The second loop of `handle_get`, over the element children of the request. -/
def handle_get_actions (env : Env) (rpc : XmlNode) (schflags : SchFlags) :
    List XmlNode → GetState → Except Fault (GetState × Bool)
  | [], st => .ok (st, false)
  | node :: rest, st =>
    if node.name = "with-defaults" then handle_get_actions env rpc schflags rest st
    else
      match get_process_action env rpc node schflags st with
      | .error f => .error f
      | .ok (st1, true) => .ok (st1, true)
      | .ok (st1, false) => handle_get_actions env rpc schflags rest st1

/-- The document built by `send_rpc_data`. -/
def data_reply (rpc : XmlNode) (xml_list : List (Option XmlNode)) : XmlNode :=
  create_rpc "rpc-reply" (xmlGetProp rpc "message-id")
    [.element "data" [] (xml_list.filterMap id)]

/-- Function `send_rpc_data`. -/
def send_rpc_data (env : Env) (w : World) (session : netconf_session) (rpc : XmlNode)
    (xml_list : List (Option XmlNode)) : World × Bool :=
  write_doc env w session.fd (data_reply rpc xml_list)

/-- The part of `handle_get` that follows the reading of the with-defaults option: the
remaining options are processed, a request without filter and without result queries the
whole tree, and the results are sent in `<data>`. -/
def handle_get_query (env : Env) (w : World) (session : netconf_session) (rpc : XmlNode)
    (schflags : SchFlags) : Except Fault (World × netconf_session × Bool) :=
  let action := xmlFirstElementChild rpc
  match handle_get_actions env rpc schflags ((action.map elementChildren).getD [])
      ⟨w, session, [], false, false⟩ with
  | .error f => .error f
  | .ok (st, true) => .ok (st.w, st.session, st.ret)
  | .ok (st, false) =>
    let r :=
      if st.filter_seen = false ∧ st.xml_list.isEmpty = true then
        get_query_to_xml env st rpc none "" .XPATH_NONE schflags false false none
      else .ok (st, true)
    match r with
    | .error f => .error f
    | .ok (st1, false) =>
      let c := count_in_bad_rpcs st1.w st1.session
      .ok (c.1, c.2, false)
    | .ok (st1, true) =>
      let d := send_rpc_data env st1.w st1.session rpc st1.xml_list
      let c := count_in_rpcs d.1 st1.session
      .ok (c.1, c.2, true)

/-- The environment whose query pipeline is the one of `netconf.c`: with it `handle_get` is
the whole function of the source. -/
def env_query (env : Env) : Env :=
  { env with query_pipeline := handle_get_query env }

/-- The error replies of `handle_get` and of the functions it calls. -/
inductive GetError where
  | in_use
  | with_defaults (defaults_type : String)
  | source (name : String)
  | missing_select
  | filter_type (attr : String)
  | subtree_not_readable
  | xpath_malformed_filter
  | xpath_malformed_query
  | xpath_not_readable (select : String)
  | xpath_invalid_predicate
  | subtree_malformed_query
  deriving DecidableEq, Repr

/-- Whether `in_bad_rpcs` is incremented when the error is answered. -/
def GetError.counted : GetError → Bool
  | .in_use => false
  | .with_defaults _ => false
  | .source _ => false
  | .missing_select => false
  | .filter_type _ => false
  | .subtree_not_readable => false
  | .xpath_malformed_filter => true
  | .xpath_malformed_query => true
  | .xpath_not_readable _ => true
  | .xpath_invalid_predicate => true
  | .subtree_malformed_query => true

/-- The error value with which the error is answered, in the world `w`. -/
def GetError.parms (w : World) : GetError → nc_error_parms
  | .in_use => error_parms_full w .IN_USE .APP (some "Lock is already held") none none false
  | .with_defaults defaults_type =>
    error_parms_full w .OPR_NOT_SUPPORTED .PROTOCOL
      (some ("WITH-DEFAULTS: No support for with-defaults query type \"" ++ defaults_type
        ++ "\"")) none none true
  | .source name =>
    error_parms_full w .OPR_NOT_SUPPORTED .PROTOCOL
      (some ("Datastore \"" ++ name ++ "\" not supported")) none none true
  | .missing_select =>
    error_parms_full w .MISSING_ATTR .PROTOCOL (some "XPATH filter missing select attribute")
      (some "xpath") (some "select") false
  | .filter_type attr =>
    error_parms_full w .OPR_NOT_SUPPORTED .APP
      (some ("FILTER: unsupported/missing type (" ++ attr ++ ")")) none none true
  | .subtree_not_readable =>
    error_parms_full w .OPR_NOT_SUPPORTED .APP
      (some ("NETCONF: Path \"" ++ "subtree" ++ "\" not readable")) none none true
  | .xpath_malformed_filter =>
    error_parms_full w .MALFORMED_MSG .RPC (some "XPATH: malformed filter") none none true
  | .xpath_malformed_query =>
    error_parms_full w .MALFORMED_MSG .RPC (some "XPATH: malformed query") none none true
  | .xpath_not_readable select =>
    error_parms_full w .OPR_NOT_SUPPORTED .APP
      (some ("NETCONF: Path \"" ++ select ++ "\" not readable")) none none true
  | .xpath_invalid_predicate =>
    error_parms_full w .OPR_NOT_SUPPORTED .APP (some "NETCONF: XPATH invalid predicate")
      none none true
  | .subtree_malformed_query =>
    error_parms_full w .MALFORMED_MSG .RPC (some "SUBTREE: malformed query") none none true

/-- An environment like `env_ok` whose schema maps every filter, of either kind, to a leaf
that cannot be read. -/
def env_unreadable : Env :=
  { env_ok with
    sch_xpath_to_gnode := fun _ _ _ _ =>
      { query := some ⟨[]⟩, qschema := some ⟨true, false⟩, x_type := .XPATH_SIMPLE }
    sch_xml_to_gnode_query := fun _ _ => (some ⟨[]⟩, some ⟨true, false⟩) }

/-- A request `<rpc message-id="105"><get><filter type="xpath"/></get></rpc>`. -/
def rpc_get_no_select : XmlNode :=
  .element "rpc" [("message-id", "105")]
    [.element "get" [] [.element "filter" [("type", "xpath")] []]]

/-- A request `<rpc message-id="106"><get><filter><x/></filter></get></rpc>`. -/
def rpc_get_subtree : XmlNode :=
  .element "rpc" [("message-id", "106")]
    [.element "get" [] [.element "filter" [] [.element "x" [] []]]]

/-- A request `<rpc message-id="107"><get/></rpc>`. -/
def rpc_get_all : XmlNode :=
  .element "rpc" [("message-id", "107")] [.element "get" [] []]

/-- A connection on socket `fd` that `create_session` accepts and `destroy_session` closes
right away. -/
def connect_and_leave (env : Env) (fd : Int) (w : World) : World :=
  { w with g := destroy_session (create_session env w.g fd).1 (create_session env w.g fd).2 }

/-- The world after `n` such connections. -/
def connections (env : Env) (fd : Int) : Nat → World → World
  | 0, w => w
  | n + 1, w => connect_and_leave env fd (connections env fd n w)

/-- The id counter after `n` connections that found it at 6: it runs up to 2^32 - 1, wraps
to 0, and `create_session` skips 0, hands out 1 and goes on from 2. -/
def counter_after (n : Nat) : Nat :=
  if n ≤ 4294967290 then (6 + n) % 4294967296 else n - 4294967289

/-- The world `world_locked` after `n` connections came and went: the counter of ids and the
count of sessions have moved, nothing else. -/
def world_after (n : Nat) : World :=
  { world_locked with g := { world_locked.g with
      netconf_session_id := counter_after n
      netconf_global_stats :=
        { world_locked.g.netconf_global_stats with in_sessions := 1 + n } } }

/-- The world with two open sessions of id 5: the session on socket 7 holds the lock, as in
`world_locked`; 4294967294 connections came and went, which brought the counter of ids back
to 5; then `create_session` accepted the session on socket 8. -/
def world_same_id : World :=
  { world_after 4294967294 with g := (create_session env_ok (world_after 4294967294).g 8).1 }

/-! ## Theorems -/

theorem validate_hello_caps_iff (l : List XmlNode) :
    validate_hello_caps l = true ↔
      ∃ cap, cap ∈ l ∧ cap.name = "capability" ∧ xmlNodeGetContent cap = BASE_1_1 := by
  induction l with
  | nil => simp [validate_hello_caps]
  | cons c cs ih =>
    unfold validate_hello_caps
    by_cases h1 : c.name = "capability"
    · by_cases h2 : xmlNodeGetContent c = BASE_1_1
      · simp [h1, h2]
      · simp only [h1, h2, if_true, if_false, ih]
        constructor
        · rintro ⟨cap, hm, hn, hc⟩
          exact ⟨cap, List.mem_cons_of_mem _ hm, hn, hc⟩
        · rintro ⟨cap, hm, hn, hc⟩
          rcases List.mem_cons.mp hm with rfl | hm
          · exact absurd hc h2
          · exact ⟨cap, hm, hn, hc⟩
    · simp only [h1, if_false, ih]
      constructor
      · rintro ⟨cap, hm, hn, hc⟩
        exact ⟨cap, List.mem_cons_of_mem _ hm, hn, hc⟩
      · rintro ⟨cap, hm, hn, hc⟩
        rcases List.mem_cons.mp hm with rfl | hm
        · exact absurd hn h1
        · exact ⟨cap, hm, hn, hc⟩

/-- C1 (as amended): for every parsed hello document, `validate_hello` accepts it if and only
if the first element child of the root is a `<capabilities>` element that contains a
`<capability>` whose text content is exactly `urn:ietf:params:netconf:base:1.1`. -/
theorem validate_hello_accepts_iff (doc : XmlDoc) (hdoc : isHelloDoc doc) :
    validate_hello (some doc) = true ↔ firstChildCapsHasBase11 doc := by
  obtain ⟨root, hroot, hname⟩ := hdoc
  unfold validate_hello firstChildCapsHasBase11
  simp only [hroot, hname, ne_eq, not_true_eq_false, if_false]
  cases hfc : xmlFirstElementChild root with
  | none =>
    simp only [Bool.false_eq_true, false_iff]
    rintro ⟨root', caps, cap, hr, hcaps, _⟩
    cases hr
    rw [hfc] at hcaps
    cases hcaps
  | some node =>
    by_cases hn : node.name = "capabilities"
    · simp only [hn, not_true_eq_false, if_false, validate_hello_caps_iff]
      constructor
      · rintro ⟨cap, hm, hcn, hc⟩
        exact ⟨root, node, cap, rfl, hfc, hn, hm, hcn, hc⟩
      · rintro ⟨root', caps, cap, hr, hcaps, _, hm, hcn, hc⟩
        cases hr
        rw [hfc] at hcaps
        cases hcaps
        exact ⟨cap, hm, hcn, hc⟩
    · simp only [hn, not_false_eq_true, if_true, Bool.false_eq_true, false_iff]
      rintro ⟨root', caps, cap, hr, hcaps, hcn, _⟩
      cases hr
      rw [hfc] at hcaps
      cases hcaps
      exact absurd hcn hn

/-- Witness for C1: the hello of scenario S1 is a hello document and is accepted. -/
theorem validate_hello_accepts_iff_witness :
    isHelloDoc helloS1 ∧ validate_hello (some helloS1) = true ∧
      (validate_hello (some helloS1) = true ↔ firstChildCapsHasBase11 helloS1) :=
  ⟨⟨_, rfl, rfl⟩, by decide, validate_hello_accepts_iff helloS1 ⟨_, rfl, rfl⟩⟩

/-- C1 (counterexample to the claim as stated): a parsed hello document whose capabilities
list contains the base:1.1 capability, after a preceding sibling element, is rejected. -/
theorem validate_hello_rejects_caps_not_first :
    isHelloDoc helloSessionIdFirst ∧ capsListHasBase11 helloSessionIdFirst ∧
      validate_hello (some helloSessionIdFirst) = false := by
  refine ⟨⟨_, rfl, rfl⟩, ?_, by decide⟩
  refine ⟨_, .element "capabilities" []
         [.element "capability" [] [.text "urn:ietf:params:netconf:base:1.1"]],
         .element "capability" [] [.text "urn:ietf:params:netconf:base:1.1"], rfl, ?_, rfl, ?_, rfl, ?_⟩
  · simp [elementChildren, XmlNode.children, XmlNode.isElement]
  · simp [elementChildren, XmlNode.children, XmlNode.isElement]
  · rfl

/-! ### Replies -/

theorem str_append_ne_empty (a b : String) (ha : a ≠ "") : a ++ b ≠ "" := by
  intro h
  apply ha
  have h1 : (a ++ b).data = [] := by rw [h]
  rw [String.data_append] at h1
  have h2 : a.data = [] := (List.append_eq_nil.mp h1).1
  exact String.ext h2

theorem rpc_error_doc_lock_denied (w : World) (rpc : XmlNode) (msg : String) (hmsg : msg ≠ "") :
    rpc_error_doc (some rpc) (error_parms_full w .LOCK_DENIED .PROTOCOL (some msg) none none false)
      = error_reply (some rpc) "lock-denied" "protocol" msg
          [session_id_info w.g.running_ds_lock.nc_sess.id] := by
  simp [rpc_error_doc, error_parms_full, error_reply, session_id_info, NC_ERROR_PARMS_INIT,
    g_hash_table_insert, g_hash_table_lookup, _create_error_info_xml, rpc_error_tag_to_string,
    rpc_error_type_to_string, xmlNewChild, hmsg]

theorem rpc_error_doc_in_use (w : World) (rpc : XmlNode) :
    rpc_error_doc (some rpc)
        (error_parms_full w .IN_USE .APP (some "Lock is already held") none none false)
      = error_reply (some rpc) "in-use" "application" "Lock is already held"
          [session_id_info w.g.running_ds_lock.nc_sess.id] := by
  simp [rpc_error_doc, error_parms_full, error_reply, session_id_info, NC_ERROR_PARMS_INIT,
    g_hash_table_insert, g_hash_table_lookup, _create_error_info_xml, rpc_error_tag_to_string,
    rpc_error_type_to_string, xmlNewChild]

theorem rpc_error_doc_no_info (w : World) (rpc : Option XmlNode) (tag : NC_ERR_TAG)
    (type : NC_ERR_TYPE) (msg tagstr typestr : String) (hmsg : msg ≠ "")
    (htag : rpc_error_tag_to_string tag = some tagstr) (htagne : tagstr ≠ "")
    (htype : rpc_error_type_to_string type = some typestr) (htypene : typestr ≠ "") :
    rpc_error_doc rpc (error_parms_full w tag type (some msg) none none true)
      = error_reply rpc tagstr typestr msg [] := by
  cases rpc <;>
  simp [rpc_error_doc, error_parms_full, error_reply, NC_ERROR_PARMS_INIT, xmlNewChild, hmsg,
    htag, htype, htagne, htypene]


/-- What `send_rpc_error_full` does: it writes the error document and changes nothing but the
`out_rpc_errors` counters. -/
theorem send_rpc_error_full_effect (env : Env) (w : World) (session : netconf_session)
    (rpc : Option XmlNode) (tag : NC_ERR_TAG) (type : NC_ERR_TYPE)
    (msg bad_elem bad_attr : Option String) (no_info : Bool) :
    ErrorSent w (send_rpc_error_full env w session rpc tag type msg bad_elem bad_attr no_info).1
      session (send_rpc_error_full env w session rpc tag type msg bad_elem bad_attr no_info).2.1
      (rpc_error_doc rpc (error_parms_full w tag type msg bad_elem bad_attr no_info))
      (env.write_ok w.tx.length) ∧
    (send_rpc_error_full env w session rpc tag type msg bad_elem bad_attr no_info).2.2 =
      env.write_ok w.tx.length := by
  simp only [send_rpc_error_full, _send_rpc_error, write_doc]
  cases env.write_ok w.tx.length <;> exact ⟨by constructor <;> simp, by simp⟩

theorem ok_reply_ne_error_reply (rpc : XmlNode) (rpc1 : Option XmlNode) (tag type msg : String)
    (info : List XmlNode) : ok_reply rpc ≠ error_reply rpc1 tag type msg info := by
  simp only [ok_reply, error_reply, create_rpc]
  cases xmlGetProp rpc "message-id" <;>
    cases (rpc1.bind fun r => xmlGetProp r "message-id") <;> simp

/-! ### The lock manager -/

/-- C5: on target `running`, `handle_lock` succeeds (reply `<ok/>`, lock held by the
requester, `in_rpcs` of the session and of the global totals increased by 1) if and only if the
lock was free; when the lock is held, by the requester or anyone else, the reply is
`lock-denied` of type `protocol` with an `<error-info>` holding the `<session-id>` of the
holder, and the lock state is unchanged. -/
theorem handle_lock_running (env : Env) (w : World) (session : netconf_session) (rpc : XmlNode)
    (htarget : check_target (xmlFirstElementChild rpc) = .running) :
    ∃ w1 s1 ret, handle_lock env w session rpc = .ok (w1, s1, ret) ∧
      ((∃ t, w1.tx = w.tx ++ [t] ∧ t.doc = ok_reply rpc) ↔
        w.g.running_ds_lock.locked = false) ∧
      (w.g.running_ds_lock.locked = false →
        w1.tx = w.tx ++ [⟨session.fd, ok_reply rpc, env.write_ok w.tx.length⟩] ∧
        w1.g.running_ds_lock.locked = true ∧
        w1.g.running_ds_lock.nc_sess.id = session.id ∧
        s1.counters.in_rpcs = session.counters.in_rpcs + 1 ∧
        w1.g.netconf_global_stats.session_totals.in_rpcs =
          w.g.netconf_global_stats.session_totals.in_rpcs + 1) ∧
      (w.g.running_ds_lock.locked = true →
        w1.tx = w.tx ++ [⟨session.fd,
          error_reply (some rpc) "lock-denied" "protocol"
            ("Lock is already held by session id " ++ fmt_d w.g.running_ds_lock.nc_sess.id)
            [session_id_info w.g.running_ds_lock.nc_sess.id],
          env.write_ok w.tx.length⟩] ∧
        w1.g.running_ds_lock = w.g.running_ds_lock ∧
        s1.counters.in_rpcs = session.counters.in_rpcs ∧
        w1.g.netconf_global_stats.session_totals.in_rpcs =
          w.g.netconf_global_stats.session_totals.in_rpcs) := by
  unfold handle_lock
  simp only [htarget]
  cases hl : w.g.running_ds_lock.locked with
  | false =>
    simp only [if_true]
    refine ⟨_, _, _, rfl, ?_, ?_, ?_⟩
    · simp only [iff_true]
      exact ⟨⟨session.fd, ok_reply rpc, env.write_ok w.tx.length⟩, rfl, rfl⟩
    · intro _
      simp [send_rpc_ok, write_doc, count_in_rpcs, set_lock, ok_reply, xmlNewChild]
    · intro h
      cases h
  | true =>
    simp only [Bool.true_eq_false, if_false]
    have hmsg : "Lock is already held by session id " ++ fmt_d w.g.running_ds_lock.nc_sess.id
        ≠ "" := str_append_ne_empty _ _ (by decide)
    have he := (send_rpc_error_full_effect env w session (some rpc) .LOCK_DENIED .PROTOCOL
      (some ("Lock is already held by session id " ++ fmt_d w.g.running_ds_lock.nc_sess.id))
      none none false).1
    rw [rpc_error_doc_lock_denied w rpc _ hmsg] at he
    generalize send_rpc_error_full env w session (some rpc) .LOCK_DENIED .PROTOCOL
      (some ("Lock is already held by session id " ++ fmt_d w.g.running_ds_lock.nc_sess.id))
      none none false = r at he ⊢
    obtain ⟨w1, s1, ret⟩ := r
    refine ⟨w1, s1, ret, rfl, ?_, ?_, ?_⟩
    · simp only [iff_false, not_exists, not_and]
      intro t ht
      rw [he.tx] at ht
      have h1 := List.append_cancel_left ht
      simp only [List.cons.injEq, and_true] at h1
      rw [← h1]
      exact fun h => ok_reply_ne_error_reply _ _ _ _ _ _ h.symm
    · intro h
      cases h
    · intro _
      exact ⟨he.tx, he.lock, he.in_rpcs, he.total_in_rpcs⟩

/-- Witness for C5: on the freshly initialised state a lock request on `running` is granted. -/
theorem handle_lock_running_witness :
    check_target (xmlFirstElementChild rpc_lock) = .running ∧
      ∃ w1 s1 ret, handle_lock env_ok world_init (mk_session 7 5) rpc_lock = .ok (w1, s1, ret) ∧
        w1.g.running_ds_lock.locked = true ∧ w1.g.running_ds_lock.nc_sess.id = 5 := by
  refine ⟨by decide, ?_⟩
  obtain ⟨w1, s1, ret, h, _, hfree, _⟩ :=
    handle_lock_running env_ok world_init (mk_session 7 5) rpc_lock (by decide)
  exact ⟨w1, s1, ret, h, (hfree rfl).2.1, (hfree rfl).2.2.1⟩

/-- The three branches of `handle_unlock` on target `running`, by the tests of the source:
the lock is free, the lock records another id than the one of the session, the lock records
the id of the session. -/
theorem handle_unlock_by_id (env : Env) (w : World) (session : netconf_session)
    (rpc : XmlNode) (htarget : check_target (xmlFirstElementChild rpc) = .running) :
    ∃ w1 s1 ret, handle_unlock env w session rpc = .ok (w1, s1, ret) ∧
      (w.g.running_ds_lock.locked = false →
        ErrorSent w w1 session s1
          (error_reply (some rpc) "operation-failed" "protocol"
            "Unlock failed, no lock configured on the \"running\" datastore" [])
          (env.write_ok w.tx.length)) ∧
      (w.g.running_ds_lock.locked = true → session.id ≠ w.g.running_ds_lock.nc_sess.id →
        ErrorSent w w1 session s1
          (error_reply (some rpc) "lock-denied" "protocol"
            ("Unlock failed, session " ++ fmt_u session.id ++ " does not own the lock")
            [session_id_info w.g.running_ds_lock.nc_sess.id])
          (env.write_ok w.tx.length)) ∧
      (w.g.running_ds_lock.locked = true → session.id = w.g.running_ds_lock.nc_sess.id →
        w1.tx = w.tx ++ [⟨session.fd, ok_reply rpc, env.write_ok w.tx.length⟩] ∧
        w1.g.running_ds_lock.locked = false ∧
        w1.g.running_ds_lock.nc_sess.id = 0) := by
  unfold handle_unlock
  simp only [htarget]
  cases hl : w.g.running_ds_lock.locked with
  | false =>
    simp only [if_true]
    have he := (send_rpc_error_full_effect env w session (some rpc) .OPR_FAILED .PROTOCOL
      (some "Unlock failed, no lock configured on the \"running\" datastore")
      none none true).1
    rw [rpc_error_doc_no_info w (some rpc) .OPR_FAILED .PROTOCOL _ "operation-failed" "protocol"
      (by decide) rfl (by decide) rfl (by decide)] at he
    generalize send_rpc_error_full env w session (some rpc) .OPR_FAILED .PROTOCOL
      (some "Unlock failed, no lock configured on the \"running\" datastore")
      none none true = r at he ⊢
    obtain ⟨w1, s1, ret⟩ := r
    refine ⟨w1, s1, ret, rfl, fun _ => he, ?_, ?_⟩ <;> (intro h; cases h)
  | true =>
    simp only [Bool.true_eq_false, if_false]
    by_cases hid : session.id = w.g.running_ds_lock.nc_sess.id
    · rw [if_neg (not_not.mpr hid)]
      refine ⟨_, _, _, rfl, ?_, ?_, ?_⟩
      · intro h
        cases h
      · intro _ h
        exact absurd hid h
      · intro _ _
        simp [send_rpc_ok, write_doc, count_in_rpcs, reset_lock, ok_reply, xmlNewChild]
    · rw [if_pos hid]
      have hmsg : "Unlock failed, session " ++ fmt_u session.id ++ " does not own the lock"
          ≠ "" := by
        rw [String.append_assoc]
        exact str_append_ne_empty _ _ (by decide)
      have he := (send_rpc_error_full_effect env w session (some rpc) .LOCK_DENIED .PROTOCOL
        (some ("Unlock failed, session " ++ fmt_u session.id ++ " does not own the lock"))
        none none false).1
      rw [rpc_error_doc_lock_denied w rpc _ hmsg] at he
      generalize send_rpc_error_full env w session (some rpc) .LOCK_DENIED .PROTOCOL
        (some ("Unlock failed, session " ++ fmt_u session.id ++ " does not own the lock"))
        none none false = r at he ⊢
      obtain ⟨w1, s1, ret⟩ := r
      refine ⟨w1, s1, ret, rfl, ?_, ?_, ?_⟩
      · intro h
        cases h
      · intro _ _
        exact he
      · intro _ h
        exact absurd h hid

/-- Two sessions of a table with pairwise distinct ids that have the same id are the same
session. -/
theorem same_id_same_session (l : List netconf_session)
    (hdistinct : (l.map (fun s => s.id)).Nodup) (a b : netconf_session)
    (ha : a ∈ l) (hb : b ∈ l) (h : a.id = b.id) : a = b :=
  List.inj_on_of_nodup_map hdistinct ha hb h

/-- C6, for a session table with pairwise distinct ids: on target `running`, the unlock
request of a session of the table is answered `operation-failed` of type `protocol` when the
lock is free and `lock-denied` of type `protocol`, naming the owner, when another session of
the table owns the lock, the state being unchanged in both cases (only the reply is written
and the error counted); when the session owns the lock itself, the lock is cleared
(`locked = false`, owner id 0) and the reply is `<ok/>`. -/
theorem handle_unlock_running (env : Env) (w : World) (session : netconf_session)
    (rpc : XmlNode) (htarget : check_target (xmlFirstElementChild rpc) = .running)
    (hs : session ∈ w.g.open_sessions_list)
    (hdistinct : (w.g.open_sessions_list.map (fun s => s.id)).Nodup) :
    ∃ w1 s1 ret, handle_unlock env w session rpc = .ok (w1, s1, ret) ∧
      (w.g.running_ds_lock.locked = false →
        ErrorSent w w1 session s1
          (error_reply (some rpc) "operation-failed" "protocol"
            "Unlock failed, no lock configured on the \"running\" datastore" [])
          (env.write_ok w.tx.length)) ∧
      (∀ owner ∈ w.g.open_sessions_list, owns_lock w.g owner → owner ≠ session →
        ErrorSent w w1 session s1
          (error_reply (some rpc) "lock-denied" "protocol"
            ("Unlock failed, session " ++ fmt_u session.id ++ " does not own the lock")
            [session_id_info owner.id])
          (env.write_ok w.tx.length)) ∧
      (owns_lock w.g session →
        w1.tx = w.tx ++ [⟨session.fd, ok_reply rpc, env.write_ok w.tx.length⟩] ∧
        w1.g.running_ds_lock.locked = false ∧
        w1.g.running_ds_lock.nc_sess.id = 0) := by
  obtain ⟨w1, s1, ret, h, hfree, hother, hown⟩ := handle_unlock_by_id env w session rpc htarget
  refine ⟨w1, s1, ret, h, hfree, ?_, fun ho => hown ho.1 ho.2.1⟩
  intro owner hmem ho hne
  have hid : session.id ≠ w.g.running_ds_lock.nc_sess.id := by
    intro heq
    exact hne (same_id_same_session _ hdistinct owner session hmem hs (ho.2.1.trans heq.symm))
  rw [ho.2.1]
  exact hother ho.1 hid

/-- Witness for C6: in the state with sessions 5 and 6, the first of which owns the lock,
the unlock request of session 6 is answered `lock-denied` naming session 5 and the lock is
what it was. -/
theorem handle_unlock_running_witness :
    check_target (xmlFirstElementChild rpc_unlock) = .running ∧
      mk_session 8 6 ∈ world_two.g.open_sessions_list ∧
      (world_two.g.open_sessions_list.map (fun s => s.id)).Nodup ∧
      session_a ∈ world_two.g.open_sessions_list ∧ owns_lock world_two.g session_a ∧
      ∃ w1 s1 ret,
        handle_unlock env_ok world_two (mk_session 8 6) rpc_unlock = .ok (w1, s1, ret) ∧
        w1.g.running_ds_lock = world_two.g.running_ds_lock ∧
        w1.tx = world_two.tx ++ [⟨8, error_reply (some rpc_unlock) "lock-denied" "protocol"
          ("Unlock failed, session " ++ fmt_u 6 ++ " does not own the lock")
          [session_id_info 5], true⟩] := by
  have hs : mk_session 8 6 ∈ world_two.g.open_sessions_list := by decide
  have hd : (world_two.g.open_sessions_list.map (fun s => s.id)).Nodup := by decide
  have ha : session_a ∈ world_two.g.open_sessions_list := by decide
  have ho : owns_lock world_two.g session_a := ⟨by decide, by decide, by decide⟩
  obtain ⟨w1, s1, ret, h, _, hother, _⟩ :=
    handle_unlock_running env_ok world_two (mk_session 8 6) rpc_unlock (by decide) hs hd
  have he := hother session_a ha ho (by decide)
  exact ⟨by decide, hs, hd, ha, ho, w1, s1, ret, h, he.lock, he.tx⟩

/-- For any request, `handle_lock` keeps the session id and the session table, and either
leaves the lock as it was or takes a free lock for the session. -/
theorem handle_lock_effect (env : Env) (w : World) (s : netconf_session) (rpc : XmlNode)
    (w1 : World) (s1 : netconf_session) (ret : Bool)
    (h : handle_lock env w s rpc = .ok (w1, s1, ret)) :
    s1.id = s.id ∧ w1.g.open_sessions_list = w.g.open_sessions_list ∧
      (w1.g.running_ds_lock = w.g.running_ds_lock ∨
        (w.g.running_ds_lock.locked = false ∧
          w1.g.running_ds_lock = (set_lock w.g s).running_ds_lock)) := by
  unfold handle_lock at h
  cases ht : check_target (xmlFirstElementChild rpc) with
  | null_deref => simp [ht] at h
  | unsupported name =>
    simp only [ht, Except.ok.injEq] at h
    have he := (send_rpc_error_full_effect env w s (some rpc) .OPR_NOT_SUPPORTED .PROTOCOL
      (some ("Datastore \"" ++ name ++ "\" not supported")) none none true).1
    rw [h] at he
    exact ⟨he.id, he.sessions, Or.inl he.lock⟩
  | running =>
    simp only [ht] at h
    cases hl : w.g.running_ds_lock.locked with
    | false =>
      simp only [hl, if_true, Except.ok.injEq, Prod.mk.injEq] at h
      obtain ⟨h1, h2, _⟩ := h
      subst h1 h2
      refine ⟨?_, ?_, Or.inr ⟨rfl, ?_⟩⟩ <;>
        simp [send_rpc_ok, write_doc, count_in_rpcs, set_lock]
    | true =>
      simp only [hl, Bool.true_eq_false, if_false, Except.ok.injEq] at h
      have he := (send_rpc_error_full_effect env w s (some rpc) .LOCK_DENIED .PROTOCOL
        (some ("Lock is already held by session id " ++ fmt_d w.g.running_ds_lock.nc_sess.id))
        none none false).1
      rw [h] at he
      exact ⟨he.id, he.sessions, Or.inl he.lock⟩

/-- For any request, `handle_unlock` keeps the session id and the session table, and either
leaves the lock as it was or resets it. -/
theorem handle_unlock_effect (env : Env) (w : World) (s : netconf_session) (rpc : XmlNode)
    (w1 : World) (s1 : netconf_session) (ret : Bool)
    (h : handle_unlock env w s rpc = .ok (w1, s1, ret)) :
    s1.id = s.id ∧ w1.g.open_sessions_list = w.g.open_sessions_list ∧
      (w1.g.running_ds_lock = w.g.running_ds_lock ∨
        w1.g.running_ds_lock = (reset_lock w.g).running_ds_lock) := by
  unfold handle_unlock at h
  cases ht : check_target (xmlFirstElementChild rpc) with
  | null_deref => simp [ht] at h
  | unsupported name =>
    simp only [ht, Except.ok.injEq] at h
    have he := (send_rpc_error_full_effect env w s (some rpc) .OPR_NOT_SUPPORTED .PROTOCOL
      (some ("Datastore \"" ++ name ++ "\" not supported")) none none false).1
    rw [h] at he
    exact ⟨he.id, he.sessions, Or.inl he.lock⟩
  | running =>
    simp only [ht] at h
    cases hl : w.g.running_ds_lock.locked with
    | false =>
      simp only [hl, if_true, Except.ok.injEq] at h
      have he := (send_rpc_error_full_effect env w s (some rpc) .OPR_FAILED .PROTOCOL
        (some "Unlock failed, no lock configured on the \"running\" datastore")
        none none true).1
      rw [h] at he
      exact ⟨he.id, he.sessions, Or.inl he.lock⟩
    | true =>
      simp only [hl, Bool.true_eq_false, if_false] at h
      by_cases hid : s.id = w.g.running_ds_lock.nc_sess.id
      · rw [if_neg (not_not.mpr hid)] at h
        simp only [Except.ok.injEq, Prod.mk.injEq] at h
        obtain ⟨h1, h2, _⟩ := h
        subst h1 h2
        refine ⟨?_, ?_, Or.inr ?_⟩ <;>
          simp [send_rpc_ok, write_doc, count_in_rpcs, reset_lock]
      · rw [if_pos hid] at h
        simp only [Except.ok.injEq] at h
        have he := (send_rpc_error_full_effect env w s (some rpc) .LOCK_DENIED .PROTOCOL
          (some ("Unlock failed, session " ++ fmt_u s.id ++ " does not own the lock"))
          none none false).1
        rw [h] at he
        exact ⟨he.id, he.sessions, Or.inl he.lock⟩

/-- The id given out by `create_session` is never 0. -/
theorem create_session_id_ne_zero (env : Env) (g : Global) (fd : Int) :
    (create_session env g fd).2.id ≠ 0 := by
  simp only [create_session, toUInt32]
  split <;> omega

theorem remove_netconf_session_sessions (g : Global) (s x : netconf_session)
    (hx : x ∈ (remove_netconf_session g s).open_sessions_list) : x ∈ g.open_sessions_list := by
  unfold remove_netconf_session at hx
  split at hx
  · exact List.mem_of_mem_eraseP hx
  · exact hx

theorem remove_netconf_session_lock (g : Global) (s : netconf_session) :
    (remove_netconf_session g s).running_ds_lock = g.running_ds_lock := by
  unfold remove_netconf_session
  split <;> rfl

/-- The invariant of the reachable states: no session of the table has id 0, and the owner
id of the lock is non-zero exactly when the lock is held. -/
theorem reachable_inv (w : World) (h : Reachable w) :
    (∀ s ∈ w.g.open_sessions_list, s.id ≠ 0) ∧
      (w.g.running_ds_lock.nc_sess.id ≠ 0 ↔ w.g.running_ds_lock.locked = true) := by
  induction h with
  | init r => simp [netconf_init, reset_lock, Global.static_init]
  | create env w fd _ ih =>
    refine ⟨?_, ih.2⟩
    intro s hs
    simp only [create_session, List.mem_append, List.mem_singleton] at hs
    rcases hs with hs | hs
    · exact ih.1 s hs
    · have := create_session_id_ne_zero env w.g fd
      simp only [create_session] at this
      rw [hs]
      exact this
  | lock env w i s rpc w1 s1 ret _ hget hl ih =>
    obtain ⟨hid, hlist, hlock⟩ := handle_lock_effect env w s rpc w1 s1 ret hl
    have hs : s ∈ w.g.open_sessions_list := List.get?_mem hget
    refine ⟨?_, ?_⟩
    · intro x hx
      simp only [store_session, hlist] at hx
      rcases List.mem_or_eq_of_mem_set hx with hx | hx
      · exact ih.1 x hx
      · rw [hx, hid]
        exact ih.1 s hs
    · simp only [store_session]
      rcases hlock with hlock | ⟨_, hlock⟩
      · rw [hlock]
        exact ih.2
      · rw [hlock]
        simp only [set_lock, iff_true]
        exact ih.1 s hs
  | unlock env w i s rpc w1 s1 ret _ hget hl ih =>
    obtain ⟨hid, hlist, hlock⟩ := handle_unlock_effect env w s rpc w1 s1 ret hl
    have hs : s ∈ w.g.open_sessions_list := List.get?_mem hget
    refine ⟨?_, ?_⟩
    · intro x hx
      simp only [store_session, hlist] at hx
      rcases List.mem_or_eq_of_mem_set hx with hx | hx
      · exact ih.1 x hx
      · rw [hx, hid]
        exact ih.1 s hs
    · simp only [store_session]
      rcases hlock with hlock | hlock
      · rw [hlock]
        exact ih.2
      · rw [hlock]
        simp [reset_lock]
  | destroy w i s _ hget ih =>
    refine ⟨?_, ?_⟩
    · intro x hx
      simp only [destroy_session] at hx
      have hx1 := remove_netconf_session_sessions _ _ _ hx
      split at hx1
      · exact ih.1 x hx1
      · exact ih.1 x hx1
    · simp only [destroy_session, remove_netconf_session_lock]
      split
      · simp [reset_lock]
      · exact ih.2

/-- C7: in every state reachable from `netconf_init` by `create_session`, `handle_lock`,
`handle_unlock` and `destroy_session` steps, the owner id of the running-datastore lock is
non-zero if and only if `locked` is true. -/
theorem reachable_owner_iff_locked (w : World) (h : Reachable w) :
    w.g.running_ds_lock.nc_sess.id ≠ 0 ↔ w.g.running_ds_lock.locked = true :=
  (reachable_inv w h).2

theorem world_created_reachable : Reachable world_created :=
  Reachable.create env_ok world_init 7 (Reachable.init 5)

theorem world_locked_reachable : Reachable world_locked :=
  Reachable.lock env_ok world_created 0 (mk_session 7 5) rpc_lock _ _ _
    world_created_reachable rfl rfl

/-- Witness for C7: the state in which the first session holds the lock is reachable, its
lock is held and its owner id is not 0. -/
theorem reachable_owner_iff_locked_witness :
    Reachable world_locked ∧ world_locked.g.running_ds_lock.locked = true ∧
      (world_locked.g.running_ds_lock.nc_sess.id ≠ 0 ↔
        world_locked.g.running_ds_lock.locked = true) :=
  ⟨world_locked_reachable, by decide,
    reachable_owner_iff_locked world_locked world_locked_reachable⟩

/-! ### The state publisher -/

theorem session_record_lock (g : Global) (s : netconf_session) :
    (session_record g s).lock =
      some (if g.running_ds_lock.locked && s.id == g.running_ds_lock.nc_sess.id
        then "R" else "-") := by
  simp [session_record, SessionRecord.lock, List.find?]

theorem filter_id_length_le_one (l : List netconf_session) (x : Nat)
    (h : (l.map (fun s => s.id)).Nodup) : (l.filter (fun s => s.id == x)).length ≤ 1 := by
  induction l with
  | nil => simp
  | cons a t ih =>
    simp only [List.map_cons, List.nodup_cons] at h
    by_cases ha : a.id = x
    · have ht : t.filter (fun s => s.id == x) = [] := by
        rw [List.filter_eq_nil_iff]
        intro s hs hsx
        apply h.1
        simp only [beq_iff_eq] at hsx
        rw [ha, ← hsx]
        exact List.mem_map_of_mem _ hs
      simp [List.filter_cons, ha, ht]
    · have := ih h.2
      simpa [List.filter_cons, ha] using this

/-- C8: in a session table with pairwise distinct ids, the records built by
`_netconf_sessions_refresh` hold at most one session whose `lock` leaf is "R", every other
one has "-", and a session has "R" exactly when the lock is held and its id is the owner id. -/
theorem sessions_refresh_lock_exclusive (g : Global)
    (hdistinct : (g.open_sessions_list.map (fun s => s.id)).Nodup) :
    ((_netconf_sessions_refresh g).filter (fun r => r.lock == some "R")).length ≤ 1 ∧
      (∀ r ∈ _netconf_sessions_refresh g, r.lock = some "R" ∨ r.lock = some "-") ∧
      (∀ s ∈ g.open_sessions_list,
        ((session_record g s).lock = some "R" ↔
          (g.running_ds_lock.locked = true ∧ s.id = g.running_ds_lock.nc_sess.id))) := by
  refine ⟨?_, ?_, ?_⟩
  · simp only [_netconf_sessions_refresh, List.filter_map, List.length_map]
    cases hl : g.running_ds_lock.locked with
    | false =>
      have : List.filter ((fun r => r.lock == some "R") ∘ session_record g)
          g.open_sessions_list = [] := by
        rw [List.filter_eq_nil_iff]
        intro s _
        simp [session_record_lock, hl]
      simp [this]
    | true =>
      have : List.filter ((fun r => r.lock == some "R") ∘ session_record g)
          g.open_sessions_list
          = List.filter (fun s => s.id == g.running_ds_lock.nc_sess.id)
            g.open_sessions_list := by
        apply List.filter_congr
        intro s _
        simp only [Function.comp, session_record_lock, hl, Bool.true_and]
        by_cases hs : s.id = g.running_ds_lock.nc_sess.id <;> simp [hs]
      rw [this]
      exact filter_id_length_le_one _ _ hdistinct
  · intro r hr
    simp only [_netconf_sessions_refresh, List.mem_map] at hr
    obtain ⟨s, _, rfl⟩ := hr
    rw [session_record_lock]
    split <;> simp
  · intro s _
    rw [session_record_lock]
    by_cases hl : g.running_ds_lock.locked = true <;>
      by_cases hs : s.id = g.running_ds_lock.nc_sess.id <;> simp [hl, hs]

/-- Witness for C8: two sessions with distinct ids, the first one holding the lock. -/
theorem sessions_refresh_lock_exclusive_witness :
    (world_two.g.open_sessions_list.map (fun s => s.id)).Nodup ∧
      ((_netconf_sessions_refresh world_two.g).filter
        (fun r => r.lock == some "R")).length ≤ 1 ∧
      (_netconf_sessions_refresh world_two.g).map (fun r => r.lock) = [some "R", some "-"] :=
  ⟨by decide, (sessions_refresh_lock_exclusive world_two.g (by decide)).1, by decide⟩

/-! ### Session destruction and the lock -/

/-- The lock test of `handle_get` and `handle_edit`, by the test of the source: while the
lock is held, a session whose id is not the one the lock records is answered `in-use`, and a
session whose id the lock records goes on to the rest of the handler. -/
theorem lock_check_by_id (env : Env) (w : World) (session : netconf_session) (rpc : XmlNode)
    (hheld : w.g.running_ds_lock.locked = true) :
    (session.id ≠ w.g.running_ds_lock.nc_sess.id →
      (∃ w1 s1 ret, handle_get env w session rpc true = .ok (w1, s1, ret) ∧
        ErrorSent w w1 session s1
          (error_reply (some rpc) "in-use" "application" "Lock is already held"
            [session_id_info w.g.running_ds_lock.nc_sess.id])
          (env.write_ok w.tx.length)) ∧
      (check_target (xmlFirstElementChild rpc) = .running →
        (_handle_default_operation (xmlFirstElementChild rpc)).isSome = true →
        ∃ w1 s1 ret, handle_edit env w session rpc = .ok (w1, s1, ret) ∧
          ErrorSent w w1 session s1
            (error_reply (some rpc) "in-use" "application" "Lock is already held"
              [session_id_info w.g.running_ds_lock.nc_sess.id])
            (env.write_ok w.tx.length))) ∧
    (session.id = w.g.running_ds_lock.nc_sess.id →
      handle_get env w session rpc true = handle_get_options env w session rpc true ∧
      (check_target (xmlFirstElementChild rpc) = .running →
        ∀ def_op, _handle_default_operation (xmlFirstElementChild rpc) = some def_op →
          handle_edit env w session rpc = handle_edit_config env w session rpc def_op)) := by
  have he := (send_rpc_error_full_effect env w session (some rpc) .IN_USE .APP
    (some "Lock is already held") none none false).1
  rw [rpc_error_doc_in_use] at he
  constructor
  · intro hne
    have hother : lock_held_by_other w.g session = true := by
      simp [lock_held_by_other, hheld, hne]
    constructor
    · unfold handle_get
      rw [if_pos hother]
      generalize send_rpc_error_full env w session (some rpc) .IN_USE .APP
        (some "Lock is already held") none none false = r at he ⊢
      obtain ⟨w1, s1, ret⟩ := r
      exact ⟨w1, s1, ret, rfl, he⟩
    · intro ht hop
      obtain ⟨def_op, hdef⟩ := Option.isSome_iff_exists.mp hop
      unfold handle_edit
      simp only [ht, hdef]
      rw [if_pos hother]
      generalize send_rpc_error_full env w session (some rpc) .IN_USE .APP
        (some "Lock is already held") none none false = r at he ⊢
      obtain ⟨w1, s1, ret⟩ := r
      exact ⟨w1, s1, ret, rfl, he⟩
  · intro heq
    have hother : ¬ (lock_held_by_other w.g session = true) := by
      simp [lock_held_by_other, heq]
    constructor
    · unfold handle_get
      rw [if_neg hother]
    · intro ht def_op hdef
      unfold handle_edit
      simp only [ht, hdef]
      rw [if_neg hother]

/-- C10, for a session table with pairwise distinct ids: while another session of the table
owns the lock, a get-config of a session of the table, and its edit-config with target
`running` and a valid default-operation, are each answered with `in-use` of type
`application` carrying the owner's session-id, and nothing else happens (no datastore call
is issued); the same requests from the owner pass the lock test and go on to the rest of the
handler. -/
theorem lock_check_in_use (env : Env) (w : World) (session : netconf_session) (rpc : XmlNode)
    (hs : session ∈ w.g.open_sessions_list)
    (hdistinct : (w.g.open_sessions_list.map (fun s => s.id)).Nodup) :
    (∀ owner ∈ w.g.open_sessions_list, owns_lock w.g owner → owner ≠ session →
      (∃ w1 s1 ret, handle_get env w session rpc true = .ok (w1, s1, ret) ∧
        ErrorSent w w1 session s1
          (error_reply (some rpc) "in-use" "application" "Lock is already held"
            [session_id_info owner.id])
          (env.write_ok w.tx.length)) ∧
      (check_target (xmlFirstElementChild rpc) = .running →
        (_handle_default_operation (xmlFirstElementChild rpc)).isSome = true →
        ∃ w1 s1 ret, handle_edit env w session rpc = .ok (w1, s1, ret) ∧
          ErrorSent w w1 session s1
            (error_reply (some rpc) "in-use" "application" "Lock is already held"
              [session_id_info owner.id])
            (env.write_ok w.tx.length))) ∧
    (owns_lock w.g session →
      handle_get env w session rpc true = handle_get_options env w session rpc true ∧
      (check_target (xmlFirstElementChild rpc) = .running →
        ∀ def_op, _handle_default_operation (xmlFirstElementChild rpc) = some def_op →
          handle_edit env w session rpc = handle_edit_config env w session rpc def_op)) := by
  constructor
  · intro owner hmem ho hne
    have hid : session.id ≠ w.g.running_ds_lock.nc_sess.id := by
      intro heq
      exact hne (same_id_same_session _ hdistinct owner session hmem hs (ho.2.1.trans heq.symm))
    rw [ho.2.1]
    exact (lock_check_by_id env w session rpc ho.1).1 hid
  · intro ho
    exact (lock_check_by_id env w session rpc ho.1).2 ho.2.1

/-- Witness for C10: the second session of `world_two` asks for the configuration while the
first one owns the lock, and is told `in-use` without any datastore call. -/
theorem lock_check_in_use_witness :
    mk_session 8 6 ∈ world_two.g.open_sessions_list ∧
      (world_two.g.open_sessions_list.map (fun s => s.id)).Nodup ∧
      session_a ∈ world_two.g.open_sessions_list ∧ owns_lock world_two.g session_a ∧
      ∃ w1 s1 ret,
        handle_get env_ok world_two (mk_session 8 6) rpc_get_config true = .ok (w1, s1, ret) ∧
        w1.ds_log = world_two.ds_log ∧
        w1.tx = world_two.tx ++ [⟨8,
          error_reply (some rpc_get_config) "in-use" "application" "Lock is already held"
            [session_id_info 5], true⟩] := by
  have hs : mk_session 8 6 ∈ world_two.g.open_sessions_list := by decide
  have hd : (world_two.g.open_sessions_list.map (fun s => s.id)).Nodup := by decide
  have ha : session_a ∈ world_two.g.open_sessions_list := by decide
  have ho : owns_lock world_two.g session_a := ⟨by decide, by decide, by decide⟩
  obtain ⟨w1, s1, ret, h1, h2⟩ :=
    ((lock_check_in_use env_ok world_two (mk_session 8 6) rpc_get_config hs hd).1
      session_a ha ho (by decide)).1
  exact ⟨hs, hd, ha, ho, w1, s1, ret, h1, h2.ds_log, h2.tx⟩

/-! ### Chunk headers -/

theorem read_chunk_size_loop_nil (hdr : List Nat) : read_chunk_size_loop hdr [] = (0, []) := by
  rw [read_chunk_size_loop.eq_def]
  split <;> rfl

theorem read_chunk_size_loop_full (hdr input : List Nat) (h : 13 < hdr.length) :
    read_chunk_size_loop hdr input = (0, input) := by
  rw [read_chunk_size_loop.eq_def]
  simp [MAX_CHUNK_HEADER_SIZE, h]

/-- A byte that cannot close a header is stored and the loop goes on. -/
theorem read_chunk_size_loop_skip (hdr : List Nat) (b : Nat) (rest : List Nat)
    (hlen : hdr.length ≤ 13) (hb : hdr.length < 3 ∨ b ≠ 10) :
    read_chunk_size_loop hdr (b :: rest) = read_chunk_size_loop (hdr ++ [b]) rest := by
  rw [read_chunk_size_loop]
  have h1 : ¬ (hdr.length > MAX_CHUNK_HEADER_SIZE) := by
    simp only [MAX_CHUNK_HEADER_SIZE]
    omega
  rw [if_neg h1]
  have h2 : ¬ (3 ≤ hdr.length ∧ (hdr ++ [b]).head? = some 10 ∧
      (hdr ++ [b]).get? 1 = some 35 ∧ b = 10) := by
    rintro ⟨h3, _, _, h10⟩
    rcases hb with hb | hb
    · omega
    · exact hb h10
  simp only [h2, if_false]

/-- Bytes other than a line feed are stored one after the other. -/
theorem read_chunk_size_loop_skip_list (l : List Nat) :
    ∀ (hdr rest : List Nat), hdr.length + l.length ≤ 14 → (∀ b ∈ l, b ≠ 10) →
      read_chunk_size_loop hdr (l ++ rest) = read_chunk_size_loop (hdr ++ l) rest := by
  induction l with
  | nil => intro hdr rest _ _; simp
  | cons b t ih =>
    intro hdr rest hlen hne
    simp only [List.length_cons] at hlen
    rw [List.cons_append, read_chunk_size_loop_skip hdr b (t ++ rest) (by omega)
      (Or.inr (hne b (List.mem_cons_self _ _)))]
    rw [ih (hdr ++ [b]) rest (by simp only [List.length_append, List.length_singleton]; omega)
      (fun x hx => hne x (List.mem_cons_of_mem _ hx))]
    simp

/-- The line feed that closes a header of at least four bytes starting with "\n#". -/
theorem read_chunk_size_loop_lf (p rest : List Nat) (hp1 : 1 ≤ p.length)
    (hp2 : p.length ≤ 11) :
    read_chunk_size_loop (10 :: 35 :: p) (10 :: rest) =
      if cstr (10 :: 35 :: p ++ [10]) = NETCONF_BASE_1_1_END then (0, rest)
      else
        match sscanf_chunk_header (10 :: 35 :: p ++ [10]) with
        | some chunk_len => (chunk_len, rest)
        | none => read_chunk_size_loop (10 :: 35 :: p ++ [10]) rest := by
  rw [read_chunk_size_loop]
  have h1 : ¬ ((10 :: 35 :: p).length > MAX_CHUNK_HEADER_SIZE) := by
    simp only [MAX_CHUNK_HEADER_SIZE, List.length_cons]
    omega
  rw [if_neg h1]
  have h2 : 3 ≤ (10 :: 35 :: p).length ∧ ((10 :: 35 :: p) ++ [10]).head? = some 10 ∧
      ((10 :: 35 :: p) ++ [10]).get? 1 = some 35 ∧ (10 : Nat) = 10 := by
    refine ⟨?_, rfl, rfl, rfl⟩
    simp only [List.length_cons]
    omega
  rw [if_pos h2]

theorem cstr_of_ne_zero (l : List Nat) (h : ∀ b ∈ l, b ≠ 0) : cstr l = l := by
  unfold cstr
  rw [List.takeWhile_eq_self_iff]
  intro b hb
  simpa using h b hb

theorem isdigit_iff (c : Nat) : isdigit c = true ↔ 48 ≤ c ∧ c ≤ 57 := by
  simp [isdigit]

theorem isdigit_not_space (c : Nat) (h : isdigit c = true) : isspace c = false := by
  rw [isdigit_iff] at h
  simp only [isspace, Bool.or_eq_false_iff, beq_eq_false_iff_ne, ne_eq, Bool.and_eq_false_iff,
    decide_eq_false_iff_not, not_le]
  omega

/-- Reading digits: the scan folds them into the accumulator and stops at the first byte
that is not a digit. -/
theorem scan_digits_append (ds : List Nat) :
    ∀ (acc : Nat) (t : List Nat), (∀ d ∈ ds, isdigit d = true) →
      (∀ c ∈ t.head?, isdigit c = false) →
      scan_digits acc (ds ++ t) = ds.foldl (fun a c => a * 10 + (c - 48)) acc := by
  induction ds with
  | nil =>
    intro acc t _ ht
    cases t with
    | nil => rfl
    | cons c cs =>
      have := ht c (by simp)
      simp [scan_digits, this]
  | cons d ds ih =>
    intro acc t hd ht
    have h1 := hd d (List.mem_cons_self _ _)
    simp only [List.cons_append, scan_digits, h1, if_true, List.foldl_cons]
    exact ih _ t (fun x hx => hd x (List.mem_cons_of_mem _ hx)) ht

theorem foldr_digits_eq_ofDigits (L : List Nat) :
    List.foldr (fun c a => a * 10 + (c - 48)) 0 (L.map (fun d => d + 48)) = Nat.ofDigits 10 L := by
  induction L with
  | nil => rfl
  | cons h t ih =>
    simp only [List.map_cons, List.foldr_cons, ih, Nat.ofDigits_cons]
    simp only [Nat.cast_id, Nat.add_sub_cancel]
    ring

theorem decimalBytes_isdigit (n : Nat) : ∀ d ∈ decimalBytes n, isdigit d = true := by
  intro d hd
  unfold decimalBytes at hd
  split at hd
  · simp only [List.mem_singleton] at hd
    subst hd
    decide
  · simp only [List.mem_reverse, List.mem_map] at hd
    obtain ⟨x, hx, rfl⟩ := hd
    have := Nat.digits_lt_base (by norm_num : 1 < 10) hx
    rw [isdigit_iff]
    omega

theorem decimalBytes_ne_nil (n : Nat) : decimalBytes n ≠ [] := by
  unfold decimalBytes
  split
  · simp
  · rename_i h
    simp only [ne_eq, List.reverse_eq_nil_iff, List.map_eq_nil_iff]
    exact Nat.digits_ne_nil_iff_ne_zero.mpr h

theorem decimalBytes_length (n k : Nat) (hk : 1 ≤ k) (hn : n < 10 ^ k) :
    (decimalBytes n).length ≤ k := by
  unfold decimalBytes
  split
  · simpa using hk
  · rename_i h0
    simp only [List.length_reverse, List.length_map]
    have h1 := Nat.base_pow_length_digits_le 10 n (by norm_num) h0
    have h2 : 10 ^ (Nat.digits 10 n).length < 10 ^ (k + 1) := by
      rw [pow_succ]
      omega
    have h3 := (Nat.pow_lt_pow_iff_right (by norm_num : 1 < 10)).mp h2
    omega

theorem decimalBytes_value (n : Nat) :
    (decimalBytes n).foldl (fun a c => a * 10 + (c - 48)) 0 = n := by
  unfold decimalBytes
  split
  · rename_i h
    subst h
    rfl
  · rw [List.foldl_reverse, foldr_digits_eq_ofDigits, Nat.ofDigits_digits]

/-- Conversion `%d` on a run of digits followed by something that is not a digit. -/
theorem scan_int_digits (ds t : List Nat) (hne : ds ≠ []) (hd : ∀ d ∈ ds, isdigit d = true)
    (ht : ∀ c ∈ t.head?, isdigit c = false) :
    scan_int (ds ++ t) =
      some (toInt32 (strtol false (ds.foldl (fun a c => a * 10 + (c - 48)) 0))) := by
  cases ds with
  | nil => exact absurd rfl hne
  | cons d ds =>
    have h1 := hd d (List.mem_cons_self _ _)
    have h2 := isdigit_not_space d h1
    have h3 : ¬ (d = 45 ∨ d = 43) := by
      rw [isdigit_iff] at h1
      omega
    unfold scan_int
    simp only [List.cons_append, List.dropWhile_cons, h2, Bool.false_eq_true, if_false, h3, h1,
      if_true]
    rw [← List.cons_append, scan_digits_append (d :: ds) 0 t hd ht]

/-- The `sscanf` call on a header made of "\n#", a run of digits and a line feed. -/
theorem sscanf_chunk_header_digits (ds : List Nat) (hne : ds ≠ [])
    (hd : ∀ d ∈ ds, isdigit d = true) :
    sscanf_chunk_header (10 :: 35 :: ds ++ [10]) =
      some (toInt32 (strtol false (ds.foldl (fun a c => a * 10 + (c - 48)) 0))) := by
  have hz : ∀ b ∈ (10 :: 35 :: ds ++ [10]), b ≠ 0 := by
    intro b hb
    simp only [List.cons_append, List.mem_cons, List.mem_append, List.mem_singleton] at hb
    rcases hb with rfl | rfl | hb | rfl | hb
    · decide
    · decide
    · have := (isdigit_iff b).mp (hd b hb)
      omega
    · decide
    · cases hb
  unfold sscanf_chunk_header
  rw [cstr_of_ne_zero _ hz]
  have : List.dropWhile isspace (10 :: 35 :: ds ++ [10]) = 35 :: (ds ++ [10]) := by
    simp [List.dropWhile_cons, isspace]
  rw [this]
  exact scan_int_digits ds [10] hne hd (by simp [isdigit])

/-- A header announcing `n`, for `n` of at most 11 digits, yields `n` as a 32-bit `int`. -/
theorem read_chunk_size_loop_decimal (n : Nat) (hn : n < 10 ^ 11) (rest : List Nat) :
    read_chunk_size_loop [] ([10, 35] ++ decimalBytes n ++ [10] ++ rest) = (toInt32 n, rest) := by
  have hlen := decimalBytes_length n 11 (by norm_num) hn
  have hne := decimalBytes_ne_nil n
  have hdig := decimalBytes_isdigit n
  have hlen1 : 1 ≤ (decimalBytes n).length := by
    cases h : decimalBytes n with
    | nil => exact absurd h hne
    | cons _ _ => simp
  have hnolf : ∀ b ∈ decimalBytes n, b ≠ 10 := by
    intro b hb
    have := (isdigit_iff b).mp (hdig b hb)
    omega
  rw [show [10, 35] ++ decimalBytes n ++ [10] ++ rest
        = 10 :: 35 :: (decimalBytes n ++ (10 :: rest)) by simp]
  rw [read_chunk_size_loop_skip [] 10 _ (by simp) (Or.inl (by simp))]
  rw [read_chunk_size_loop_skip ([] ++ [10]) 35 _ (by simp) (Or.inl (by simp))]
  rw [read_chunk_size_loop_skip_list (decimalBytes n) _ (10 :: rest)
    (by simp only [List.nil_append, List.length_append, List.length_singleton]; omega) hnolf]
  rw [show [] ++ [10] ++ [35] ++ decimalBytes n = 10 :: 35 :: decimalBytes n by simp]
  rw [read_chunk_size_loop_lf (decimalBytes n) rest hlen1 hlen]
  have hend : cstr (10 :: 35 :: decimalBytes n ++ [10]) ≠ NETCONF_BASE_1_1_END := by
    have hz : ∀ b ∈ (10 :: 35 :: decimalBytes n ++ [10]), b ≠ 0 := by
      intro b hb
      simp only [List.cons_append, List.mem_cons, List.mem_append, List.mem_singleton] at hb
      rcases hb with rfl | rfl | hb | rfl | hb
      · decide
      · decide
      · have := (isdigit_iff b).mp (hdig b hb)
        omega
      · decide
      · cases hb
    rw [cstr_of_ne_zero _ hz]
    cases h : decimalBytes n with
    | nil => exact absurd h hne
    | cons d ds =>
      have := (isdigit_iff d).mp (hdig d (by rw [h]; exact List.mem_cons_self _ _))
      simp only [NETCONF_BASE_1_1_END, List.cons_append, ne_eq, List.cons.injEq, true_and,
        not_and]
      intro h35
      omega
  rw [if_neg hend, sscanf_chunk_header_digits _ hne hdig, decimalBytes_value]
  have : strtol false n = (n : Int) := by
    unfold strtol
    have : ¬ (n > 9223372036854775807) := by
      have : (10 : Nat) ^ 11 = 100000000000 := by norm_num
      omega
    simp [this]
  rw [this]

/-! ### Framed messages -/

theorem toInt32_of_range (v : Int) (h1 : -2147483648 ≤ v) (h2 : v < 2147483648) :
    toInt32 v = v := by
  unfold toInt32
  omega

theorem read_chunk_size_end (rest : List Nat) :
    read_chunk_size_loop [] (NETCONF_BASE_1_1_END ++ rest) = (0, rest) := by
  rw [show NETCONF_BASE_1_1_END ++ rest = 10 :: 35 :: ([35] ++ (10 :: rest)) by rfl]
  rw [read_chunk_size_loop_skip [] 10 _ (by simp) (Or.inl (by simp))]
  rw [read_chunk_size_loop_skip ([] ++ [10]) 35 _ (by simp) (Or.inl (by simp))]
  rw [read_chunk_size_loop_skip_list [35] _ (10 :: rest) (by simp) (by simp)]
  rw [show [] ++ [10] ++ [35] ++ [35] = 10 :: 35 :: [35] by rfl]
  rw [read_chunk_size_loop_lf [35] rest (by simp) (by simp)]
  rw [if_pos (by decide)]

/-- The end marker leaves the loop of `receive_message` with what was gathered so far. -/
theorem receive_message_loop_end (env : Env) (hrun : env.loop_running = true) (fuel : Nat)
    (w : World) (s : netconf_session) (message : Option (List Nat)) (len : Int)
    (rest : List Nat) :
    receive_message_loop env (fuel + 1) w s message len (NETCONF_BASE_1_1_END ++ rest) =
      .ok ⟨w, { s with running := true }, message, len, rest⟩ := by
  simp [receive_message_loop, read_chunk_size, hrun, read_chunk_size_end]

/-- One well-sized chunk is appended to the message and the loop goes on. -/
theorem receive_message_loop_chunk (env : Env) (hrun : env.loop_running = true) (fuel : Nat)
    (w : World) (s : netconf_session) (message : Option (List Nat)) (len : Int)
    (c rest : List Nat) (hc1 : 1 ≤ c.length) (hc2 : c.length ≤ 32768) (hlen : 0 ≤ len)
    (hsum : len + c.length < 2147483648) :
    receive_message_loop env (fuel + 1) w s message len (chunk_frame c ++ rest) =
      receive_message_loop env fuel w { s with running := true }
        (some (message.getD [] ++ c)) (len + c.length) rest := by
  have hn : c.length < 10 ^ 11 := by
    have : (10 : Nat) ^ 11 = 100000000000 := by norm_num
    omega
  have hhdr := read_chunk_size_loop_decimal c.length hn (c ++ rest)
  rw [toInt32_of_range _ (by omega) (by omega)] at hhdr
  have hin : chunk_frame c ++ rest = [10, 35] ++ decimalBytes c.length ++ [10] ++ (c ++ rest) := by
    simp [chunk_frame]
  rw [hin, receive_message_loop]
  simp only [hrun, Bool.true_eq_false, if_false, read_chunk_size, if_true, hhdr]
  have h0 : ¬ ((c.length : Int) = 0) := by omega
  have h1 : ¬ ((c.length : Int) > MAX_REQUEST_MESSAGE_SIZE) := by
    simp only [MAX_REQUEST_MESSAGE_SIZE]
    omega
  have h2 : toInt32 (len + c.length) = len + c.length :=
    toInt32_of_range _ (by omega) (by omega)
  have h3 : ¬ ((match message with
      | none => (c.length : Int)
      | some _ => toInt32 (len + c.length)) < 0) := by
    cases message with
    | none => simp
    | some m => simp only [h2]; omega
  have h4 : ¬ ((c ++ rest).length < (c.length : Int).toNat) := by
    simp
  rw [if_neg h0, if_neg h1, if_neg h3, if_neg h4, h2]
  simp

/-- A chunk that takes the length past `INT_MAX` makes `g_realloc` end the process. -/
theorem receive_message_loop_overflow (env : Env) (hrun : env.loop_running = true) (fuel : Nat)
    (w : World) (s : netconf_session) (m : List Nat) (len : Int)
    (c rest : List Nat) (hc1 : 1 ≤ c.length) (hc2 : c.length ≤ 32768) (hlen : len < 2147483648)
    (hsum : 2147483648 ≤ len + c.length) :
    receive_message_loop env (fuel + 1) w s (some m) len (chunk_frame c ++ rest) =
      .error .alloc_abort := by
  have hn : c.length < 10 ^ 11 := by
    have : (10 : Nat) ^ 11 = 100000000000 := by norm_num
    omega
  have hhdr := read_chunk_size_loop_decimal c.length hn (c ++ rest)
  rw [toInt32_of_range _ (by omega) (by omega)] at hhdr
  have hin : chunk_frame c ++ rest = [10, 35] ++ decimalBytes c.length ++ [10] ++ (c ++ rest) := by
    simp [chunk_frame]
  rw [hin, receive_message_loop]
  simp only [hrun, Bool.true_eq_false, if_false, read_chunk_size, if_true, hhdr]
  have h0 : ¬ ((c.length : Int) = 0) := by omega
  have h1 : ¬ ((c.length : Int) > MAX_REQUEST_MESSAGE_SIZE) := by
    simp only [MAX_REQUEST_MESSAGE_SIZE]
    omega
  have h3 : toInt32 (len + c.length) < 0 := by
    unfold toInt32
    omega
  rw [if_neg h0, if_neg h1, if_pos h3]

/-- A run of well-sized chunks is appended to the message, as long as the total length stays
within the range of `int`. -/
theorem receive_message_loop_chunks (env : Env) (hrun : env.loop_running = true)
    (chunks : List (List Nat)) :
    ∀ (fuel : Nat) (w : World) (s : netconf_session) (m : List Nat) (len : Int)
      (rest : List Nat), (∀ c ∈ chunks, 1 ≤ c.length ∧ c.length ≤ 32768) → 0 ≤ len →
      len + chunks.flatten.length < 2147483648 →
      receive_message_loop env (fuel + chunks.length) w { s with running := true } (some m) len
          ((chunks.map chunk_frame).flatten ++ rest) =
        receive_message_loop env fuel w { s with running := true }
          (some (m ++ chunks.flatten)) (len + chunks.flatten.length) rest := by
  induction chunks with
  | nil => intro fuel w s m len rest _ _ _; simp
  | cons c cs ih =>
    intro fuel w s m len rest hsz hlen hsum
    have hc := hsz c (List.mem_cons_self _ _)
    simp only [List.flatten_cons, List.length_append, Nat.cast_add] at hsum
    simp only [List.map_cons, List.flatten_cons, List.length_cons, List.append_assoc]
    rw [show fuel + (cs.length + 1) = (fuel + cs.length) + 1 by omega]
    rw [receive_message_loop_chunk env hrun _ w _ (some m) len c _ hc.1 hc.2 hlen (by omega)]
    have := ih fuel w s (m ++ c) (len + c.length) rest
      (fun x hx => hsz x (List.mem_cons_of_mem _ hx)) (by omega) (by omega)
    simp only [Option.getD_some]
    rw [this]
    simp only [List.append_assoc, List.length_append, Nat.cast_add, add_assoc]

theorem frame_length_ge (chunks : List (List Nat)) :
    chunks.length ≤ ((chunks.map chunk_frame).flatten).length := by
  induction chunks with
  | nil => simp
  | cons c cs ih =>
    simp only [List.map_cons, List.flatten_cons, List.length_cons, List.length_append,
      chunk_frame, List.length_singleton]
    omega

theorem flatten_replicate_length (n : Nat) (c : List Nat) :
    (List.replicate n c).flatten.length = n * c.length := by
  induction n with
  | zero => simp
  | succ n ih =>
    rw [List.replicate_succ, List.flatten_cons, List.length_append, ih]
    ring

/-- C2 (as amended): for every non-empty sequence of chunks, each of 1 to 32768 bytes and of
total length below 2^31, `receive_message` applied to the stream made of "\n#<len>\n<chunk>"
for each chunk followed by "\n##\n" returns exactly the concatenation of the chunks and
reports its total length, while the main loop is running. -/
theorem receive_message_round_trip (env : Env) (hrun : env.loop_running = true) (w : World)
    (s : netconf_session) (chunks : List (List Nat)) (hne : chunks ≠ [])
    (hsize : ∀ c ∈ chunks, 1 ≤ c.length ∧ c.length ≤ 32768)
    (htotal : chunks.flatten.length < 2147483648) :
    receive_message env w s (frame_chunks chunks) =
      .ok ⟨w, { s with running := true }, some chunks.flatten, chunks.flatten.length, []⟩ := by
  cases chunks with
  | nil => exact absurd rfl hne
  | cons c cs =>
    have hc := hsize c (List.mem_cons_self _ _)
    have hge := frame_length_ge cs
    simp only [List.flatten_cons, List.length_append] at htotal
    unfold receive_message frame_chunks
    simp only [List.map_cons, List.flatten_cons, List.append_assoc]
    obtain ⟨k, hk⟩ : ∃ k, (chunk_frame c ++ ((cs.map chunk_frame).flatten
        ++ NETCONF_BASE_1_1_END)).length + 1 = ((k + 1) + cs.length) + 1 := by
      refine ⟨(chunk_frame c ++ ((cs.map chunk_frame).flatten
        ++ NETCONF_BASE_1_1_END)).length - cs.length - 1, ?_⟩
      simp only [List.length_append, NETCONF_BASE_1_1_END, List.length_cons, List.length_nil]
      omega
    rw [hk, receive_message_loop_chunk env hrun _ w s none 0 c _ hc.1 hc.2 (le_refl 0)
      (by omega)]
    simp only [Option.getD_none, List.nil_append, zero_add]
    rw [receive_message_loop_chunks env hrun cs (k + 1) w s c c.length NETCONF_BASE_1_1_END
      (fun x hx => hsize x (List.mem_cons_of_mem _ hx)) (by omega) (by omega)]
    rw [show NETCONF_BASE_1_1_END = NETCONF_BASE_1_1_END ++ [] by simp,
      receive_message_loop_end env hrun k w _ _ _ []]
    simp

/-- Witness for C2: two chunks of 3 and 2 bytes. -/
theorem receive_message_round_trip_witness :
    env_ok.loop_running = true ∧ [[60, 97, 47], [62, 10]] ≠ ([] : List (List Nat)) ∧
      receive_message env_ok world_init (mk_session 7 5) (frame_chunks [[60, 97, 47], [62, 10]])
        = .ok ⟨world_init, { mk_session 7 5 with running := true },
            some [60, 97, 47, 62, 10], 5, []⟩ :=
  ⟨rfl, by simp,
    receive_message_round_trip env_ok rfl world_init (mk_session 7 5) [[60, 97, 47], [62, 10]]
      (by simp) (by simp) (by simp)⟩

/-- A message whose length reaches 2^31 at its last chunk ends in the abort of `g_realloc`. -/
theorem receive_message_int_overflow (env : Env) (hrun : env.loop_running = true) (w : World)
    (s : netconf_session) (n : Nat) (c : List Nat) (hc1 : 1 ≤ c.length)
    (hc2 : c.length ≤ 32768) (h1 : (n + 1) * c.length < 2147483648)
    (h2 : 2147483648 ≤ (n + 2) * c.length) :
    receive_message env w s (frame_chunks (c :: (List.replicate n c ++ [c]))) =
      .error .alloc_abort := by
  have hge := frame_length_ge (List.replicate n c)
  have hfl := flatten_replicate_length n c
  have hmul1 : (n + 1) * c.length = c.length + n * c.length := by ring
  have hmul2 : (n + 2) * c.length = c.length + n * c.length + c.length := by ring
  unfold receive_message frame_chunks
  simp only [List.map_cons, List.map_append, List.map_nil, List.flatten_cons,
    List.flatten_append, List.flatten_nil, List.append_nil, List.nil_append, List.append_assoc]
  obtain ⟨k, hk⟩ : ∃ k, (chunk_frame c ++ (((List.replicate n c).map chunk_frame).flatten
      ++ (chunk_frame c ++ NETCONF_BASE_1_1_END))).length + 1
      = ((k + 1) + (List.replicate n c).length) + 1 := by
    refine ⟨(chunk_frame c ++ (((List.replicate n c).map chunk_frame).flatten
      ++ (chunk_frame c ++ NETCONF_BASE_1_1_END))).length - (List.replicate n c).length - 1, ?_⟩
    simp only [List.length_append, NETCONF_BASE_1_1_END, List.length_cons, List.length_nil]
    omega
  rw [hk, receive_message_loop_chunk env hrun _ w s none 0 c _ hc1 hc2 (le_refl 0) (by omega)]
  simp only [Option.getD_none, List.nil_append, zero_add]
  rw [receive_message_loop_chunks env hrun (List.replicate n c) (k + 1) w s c c.length _
    (fun x hx => by rw [List.eq_of_mem_replicate hx]; exact ⟨hc1, hc2⟩) (by omega)
    (by rw [hfl]; omega)]
  rw [hfl]
  exact receive_message_loop_overflow env hrun k w _ _ _ c _ hc1 hc2 (by push_cast; omega)
    (by push_cast; omega)

theorem replicate_succ_succ (n : Nat) (c : List Nat) :
    List.replicate (n + 2) c = c :: (List.replicate n c ++ [c]) := by
  rw [List.replicate_succ, List.replicate_succ']

theorem chunks_2GiB_eq :
    chunks_2GiB = List.replicate 32768 0 ::
      (List.replicate 65534 (List.replicate 32768 0) ++ [List.replicate 32768 0]) :=
  replicate_succ_succ 65534 (List.replicate 32768 0)

/-- C2 (counterexample to the claim as stated): on the stream that frames 65536 chunks of
32768 bytes each, `receive_message` returns nothing: the length counter, an `int`, passes
`INT_MAX` at the last chunk and the reallocation ends the process. -/
theorem receive_message_2GiB_aborts :
    chunks_2GiB ≠ [] ∧ (∀ c ∈ chunks_2GiB, 1 ≤ c.length ∧ c.length ≤ 32768) ∧
      receive_message env_ok world_init (mk_session 7 5) (frame_chunks chunks_2GiB) =
        .error .alloc_abort := by
  refine ⟨?_, ?_, ?_⟩
  · rw [chunks_2GiB_eq]
    exact List.cons_ne_nil _ _
  · intro c hc
    have hlen : (List.replicate 32768 (0 : Nat)).length = 32768 := List.length_replicate _ _
    unfold chunks_2GiB at hc
    rw [List.eq_of_mem_replicate hc]
    omega
  · have hlen : (List.replicate 32768 (0 : Nat)).length = 32768 := List.length_replicate _ _
    rw [chunks_2GiB_eq]
    exact receive_message_int_overflow env_ok rfl world_init (mk_session 7 5) 65534
      (List.replicate 32768 0) (by omega) (by omega) (by omega) (by omega)

/-! ### Oversized chunks -/

/-- The header "\n#4294967296\n". -/
theorem header_4294967296 :
    [10, 35] ++ decimalBytes 4294967296 ++ [10]
      = [10, 35, 52, 50, 57, 52, 57, 54, 55, 50, 57, 54, 10] := by
  simp [decimalBytes]

/-- A header announcing a length between 32769 and `INT_MAX` is answered with `too-big` of
type `application`, without message-id, and the message is dropped. -/
theorem receive_message_too_big (env : Env) (hrun : env.loop_running = true) (w : World)
    (s : netconf_session) (n : Nat) (h1 : 32768 < n) (h2 : n < 2147483648) (rest : List Nat) :
    ∃ w1 s1, receive_message env w s ([10, 35] ++ decimalBytes n ++ [10] ++ rest) =
        .ok ⟨w1, s1, none, 0, rest⟩ ∧
      ErrorSent w w1 { s with running := true } s1
        (error_reply none "too-big" "application"
          "NETCONF: The request is too large for the implementation to handle." [])
        (env.write_ok w.tx.length) := by
  have hn : n < 10 ^ 11 := by
    have : (10 : Nat) ^ 11 = 100000000000 := by norm_num
    omega
  have hhdr := read_chunk_size_loop_decimal n hn rest
  rw [toInt32_of_range _ (by omega) (by omega)] at hhdr
  have he := (send_rpc_error_full_effect env w { s with running := true } none .TOO_BIG .APP
    (some "NETCONF: The request is too large for the implementation to handle.")
    none none true).1
  rw [rpc_error_doc_no_info w none .TOO_BIG .APP _ "too-big" "application"
    (by decide) rfl (by decide) rfl (by decide)] at he
  unfold receive_message
  rw [receive_message_loop]
  simp only [hrun, Bool.true_eq_false, if_false, read_chunk_size, if_true, hhdr]
  have h0 : ¬ ((n : Int) = 0) := by omega
  have h3 : (n : Int) > MAX_REQUEST_MESSAGE_SIZE := by
    simp only [MAX_REQUEST_MESSAGE_SIZE]
    omega
  rw [if_neg h0, if_pos h3]
  generalize send_rpc_error_full env w { s with running := true } none .TOO_BIG .APP
    (some "NETCONF: The request is too large for the implementation to handle.")
    none none true = r at he ⊢
  obtain ⟨w1, s1, ret⟩ := r
  exact ⟨w1, s1, rfl, he⟩


/-- After an oversized chunk the worker leaves its loop: the loop of
`netconf_handle_session` ends with the `too-big` reply sent, `dropped_sessions` one higher, and
the rest of the stream unread. -/
theorem session_loop_too_big (env : Env) (hrun : env.loop_running = true) (w : World)
    (s : netconf_session) (n : Nat) (h1 : 32768 < n) (h2 : n < 2147483648) (rest : List Nat)
    (fuel : Nat) :
    ∃ w1 s1, netconf_handle_session_loop env (fuel + 1) w s
        ([10, 35] ++ decimalBytes n ++ [10] ++ rest) = .ok (count_dropped w1, s1, rest) ∧
      ErrorSent w w1 { s with running := true } s1
        (error_reply none "too-big" "application"
          "NETCONF: The request is too large for the implementation to handle." [])
        (env.write_ok w.tx.length) := by
  obtain ⟨w1, s1, hr, he⟩ :=
    receive_message_too_big env hrun w { s with running := true } n h1 h2 rest
  refine ⟨w1, s1, ?_, he⟩
  rw [netconf_handle_session_loop]
  simp only [hrun, Bool.true_eq_false, if_false, netconf_handle_session_body,
    netconf_handle_session_message, hr]

/-- A message made of a single well-sized chunk. -/
theorem receive_message_single_chunk (env : Env) (hrun : env.loop_running = true) (w : World)
    (s : netconf_session) (c : List Nat) (hc1 : 1 ≤ c.length) (hc2 : c.length ≤ 32768) :
    receive_message env w s (frame_chunks [c]) =
      .ok ⟨w, { s with running := true }, some c, c.length, []⟩ := by
  unfold receive_message frame_chunks
  simp only [List.map_cons, List.map_nil, List.flatten_cons, List.flatten_nil, List.append_nil]
  rw [show (chunk_frame c ++ NETCONF_BASE_1_1_END).length + 1
      = ((chunk_frame c ++ NETCONF_BASE_1_1_END).length - 1) + 1 + 1 by
    simp only [List.length_append, NETCONF_BASE_1_1_END, List.length_cons, List.length_nil]
    omega]
  rw [receive_message_loop_chunk env hrun _ w s none 0 c NETCONF_BASE_1_1_END hc1 hc2
    (le_refl 0) (by omega)]
  rw [show NETCONF_BASE_1_1_END = NETCONF_BASE_1_1_END ++ [] by simp,
    receive_message_loop_end env hrun _ w _ _ _ []]
  simp

/-- C3 (the code at the failing inputs): a header announcing 4294967296 is read as the length
0, so the message ends without any `rpc-error` being sent, and the worker drops the session
with nothing written; a header announcing 4294967295 is read as the length -1, which ends the
process in `g_malloc`.  The last part shows the boundary: a chunk of exactly 32768 bytes is
accepted. -/
theorem receive_message_chunk_size_wraps :
    receive_message env_ok world_created (mk_session 7 5)
        [10, 35, 52, 50, 57, 52, 57, 54, 55, 50, 57, 54, 10]
      = .ok ⟨world_created, mk_session 7 5, none, 0, []⟩ ∧
    (netconf_handle_session_rpcs env_ok world_created (mk_session 7 5)
        [10, 35, 52, 50, 57, 52, 57, 54, 55, 50, 57, 54, 10]).toOption.map
        (fun r => (r.1.tx.length, r.1.g.netconf_global_stats.dropped_sessions,
          r.1.g.open_sessions_list.length))
      = some (0, 1, 0) ∧
    fault? (receive_message env_ok world_created (mk_session 7 5)
        [10, 35, 52, 50, 57, 52, 57, 54, 55, 50, 57, 53, 10]) = some .alloc_abort ∧
    receive_message env_ok world_created (mk_session 7 5)
        (frame_chunks [List.replicate 32768 0])
      = .ok ⟨world_created, mk_session 7 5, some (List.replicate 32768 0), 32768, []⟩ := by
  refine ⟨rfl, by decide, by decide, ?_⟩
  have hlen : (List.replicate 32768 (0 : Nat)).length = 32768 := List.length_replicate _ _
  have := receive_message_single_chunk env_ok rfl world_created (mk_session 7 5)
    (List.replicate 32768 0) (by omega) (by omega)
  rw [hlen] at this
  exact this

/-! ### Rejected chunk headers -/

theorem cstr_cons (x : Nat) (xs : List Nat) :
    cstr (x :: xs) = if x = 0 then [] else x :: cstr xs := by
  unfold cstr
  rw [List.takeWhile_cons]
  by_cases h : x = 0 <;> simp [h]

theorem cstr_cons_ne (x : Nat) (xs : List Nat) (h : x ≠ 0) : cstr (x :: xs) = x :: cstr xs := by
  rw [cstr_cons, if_neg h]

theorem scan_digits_cstr (X : List Nat) :
    ∀ acc, scan_digits acc (cstr X) = scan_digits acc X := by
  induction X with
  | nil => intro acc; rfl
  | cons x xs ih =>
    intro acc
    rw [cstr_cons]
    by_cases h0 : x = 0
    · subst h0
      simp [scan_digits, isdigit]
    · simp only [h0, if_false, scan_digits, ih]

theorem scan_int_space (x : Nat) (xs : List Nat) (h : isspace x = true) :
    scan_int (x :: xs) = scan_int xs := by
  simp [scan_int, List.dropWhile_cons, h]

theorem scan_int_not_space (x : Nat) (xs : List Nat) (h : isspace x = false) :
    scan_int (x :: xs) =
      if x = 45 ∨ x = 43 then
        match xs with
        | [] => none
        | d :: _ =>
          if isdigit d then some (toInt32 (strtol (x == 45) (scan_digits 0 xs))) else none
      else if isdigit x then some (toInt32 (strtol false (scan_digits 0 (x :: xs))))
      else none := by
  simp [scan_int, List.dropWhile_cons, h]

/-- The conversion `%d` sees a buffer only up to its first NUL, which changes nothing: a NUL
ends the number like any other byte that is not a digit. -/
theorem scan_int_cstr (X : List Nat) : scan_int (cstr X) = scan_int X := by
  induction X with
  | nil => rfl
  | cons x xs ih =>
    rw [cstr_cons]
    by_cases h0 : x = 0
    · subst h0
      simp [scan_int, isspace, isdigit]
    · simp only [h0, if_false]
      cases hs : isspace x with
      | true => rw [scan_int_space _ _ hs, scan_int_space _ _ hs, ih]
      | false =>
        rw [scan_int_not_space _ _ hs, scan_int_not_space _ _ hs]
        by_cases hsign : x = 45 ∨ x = 43
        · simp only [hsign, if_true]
          cases xs with
          | nil => rfl
          | cons d ds =>
            rw [← scan_digits_cstr (d :: ds) 0, cstr_cons]
            by_cases hd0 : d = 0
            · subst hd0
              simp [isdigit]
            · simp only [hd0, if_false]
        · simp only [hsign, if_false]
          rw [← cstr_cons_ne x xs h0, scan_digits_cstr]

/-- A payload that is not blank and does not start with a number still does not once the
closing line feed and more bytes follow it. -/
theorem scan_int_append_none (payload : List Nat) :
    ∀ (e : List Nat), payload.dropWhile isspace ≠ [] → scan_int payload = none →
      scan_int (payload ++ 10 :: e) = none := by
  induction payload with
  | nil => intro e h _; exact absurd rfl h
  | cons b ps ih =>
    intro e hnb hnone
    cases hs : isspace b with
    | true =>
      rw [List.cons_append, scan_int_space _ _ hs]
      rw [scan_int_space _ _ hs] at hnone
      rw [List.dropWhile_cons, hs] at hnb
      exact ih e hnb hnone
    | false =>
      rw [List.cons_append, scan_int_not_space _ _ hs]
      rw [scan_int_not_space _ _ hs] at hnone
      by_cases hsign : b = 45 ∨ b = 43
      · simp only [hsign, if_true] at hnone ⊢
        cases ps with
        | nil => simp [isdigit]
        | cons d ds =>
          simp only [List.cons_append]
          by_cases hd : isdigit d = true
          · simp [hd] at hnone
          · simp [hd]
      · simp only [hsign, if_false] at hnone ⊢
        by_cases hd : isdigit b = true
        · simp [hd] at hnone
        · simp [hd]

/-- On such a payload the `sscanf` call fails, whatever follows the closing line feed. -/
theorem sscanf_chunk_header_none (payload e : List Nat)
    (hnb : payload.dropWhile isspace ≠ []) (hnone : scan_int payload = none) :
    sscanf_chunk_header (10 :: 35 :: payload ++ 10 :: e) = none := by
  unfold sscanf_chunk_header
  have h1 : cstr (10 :: 35 :: payload ++ 10 :: e) = 10 :: 35 :: cstr (payload ++ 10 :: e) := by
    rw [List.cons_append, List.cons_append, cstr_cons, cstr_cons]
    simp
  rw [h1]
  have h2 : List.dropWhile isspace (10 :: 35 :: cstr (payload ++ 10 :: e))
      = 35 :: cstr (payload ++ 10 :: e) := by
    simp [List.dropWhile_cons, isspace]
  rw [h2]
  simp only
  rw [scan_int_cstr]
  exact scan_int_append_none payload e hnb hnone

/-- When the `sscanf` call fails on every extension of the header read so far, no chunk
length comes out. -/
theorem read_chunk_size_loop_zero (input : List Nat) :
    ∀ hdr : List Nat, (∀ e, sscanf_chunk_header (hdr ++ e) = none) →
      (read_chunk_size_loop hdr input).1 = 0 := by
  induction input with
  | nil => intro hdr _; rw [read_chunk_size_loop_nil]
  | cons b rest ih =>
    intro hdr hfail
    have hnext : ∀ e, sscanf_chunk_header ((hdr ++ [b]) ++ e) = none := by
      intro e
      rw [List.append_assoc]
      exact hfail ([b] ++ e)
    rw [read_chunk_size_loop.eq_def]
    split
    · rfl
    · simp only
      split
      · split
        · rfl
        · rw [hfail [b]]
          exact ih _ hnext
      · exact ih _ hnext

/-- Every index written lies within the number of bytes stored and received, and is at most
14. -/
theorem read_chunk_size_writes_le (input : List Nat) :
    ∀ hdr : List Nat, ∀ i ∈ read_chunk_size_writes hdr input, i ≤ hdr.length + input.length ∧
      i ≤ MAX_CHUNK_HEADER_SIZE + 1 := by
  induction input with
  | nil =>
    intro hdr i hi
    rw [read_chunk_size_writes.eq_def] at hi
    split at hi <;> simp at hi
  | cons b rest ih =>
    intro hdr i hi
    rw [read_chunk_size_writes.eq_def] at hi
    split at hi
    · simp at hi
    · rename_i hlen
      have hnext : ∀ j ∈ read_chunk_size_writes (hdr ++ [b]) rest,
          j ≤ hdr.length + (b :: rest).length ∧ j ≤ MAX_CHUNK_HEADER_SIZE + 1 := by
        intro j hj
        have := ih (hdr ++ [b]) j hj
        simp only [List.length_append, List.length_singleton, List.length_cons,
          List.length_nil] at this ⊢
        omega
      have hhere : ∀ j ∈ [hdr.length, hdr.length + 1],
          j ≤ hdr.length + (b :: rest).length ∧ j ≤ MAX_CHUNK_HEADER_SIZE + 1 := by
        intro j hj
        have hl : (b :: rest).length = rest.length + 1 := rfl
        rw [hl]
        rcases List.mem_cons.mp hj with h | h
        · omega
        · rw [List.mem_singleton] at h
          omega
      simp only at hi
      split at hi
      · split at hi
        · exact hhere i hi
        · split at hi
          · exact hhere i hi
          · rcases List.mem_append.mp hi with h | h
            · exact hhere i h
            · exact hnext i h
      · rcases List.mem_append.mp hi with h | h
        · exact hhere i h
        · exact hnext i h

/-- C4, for the streams that the array `chunk_header` can hold: on a stream of at most 13
bytes that starts with a header "\n#" payload "\n" whose payload has no line feed, is not
blank and does not start, after optional white space, with a decimal number (an optional
sign followed by a digit), `read_chunk_size` yields no chunk length: it returns 0, and every
byte it stored went inside the array. -/
theorem read_chunk_size_rejects (loop_running : Bool) (payload rest : List Nat)
    (hlf : ∀ b ∈ payload, b ≠ 10)
    (hfit : ([10, 35] ++ payload ++ [10] ++ rest).length ≤ 13)
    (hbad : payload.dropWhile isspace ≠ [] ∧ scan_int payload = none) :
    (read_chunk_size loop_running ([10, 35] ++ payload ++ [10] ++ rest)).1 = 0 ∧
      ∀ i ∈ read_chunk_size_writes [] ([10, 35] ++ payload ++ [10] ++ rest),
        i < chunk_header_size := by
  constructor
  · unfold read_chunk_size
    cases loop_running with
    | false => rfl
    | true =>
      simp only [if_true]
      rw [show [10, 35] ++ payload ++ [10] ++ rest = 10 :: 35 :: payload ++ 10 :: rest by simp]
      obtain ⟨hnb, hnone⟩ := hbad
      have hp1 : 1 ≤ payload.length := by
        cases payload with
        | nil => exact absurd rfl hnb
        | cons _ _ => simp
      have hp2 : payload.length ≤ 10 := by
        simp only [List.length_append, List.length_cons, List.length_nil] at hfit
        omega
      rw [List.cons_append, List.cons_append]
      rw [read_chunk_size_loop_skip [] 10 _ (by simp) (Or.inl (by simp))]
      rw [read_chunk_size_loop_skip ([] ++ [10]) 35 _ (by simp) (Or.inl (by simp))]
      rw [read_chunk_size_loop_skip_list payload _ _
        (by simp only [List.nil_append, List.length_append, List.length_singleton]; omega)
        hlf]
      rw [show [] ++ [10] ++ [35] ++ payload = 10 :: 35 :: payload by simp]
      rw [read_chunk_size_loop_lf payload rest hp1 (by omega)]
      split
      · rfl
      · have h1 := sscanf_chunk_header_none payload [] hnb hnone
        rw [h1]
        apply read_chunk_size_loop_zero
        intro e
        rw [List.append_assoc]
        exact sscanf_chunk_header_none payload e hnb hnone
  · intro i hi
    have h := (read_chunk_size_writes_le _ [] i hi).1
    simp only [List.length_nil, Nat.zero_add] at h
    simp only [chunk_header_size, MAX_CHUNK_HEADER_SIZE]
    omega

/-- Witness for C4: the header "\n#x5\n", whose payload starts with a letter, followed by
four more bytes. -/
theorem read_chunk_size_rejects_witness :
    (∀ b ∈ [120, 53], b ≠ 10) ∧
      ([10, 35] ++ [120, 53] ++ [10] ++ [60, 97, 47, 62] : List Nat).length ≤ 13 ∧
      (([120, 53] : List Nat).dropWhile isspace ≠ [] ∧ scan_int [120, 53] = none) ∧
      (read_chunk_size true ([10, 35] ++ [120, 53] ++ [10] ++ [60, 97, 47, 62])).1 = 0 :=
  ⟨by decide, by decide, by decide,
    (read_chunk_size_rejects true [120, 53] [60, 97, 47, 62] (by decide) (by decide)
      (by decide)).1⟩

/-- Counterexample to C4 as stated: the header "\n#5x\n" has a payload with a character
that is not a decimal digit, and yields the chunk length 5; its five bytes are stored inside
the array. -/
theorem read_chunk_size_accepts_nondigit :
    isdigit 120 = false ∧
      read_chunk_size true [10, 35, 53, 120, 10] = (5, [], true) ∧
      ∀ i ∈ read_chunk_size_writes [] [10, 35, 53, 120, 10], i < chunk_header_size := by
  decide

/-! ### Enough fuel -/

/-- The header loop never gives input back, and reads at least one byte when it yields a
chunk length. -/
theorem read_chunk_size_loop_consumes (input : List Nat) :
    ∀ hdr : List Nat, (read_chunk_size_loop hdr input).2.length ≤ input.length ∧
      ((read_chunk_size_loop hdr input).1 ≠ 0 →
        (read_chunk_size_loop hdr input).2.length < input.length) := by
  induction input with
  | nil =>
    intro hdr
    rw [read_chunk_size_loop_nil]
    simp
  | cons b rest ih =>
    intro hdr
    have h := ih (hdr ++ [b])
    rw [read_chunk_size_loop.eq_def]
    split
    · simp
    · simp only
      split
      · split
        · simp
        · split
          · simp
          · simp only [List.length_cons]
            exact ⟨by omega, fun _ => by omega⟩
      · simp only [List.length_cons]
        exact ⟨by omega, fun _ => by omega⟩

/-- The loop of `receive_message` never gives input back. -/
theorem receive_message_loop_input_le (env : Env) (fuel : Nat) :
    ∀ (w : World) (s : netconf_session) (m : Option (List Nat)) (len : Int) (input : List Nat)
      (r : RecvOut), receive_message_loop env fuel w s m len input = .ok r →
      r.input.length ≤ input.length := by
  induction fuel with
  | zero => intro w s m len input r h; simp [receive_message_loop] at h
  | succ fuel ih =>
    intro w s m len input r h
    have hc := read_chunk_size_loop_consumes input []
    rw [receive_message_loop] at h
    split at h
    · simp only [Except.ok.injEq] at h
      rw [← h]
    · rename_i hrun
      have hrun1 : env.loop_running = true := by simpa using hrun
      simp only [read_chunk_size, hrun1, if_true] at h
      split at h
      · simp only [Except.ok.injEq] at h
        rw [← h]
        exact hc.1
      · split at h
        · simp only [Except.ok.injEq] at h
          rw [← h]
          exact hc.1
        · split at h
          · simp only [Except.ok.injEq] at h
            rw [← h]
            exact hc.1
          · split at h
            · cases h
            · split at h
              · simp only [Except.ok.injEq] at h
                rw [← h]
                simp
              · have := ih _ _ _ _ _ _ h
                simp only [List.length_drop] at this
                omega

/-- With fuel above the length of the input, the loop of `receive_message` does not run out
of fuel. -/
theorem receive_message_loop_fuel (env : Env) (fuel : Nat) :
    ∀ (w : World) (s : netconf_session) (m : Option (List Nat)) (len : Int) (input : List Nat),
      input.length < fuel →
      receive_message_loop env fuel w s m len input ≠ .error .out_of_fuel := by
  induction fuel with
  | zero => intro w s m len input h; omega
  | succ fuel ih =>
    intro w s m len input hfuel
    have hc := read_chunk_size_loop_consumes input []
    rw [receive_message_loop]
    split
    · simp
    · rename_i hrun
      have hrun1 : env.loop_running = true := by simpa using hrun
      simp only [read_chunk_size, hrun1, if_true]
      split
      · simp
      · split
        · simp
        · rename_i hne
          split
          · simp
          · split
            · simp
            · split
              · simp
              · apply ih
                have := hc.2 hne
                simp only [List.length_drop]
                omega

/-- Function `receive_message` always has fuel enough. -/
theorem receive_message_fuel (env : Env) (w : World) (s : netconf_session) (input : List Nat) :
    receive_message env w s input ≠ .error .out_of_fuel :=
  receive_message_loop_fuel env _ w s none 0 input (Nat.lt_succ_self _)

/-- A message is returned only after input was read. -/
theorem receive_message_consumes (env : Env) (w : World) (s : netconf_session)
    (input : List Nat) (r : RecvOut) (h : receive_message env w s input = .ok r)
    (hmsg : r.message.isSome = true) : r.input.length < input.length := by
  have hc := read_chunk_size_loop_consumes input []
  unfold receive_message at h
  rw [receive_message_loop] at h
  split at h
  · simp only [Except.ok.injEq] at h
    rw [← h] at hmsg
    simp at hmsg
  · rename_i hrun
    have hrun1 : env.loop_running = true := by simpa using hrun
    simp only [read_chunk_size, hrun1, if_true] at h
    split at h
    · simp only [Except.ok.injEq] at h
      rw [← h] at hmsg
      simp at hmsg
    · split at h
      · simp only [Except.ok.injEq] at h
        rw [← h] at hmsg
        simp at hmsg
      · rename_i hne
        split at h
        · simp only [Except.ok.injEq] at h
          rw [← h] at hmsg
          simp at hmsg
        · split at h
          · cases h
          · split at h
            · simp only [Except.ok.injEq] at h
              rw [← h] at hmsg
              simp at hmsg
            · have h1 := receive_message_loop_input_le env _ _ _ _ _ _ _ h
              have h2 := hc.2 hne
              simp only [List.length_drop] at h1
              omega




theorem handle_lock_fuel (env : Env) (w : World) (s : netconf_session) (rpc : XmlNode) :
    handle_lock env w s rpc ≠ .error .out_of_fuel := by
  unfold handle_lock
  cases h : check_target (xmlFirstElementChild rpc) with
  | null_deref => simp [h]
  | unsupported name => simp [h]
  | running =>
    simp only [h]
    split <;> simp

theorem handle_unlock_fuel (env : Env) (w : World) (s : netconf_session) (rpc : XmlNode) :
    handle_unlock env w s rpc ≠ .error .out_of_fuel := by
  unfold handle_unlock
  cases h : check_target (xmlFirstElementChild rpc) with
  | null_deref => simp [h]
  | unsupported name => simp [h]
  | running =>
    simp only [h]
    split
    · simp
    · split <;> simp

theorem handle_kill_session_fuel (env : Env) (w : World) (s : netconf_session)
    (rpc : XmlNode) : handle_kill_session env w s rpc ≠ .error .out_of_fuel := by
  unfold handle_kill_session
  cases h : (xmlFirstElementChild rpc).bind (fun a => xmlFindNodeByName a "session-id") with
  | none => simp [h]
  | some node =>
    simp only [h]
    split
    · simp
    · split
      · simp
      · cases h2 : find_netconf_session_by_id w.g
            (scan_session_id ((xmlNodeGetContent node).toList.map Char.toNat)) <;> simp [h2]

theorem handle_get_fuel (env : Env) (w : World) (s : netconf_session) (rpc : XmlNode)
    (c : Bool) (hq : ∀ w s rpc f, env.query_pipeline w s rpc f ≠ .error .out_of_fuel) :
    handle_get env w s rpc c ≠ .error .out_of_fuel := by
  unfold handle_get handle_get_options
  split
  · simp
  · cases h : parse_with_defaults
        (((xmlFirstElementChild rpc).map elementChildren).getD []) with
    | unsupported d => simp [h]
    | flags a t =>
      simp only [h]
      exact hq _ _ _ _

theorem handle_edit_fuel (env : Env) (w : World) (s : netconf_session) (rpc : XmlNode) :
    handle_edit env w s rpc ≠ .error .out_of_fuel := by
  unfold handle_edit handle_edit_config
  cases h : check_target (xmlFirstElementChild rpc) with
  | null_deref => simp [h]
  | unsupported name => simp [h]
  | running =>
    cases h2 : _handle_default_operation (xmlFirstElementChild rpc) with
    | none => simp [h, h2]
    | some def_op =>
      simp only [h, h2]
      split
      · simp
      · cases h3 : (xmlFirstElementChild rpc).bind (fun a => xmlFindNodeByName a "config") with
        | none => simp [h3]
        | some node =>
          simp [h3]

theorem after_handler_fuel (input : List Nat) (h : Except Fault (World × netconf_session × Bool))
    (hh : h ≠ .error .out_of_fuel) : after_handler input h ≠ .error .out_of_fuel := by
  unfold after_handler
  cases h with
  | error f =>
    simp only [ne_eq, Except.error.injEq]
    intro hf
    exact hh (by rw [hf])
  | ok r => simp

theorem after_handler_input (input : List Nat)
    (h : Except Fault (World × netconf_session × Bool))
    (x : LoopExit × World × netconf_session × List Nat) (hx : after_handler input h = .ok x) :
    x.1 = .again ∧ x.2.2.2 = input := by
  unfold after_handler at hx
  cases h with
  | error f => simp at hx
  | ok r =>
    simp only [Except.ok.injEq] at hx
    rw [← hx]
    exact ⟨rfl, rfl⟩

/-- A result of the loop body that neither ran out of fuel nor goes round again without
having read input. -/
theorem leave_fuel (n : Nat) (w1 : World) (s1 : netconf_session) (input1 : List Nat) :
    (Except.ok (LoopExit.leave, w1, s1, input1) :
        Except Fault (LoopExit × World × netconf_session × List Nat)) ≠ .error .out_of_fuel ∧
      ∀ x, (Except.ok (LoopExit.leave, w1, s1, input1) :
        Except Fault (LoopExit × World × netconf_session × List Nat)) = .ok x →
        x.1 = .again → x.2.2.2.length < n := by
  refine ⟨by simp, fun x hx hx1 => ?_⟩
  simp only [Except.ok.injEq] at hx
  rw [← hx] at hx1
  cases hx1

theorem after_handler_ok (n : Nat) (input1 : List Nat) (hlt : input1.length < n)
    (h : Except Fault (World × netconf_session × Bool)) (hh : h ≠ .error .out_of_fuel) :
    after_handler input1 h ≠ .error .out_of_fuel ∧
      ∀ x, after_handler input1 h = .ok x → x.1 = .again → x.2.2.2.length < n := by
  refine ⟨after_handler_fuel _ _ hh, fun x hx _ => ?_⟩
  rw [(after_handler_input _ _ _ hx).2]
  exact hlt

theorem netconf_handle_session_dispatch_fuel (env : Env)
    (hq : ∀ w s rpc f, env.query_pipeline w s rpc f ≠ .error .out_of_fuel)
    (w : World) (s : netconf_session) (rpc child : XmlNode) (input1 : List Nat) (n : Nat)
    (hlt : input1.length < n) :
    netconf_handle_session_dispatch env w s rpc child input1 ≠ .error .out_of_fuel ∧
      ∀ x, netconf_handle_session_dispatch env w s rpc child input1 = .ok x → x.1 = .again →
        x.2.2.2.length < n := by
  unfold netconf_handle_session_dispatch
  split
  · exact leave_fuel _ _ _ _
  · split
    · exact after_handler_ok n input1 hlt _ (handle_kill_session_fuel env _ _ _)
    · split
      · exact after_handler_ok n input1 hlt _ (handle_get_fuel env _ _ _ _ hq)
      · split
        · exact after_handler_ok n input1 hlt _ (handle_get_fuel env _ _ _ _ hq)
        · split
          · exact after_handler_ok n input1 hlt _ (handle_edit_fuel env _ _ _)
          · split
            · exact after_handler_ok n input1 hlt _ (handle_lock_fuel env _ _ _)
            · split
              · exact after_handler_ok n input1 hlt _ (handle_unlock_fuel env _ _ _)
              · exact leave_fuel _ _ _ _

theorem netconf_handle_session_message_fuel (env : Env)
    (hq : ∀ w s rpc f, env.query_pipeline w s rpc f ≠ .error .out_of_fuel)
    (r : RecvOut) (n : Nat) (hlt : r.message.isSome = true → r.input.length < n) :
    netconf_handle_session_message env r ≠ .error .out_of_fuel ∧
      ∀ x, netconf_handle_session_message env r = .ok x → x.1 = .again →
        x.2.2.2.length < n := by
  unfold netconf_handle_session_message
  cases hm : r.message with
  | none => exact leave_fuel _ _ _ _
  | some message =>
    have hlt1 : r.input.length < n := hlt (by simp [hm])
    dsimp only
    split
    · exact leave_fuel _ _ _ _
    · cases h1 : (env.xmlParseMemory (message.take r.rlen.toNat)).bind
          xmlDocGetRootElement with
      | none => exact leave_fuel _ _ _ _
      | some rpc =>
        dsimp only
        split
        · exact leave_fuel _ _ _ _
        · cases h2 : xmlFirstElementChild rpc with
          | none => exact leave_fuel _ _ _ _
          | some child =>
            dsimp only
            split
            · exact leave_fuel _ _ _ _
            · exact netconf_handle_session_dispatch_fuel env hq _ _ _ _ _ n hlt1

/-- One pass through the body of the worker loop does not run out of fuel, provided the query
pipeline does not, and it goes round again only after input was read. -/
theorem netconf_handle_session_body_fuel (env : Env)
    (hq : ∀ w s rpc f, env.query_pipeline w s rpc f ≠ .error .out_of_fuel)
    (w : World) (s : netconf_session) (input : List Nat) :
    netconf_handle_session_body env w s input ≠ .error .out_of_fuel ∧
      ∀ x, netconf_handle_session_body env w s input = .ok x → x.1 = .again →
        x.2.2.2.length < input.length := by
  unfold netconf_handle_session_body
  cases hr : receive_message env w s input with
  | error f =>
    refine ⟨?_, fun x hx => by simp at hx⟩
    simp only [ne_eq, Except.error.injEq]
    intro hf
    rw [hf] at hr
    exact receive_message_fuel env w s input hr
  | ok r =>
    exact netconf_handle_session_message_fuel env hq r input.length
      (receive_message_consumes env w s input r hr)

/-- With fuel above the length of the input, the request loop of the worker does not run out
of fuel, provided the query pipeline does not. -/
theorem netconf_handle_session_loop_fuel (env : Env)
    (hq : ∀ w s rpc f, env.query_pipeline w s rpc f ≠ .error .out_of_fuel)
    (fuel : Nat) :
    ∀ (w : World) (s : netconf_session) (input : List Nat), input.length < fuel →
      netconf_handle_session_loop env fuel w s input ≠ .error .out_of_fuel := by
  induction fuel with
  | zero => intro w s input h; omega
  | succ fuel ih =>
    intro w s input hfuel
    have hb := netconf_handle_session_body_fuel env hq w { s with running := true } input
    rw [netconf_handle_session_loop]
    split
    · simp
    · cases hbody : netconf_handle_session_body env w { s with running := true } input with
      | error f =>
        simp only [ne_eq, Except.error.injEq]
        intro hf
        rw [hf] at hbody
        exact hb.1 hbody
      | ok x =>
        obtain ⟨e, w1, s1, input1⟩ := x
        cases e with
        | leave => simp
        | again =>
          simp only
          have := hb.2 _ hbody rfl
          exact ih w1 s1 input1 (by simp only at this; omega)

/-- The tail of `netconf_handle_session` always has fuel enough, provided the query pipeline
does not run out of fuel. -/
theorem netconf_handle_session_rpcs_fuel (env : Env)
    (hq : ∀ w s rpc f, env.query_pipeline w s rpc f ≠ .error .out_of_fuel)
    (w : World) (s : netconf_session) (input : List Nat) :
    netconf_handle_session_rpcs env w s input ≠ .error .out_of_fuel := by
  have h := netconf_handle_session_loop_fuel env hq (input.length + 1) w s input
    (Nat.lt_succ_self _)
  unfold netconf_handle_session_rpcs
  cases hl : netconf_handle_session_loop env (input.length + 1) w s input with
  | error f =>
    simp only [ne_eq, Except.error.injEq]
    intro hf
    rw [hf] at hl
    exact h hl
  | ok r => simp


/-! ### The edit pipeline -/

theorem ds_state_after_calls (w : World) (calls : List DsOp) :
    ds_state (after_calls w calls) = ds_state w ++ calls.filter DsOp.mutates := by
  simp [ds_state, after_calls]

theorem ds_state_get_tree_calls (w : World) (paths : List String) :
    ds_state (after_calls w (get_tree_calls paths)) = ds_state w := by
  rw [ds_state_after_calls]
  induction paths with
  | nil => simp [get_tree_calls]
  | cons p rest _ => simp [get_tree_calls, DsOp.mutates]

theorem ds_state_get_calls (w : World) (paths : List String) :
    ds_state (after_calls w (get_calls paths)) = ds_state w := by
  rw [ds_state_after_calls]
  induction paths with
  | nil => simp [get_calls]
  | cons p rest _ => simp [get_calls, DsOp.mutates]

theorem after_calls_nil (w : World) : after_calls w [] = w := by
  simp [after_calls]

theorem after_calls_append (w : World) (a b : List DsOp) :
    after_calls (after_calls w a) b = after_calls w (a ++ b) := by
  simp [after_calls]

/-- The pre-flight loop on paths that all answer as expected: every path is looked up, in
order, and no error tag is set. -/
theorem check_paths_pass (env : Env) (expected : Bool) (paths : List String) :
    ∀ w : World, (∀ q ∈ paths, env.ds_get_tree (ds_state w) q = expected) →
      check_paths env expected paths w = (after_calls w (get_tree_calls paths), .UNKNOWN) := by
  induction paths with
  | nil => intro w _; simp [check_paths, get_tree_calls, after_calls]
  | cons p rest ih =>
    intro w h
    have hp := h p (List.mem_cons_self _ _)
    have hst : ds_state (after_calls w (get_tree_calls [p])) = ds_state w :=
      ds_state_get_tree_calls w [p]
    have hrest := ih (after_calls w (get_tree_calls [p])) (by
      intro q hq
      rw [hst]
      exact h q (List.mem_cons_of_mem _ hq))
    rw [after_calls_append] at hrest
    rw [check_paths]
    cases expected <;>
      simpa [_check_exist, apteryx_get_tree, hp, after_calls, get_tree_calls] using hrest

/-- The pre-flight loop on paths of which `p` is the first that does not answer as expected:
the paths up to `p` are looked up, in order, and the error tag of `p` is set. -/
theorem check_paths_fail (env : Env) (expected : Bool) (pre : List String) (p : String)
    (post : List String) :
    ∀ w : World, (∀ q ∈ pre, env.ds_get_tree (ds_state w) q = expected) →
      env.ds_get_tree (ds_state w) p = !expected →
      check_paths env expected (pre ++ p :: post) w =
        (after_calls w (get_tree_calls (pre ++ [p])),
          if expected then .DATA_MISSING else .DATA_EXISTS) := by
  induction pre with
  | nil =>
    intro w _ hp
    rw [List.nil_append, check_paths]
    cases expected <;>
      simp [_check_exist, apteryx_get_tree, hp, after_calls, get_tree_calls]
  | cons q rest ih =>
    intro w h hp
    have hq := h q (List.mem_cons_self _ _)
    have hst : ds_state (after_calls w (get_tree_calls [q])) = ds_state w :=
      ds_state_get_tree_calls w [q]
    have hrest := ih (after_calls w (get_tree_calls [q])) (by
      intro r hr
      rw [hst]
      exact h r (List.mem_cons_of_mem _ hr)) (by rw [hst]; exact hp)
    rw [after_calls_append] at hrest
    rw [List.cons_append, check_paths]
    cases expected <;>
      simpa [_check_exist, apteryx_get_tree, hq, after_calls, get_tree_calls] using hrest

theorem prune_paths_calls (paths : List String) :
    ∀ w : World, prune_paths paths w = after_calls w (paths.map DsOp.prune) := by
  induction paths with
  | nil => intro w; simp [prune_paths, after_calls]
  | cons p rest ih =>
    intro w
    rw [prune_paths, ih]
    simp [apteryx_prune, after_calls]

/-- The create re-check on paths none of which holds a value. -/
theorem creates_exist_pass (env : Env) (paths : List String) :
    ∀ w : World, (∀ q ∈ paths, env.ds_get (ds_state w) q = false) →
      creates_exist env paths w = (after_calls w (get_calls paths), false) := by
  induction paths with
  | nil => intro w _; simp [creates_exist, get_calls, after_calls]
  | cons p rest ih =>
    intro w h
    have hp := h p (List.mem_cons_self _ _)
    have hst : ds_state (after_calls w (get_calls [p])) = ds_state w :=
      ds_state_get_calls w [p]
    have hrest := ih (after_calls w (get_calls [p])) (by
      intro q hq
      rw [hst]
      exact h q (List.mem_cons_of_mem _ hq))
    rw [after_calls_append] at hrest
    rw [creates_exist]
    simpa [apteryx_get, hp, after_calls, get_calls] using hrest

/-- The create re-check on paths of which `p` is the first that holds a value. -/
theorem creates_exist_fail (env : Env) (pre : List String) (p : String) (post : List String) :
    ∀ w : World, (∀ q ∈ pre, env.ds_get (ds_state w) q = false) →
      env.ds_get (ds_state w) p = true →
      creates_exist env (pre ++ p :: post) w = (after_calls w (get_calls (pre ++ [p])), true) := by
  induction pre with
  | nil =>
    intro w _ hp
    rw [List.nil_append, creates_exist]
    simp [apteryx_get, hp, after_calls, get_calls]
  | cons q rest ih =>
    intro w h hp
    have hq := h q (List.mem_cons_self _ _)
    have hst : ds_state (after_calls w (get_calls [q])) = ds_state w :=
      ds_state_get_calls w [q]
    have hrest := ih (after_calls w (get_calls [q])) (by
      intro r hr
      rw [hst]
      exact h r (List.mem_cons_of_mem _ hr)) (by rw [hst]; exact hp)
    rw [after_calls_append] at hrest
    rw [List.cons_append, creates_exist]
    simpa [apteryx_get, hq, after_calls, get_calls] using hrest

/-- When `handle_edit` gets as far as the translation, the rest of it is `handle_edit_parms`
on the translated edit. -/
theorem handle_edit_translated (env : Env) (w : World) (session : netconf_session)
    (rpc : XmlNode) (parms : sch_xml_to_gnode_parms)
    (htr : edit_translation env w session rpc = some parms) :
    handle_edit env w session rpc = .ok (handle_edit_parms env w session rpc parms) := by
  unfold edit_translation at htr
  unfold handle_edit handle_edit_config
  cases h1 : check_target (xmlFirstElementChild rpc) with
  | null_deref => simp [h1] at htr
  | unsupported name => simp [h1] at htr
  | running =>
    cases h2 : _handle_default_operation (xmlFirstElementChild rpc) with
    | none => simp [h1, h2] at htr
    | some def_op =>
      cases h3 : lock_held_by_other w.g session with
      | true => simp [h1, h2, h3] at htr
      | false =>
        cases h4 : (xmlFirstElementChild rpc).bind (fun a => xmlFindNodeByName a "config") with
        | none => simp [h1, h2, h3, h4] at htr
        | some node =>
          simp only [h1, h2, h3, h4, Bool.false_eq_true, if_false, Option.some.injEq] at htr
          simp only [h1, h2, h3, h4, Bool.false_eq_true, if_false, htr]

theorem rpc_error_doc_default_msg (w : World) (rpc : Option XmlNode) (tag : NC_ERR_TAG)
    (type : NC_ERR_TYPE) (msg tagstr typestr : String)
    (hmsg : rpc_error_tag_to_msg tag = some msg) (hmsgne : msg ≠ "")
    (htag : rpc_error_tag_to_string tag = some tagstr) (htagne : tagstr ≠ "")
    (htype : rpc_error_type_to_string type = some typestr) (htypene : typestr ≠ "") :
    rpc_error_doc rpc (error_parms_full w tag type none none none true)
      = error_reply rpc tagstr typestr msg [] := by
  cases rpc <;>
  simp [rpc_error_doc, error_parms_full, error_reply, NC_ERROR_PARMS_INIT, xmlNewChild, hmsg,
    hmsgne, htag, htype, htagne, htypene]


/-- An error reply of `handle_edit` that carries the default message of its tag and no
`<error-info>`: one document is written and nothing else changes. -/
theorem send_rpc_error_default (env : Env) (w : World) (session : netconf_session)
    (rpc : XmlNode) (tag : NC_ERR_TAG) (type : NC_ERR_TYPE) (msg tagstr typestr : String)
    (hmsg : rpc_error_tag_to_msg tag = some msg) (hmsgne : msg ≠ "")
    (htag : rpc_error_tag_to_string tag = some tagstr) (htagne : tagstr ≠ "")
    (htype : rpc_error_type_to_string type = some typestr) (htypene : typestr ≠ "") :
    ∃ w1 s1 ret,
      send_rpc_error_full env w session (some rpc) tag type none none none true = (w1, s1, ret) ∧
      ErrorSent w w1 session s1 (error_reply (some rpc) tagstr typestr msg []) ret ∧
      ret = env.write_ok w.tx.length := by
  have he := send_rpc_error_full_effect env w session (some rpc) tag type none none none true
  rw [rpc_error_doc_default_msg w (some rpc) tag type msg tagstr typestr hmsg hmsgne htag htagne
    htype htypene] at he
  generalize send_rpc_error_full env w session (some rpc) tag type none none none true = r
    at he ⊢
  obtain ⟨w1, s1, ret⟩ := r
  refine ⟨w1, s1, ret, rfl, ?_, he.2⟩
  have h1 := he.1
  simp only at h1 he
  rw [he.2]
  exact h1

/-- C11: for every translated edit the pre-flight of `handle_edit` looks up the deletes in
order and then the creates in order, with `apteryx_get_tree`.  The first delete path with no
data at or below it ends the request with the single reply `data-missing` of type
`application`; when every delete path has data, the first create path with data (at or below
it, which is what `_check_exist` tests) ends it with the single reply `data-exists` of type
`application`.  In both cases the only datastore calls are the look-ups up to the failing
path. -/
theorem handle_edit_preflight (env : Env) (w : World) (session : netconf_session)
    (rpc : XmlNode) (parms : sch_xml_to_gnode_parms)
    (htr : edit_translation env w session rpc = some parms)
    (herr : parms.error.tag = .UNKNOWN) :
    (∀ pre p post, parms.deletes = pre ++ p :: post →
      (∀ q ∈ pre, env.ds_get_tree (ds_state w) q = true) →
      env.ds_get_tree (ds_state w) p = false →
      ∃ w1 s1 ret, handle_edit env w session rpc = .ok (w1, s1, ret) ∧
        ErrorSent (after_calls w (get_tree_calls (pre ++ [p]))) w1 session s1
          (error_reply (some rpc) "data-missing" "application"
            "Requested data model content does not exist" []) ret) ∧
    (∀ pre p post, (∀ q ∈ parms.deletes, env.ds_get_tree (ds_state w) q = true) →
      parms.creates = pre ++ p :: post →
      (∀ q ∈ pre, env.ds_get_tree (ds_state w) q = false) →
      env.ds_get_tree (ds_state w) p = true →
      ∃ w1 s1 ret, handle_edit env w session rpc = .ok (w1, s1, ret) ∧
        ErrorSent (after_calls w (get_tree_calls parms.deletes ++ get_tree_calls (pre ++ [p])))
          w1 session s1
          (error_reply (some rpc) "data-exists" "application"
            "Requested data model content already exists" []) ret) := by
  rw [handle_edit_translated env w session rpc parms htr]
  constructor
  · intro pre p post hd hpre hp
    have hc := check_paths_fail env true pre p post w hpre (by simpa using hp)
    obtain ⟨w1, s1, ret, he, hs, _⟩ := send_rpc_error_default env
      (after_calls w (get_tree_calls (pre ++ [p]))) session rpc .DATA_MISSING .APP
      _ _ _ rfl (by decide) rfl (by decide) rfl (by decide)
    refine ⟨w1, s1, ret, ?_, hs⟩
    simp [handle_edit_parms, herr, hd, hc, he]
  · intro pre p post hdel hcr hpre hp
    have hd := check_paths_pass env true parms.deletes w hdel
    have hst := ds_state_get_tree_calls w parms.deletes
    have hc := check_paths_fail env false pre p post
      (after_calls w (get_tree_calls parms.deletes))
      (by rw [hst]; simpa using hpre) (by rw [hst]; simpa using hp)
    rw [after_calls_append] at hc
    obtain ⟨w1, s1, ret, he, hs, _⟩ := send_rpc_error_default env
      (after_calls w (get_tree_calls parms.deletes ++ get_tree_calls (pre ++ [p]))) session rpc
      .DATA_EXISTS .APP _ _ _ rfl (by decide) rfl (by decide) rfl (by decide)
    refine ⟨w1, s1, ret, ?_, hs⟩
    simp [handle_edit_parms, herr, hd, hcr, hc, he]

/-- Witness for C11: with `/a` in the datastore, deleting `/a` and `/b` is answered with
`data-missing` after the look-ups of `/a` and `/b`; with `/a`, `/b` and `/d` in the
datastore, creating `/c` and `/d` is answered with `data-exists` after the look-ups of `/a`,
`/b`, `/c` and `/d`. -/
theorem handle_edit_preflight_witness :
    (∃ w1 s1 ret,
      handle_edit (env_edit parms_edit ["/a"] true true) world_created (mk_session 7 5) rpc_edit
        = .ok (w1, s1, ret) ∧
      ErrorSent (after_calls world_created [.get_tree "/a", .get_tree "/b"]) w1
        (mk_session 7 5) s1
        (error_reply (some rpc_edit) "data-missing" "application"
          "Requested data model content does not exist" []) ret) ∧
    (∃ w1 s1 ret,
      handle_edit (env_edit parms_edit ["/a", "/b", "/d"] true true) world_created
        (mk_session 7 5) rpc_edit = .ok (w1, s1, ret) ∧
      ErrorSent
        (after_calls world_created
          [.get_tree "/a", .get_tree "/b", .get_tree "/c", .get_tree "/d"]) w1
        (mk_session 7 5) s1
        (error_reply (some rpc_edit) "data-exists" "application"
          "Requested data model content already exists" []) ret) :=
  ⟨(handle_edit_preflight (env_edit parms_edit ["/a"] true true) world_created (mk_session 7 5)
      rpc_edit parms_edit rfl rfl).1 ["/a"] "/b" [] rfl (by decide) (by decide),
   (handle_edit_preflight (env_edit parms_edit ["/a", "/b", "/d"] true true) world_created
      (mk_session 7 5) rpc_edit parms_edit rfl rfl).2 ["/c"] "/d" [] (by decide) rfl
      (by decide) (by decide)⟩


/-- A list with an element on which `f` holds splits at the first such element. -/
theorem first_split (f : String → Bool) (l : List String) (h : ∃ p ∈ l, f p = true) :
    ∃ pre p post, l = pre ++ p :: post ∧ (∀ q ∈ pre, f q = false) ∧ f p = true := by
  induction l with
  | nil =>
    obtain ⟨p, hp, _⟩ := h
    cases hp
  | cons a rest ih =>
    cases ha : f a with
    | true => exact ⟨[], a, rest, rfl, by simp, ha⟩
    | false =>
      obtain ⟨p, hp, hfp⟩ := h
      have hrest : ∃ p ∈ rest, f p = true := by
        rcases List.mem_cons.mp hp with rfl | hmem
        · rw [ha] at hfp
          cases hfp
        · exact ⟨p, hmem, hfp⟩
      obtain ⟨pre, q, post, hl, hpre, hq⟩ := ih hrest
      refine ⟨a :: pre, q, post, by rw [hl]; rfl, ?_, hq⟩
      intro r hr
      rcases List.mem_cons.mp hr with rfl | hmem
      · exact ha
      · exact hpre r hmem

/-- C12: for every translated edit whose delete paths all have data and whose creates list
contains a path at which the datastore holds data (found by `apteryx_get_tree`), the single
reply is `data-exists` of type `application`, and the datastore calls issued are look-ups
only: no prune, set or set-tree, so the content of the datastore is what it was. -/
theorem handle_edit_create_conflict (env : Env) (w : World) (session : netconf_session)
    (rpc : XmlNode) (parms : sch_xml_to_gnode_parms)
    (htr : edit_translation env w session rpc = some parms)
    (herr : parms.error.tag = .UNKNOWN)
    (hdel : ∀ q ∈ parms.deletes, env.ds_get_tree (ds_state w) q = true)
    (hcr : ∃ p ∈ parms.creates, env.ds_get_tree (ds_state w) p = true) :
    ∃ w1 s1 ret calls, handle_edit env w session rpc = .ok (w1, s1, ret) ∧
      w1.tx = w.tx ++ [⟨session.fd, error_reply (some rpc) "data-exists" "application"
        "Requested data model content already exists" [], ret⟩] ∧
      w1.ds_log = w.ds_log ++ calls ∧
      (∀ op ∈ calls, ∃ path, op = DsOp.get_tree path) ∧
      ds_state w1 = ds_state w := by
  obtain ⟨pre, p, post, hsplit, hpre, hp⟩ :=
    first_split (fun q => env.ds_get_tree (ds_state w) q) parms.creates hcr
  rw [handle_edit_translated env w session rpc parms htr]
  have hd := check_paths_pass env true parms.deletes w hdel
  have hst := ds_state_get_tree_calls w parms.deletes
  have hc := check_paths_fail env false pre p post
    (after_calls w (get_tree_calls parms.deletes))
    (by rw [hst]; simpa using hpre) (by rw [hst]; simpa using hp)
  rw [after_calls_append] at hc
  obtain ⟨w1, s1, ret, he, hs, _⟩ := send_rpc_error_default env
    (after_calls w (get_tree_calls parms.deletes ++ get_tree_calls (pre ++ [p]))) session rpc
    .DATA_EXISTS .APP _ _ _ rfl (by decide) rfl (by decide) rfl (by decide)
  refine ⟨w1, s1, ret, get_tree_calls parms.deletes ++ get_tree_calls (pre ++ [p]), ?_, hs.tx,
    hs.ds_log, ?_, ?_⟩
  · simp [handle_edit_parms, herr, hd, hsplit, hc, he]
  · intro op hop
    simp only [get_tree_calls, List.mem_append, List.mem_map] at hop
    rcases hop with ⟨q, _, rfl⟩ | ⟨q, _, rfl⟩ <;> exact ⟨q, rfl⟩
  · have h1 : ds_state w1 = ds_state (after_calls w
        (get_tree_calls parms.deletes ++ get_tree_calls (pre ++ [p]))) := by
      simp only [ds_state, hs.ds_log]
    have h2 : get_tree_calls parms.deletes ++ get_tree_calls (pre ++ [p]) =
        get_tree_calls (parms.deletes ++ (pre ++ [p])) := by
      simp [get_tree_calls]
    rw [h1, h2]
    exact ds_state_get_tree_calls w _

/-- Witness for C12: with `/a`, `/b` and `/d` in the datastore, the edit that deletes `/a`
and `/b` and creates `/c` and `/d` is answered with `data-exists`. -/
theorem handle_edit_create_conflict_witness :
    ∃ w1 s1 ret calls,
      handle_edit (env_edit parms_edit ["/a", "/b", "/d"] true true) world_created
        (mk_session 7 5) rpc_edit = .ok (w1, s1, ret) ∧
      w1.tx = world_created.tx ++ [⟨7, error_reply (some rpc_edit) "data-exists" "application"
        "Requested data model content already exists" [], ret⟩] ∧
      w1.ds_log = world_created.ds_log ++ calls ∧
      (∀ op ∈ calls, ∃ path, op = DsOp.get_tree path) ∧
      ds_state w1 = ds_state world_created :=
  handle_edit_create_conflict (env_edit parms_edit ["/a", "/b", "/d"] true true) world_created
    (mk_session 7 5) rpc_edit parms_edit rfl rfl (by decide) ⟨"/d", by decide, by decide⟩


/-- The part of `handle_edit` that follows a pre-flight in which every delete path has data
and no create path has any: the look-ups and the prunes have been issued, in this order. -/
theorem handle_edit_parms_checked (env : Env) (w : World) (session : netconf_session)
    (rpc : XmlNode) (parms : sch_xml_to_gnode_parms)
    (herr : parms.error.tag = .UNKNOWN)
    (hdel : ∀ q ∈ parms.deletes, env.ds_get_tree (ds_state w) q = true)
    (hcre : ∀ q ∈ parms.creates, env.ds_get_tree (ds_state w) q = false) :
    handle_edit_parms env w session rpc parms =
      (let e := creates_exist env parms.creates (after_calls w
        (get_tree_calls parms.deletes ++ get_tree_calls parms.creates ++ prune_calls parms))
      if e.2 then
        send_rpc_error_full env e.1 session (some rpc) .DATA_EXISTS .APP none none none true
      else if conditions_fail env parms.tree parms.conditions then
        send_rpc_error_full env e.1 session (some rpc) .INVALID_VAL .PROTOCOL none none none
          true
      else
        let t := edit_database env e.1 parms
        if t.2 then
          send_rpc_error_full env t.1 session (some rpc) .OPR_FAILED .APP none none none true
        else
          let n := count_in_rpcs t.1 session
          let r := send_rpc_ok env n.1 n.2 rpc
          (r.1, n.2, r.2)) := by
  have hd := check_paths_pass env true parms.deletes w hdel
  have hst := ds_state_get_tree_calls w parms.deletes
  have hc := check_paths_pass env false parms.creates
    (after_calls w (get_tree_calls parms.deletes)) (by rw [hst]; exact hcre)
  rw [after_calls_append] at hc
  have hp : prune_paths parms.replaces (prune_paths parms.removes (prune_paths parms.deletes
      (after_calls w (get_tree_calls parms.deletes ++ get_tree_calls parms.creates)))) =
      after_calls w
        (get_tree_calls parms.deletes ++ get_tree_calls parms.creates ++ prune_calls parms) := by
    simp [prune_paths_calls, after_calls, prune_calls]
  simp only [handle_edit_parms, herr, hd, hc, hp, ne_eq, not_true_eq_false, if_false]

/-- The datastore content after the look-ups and the prunes of an edit: the prunes were
applied. -/
theorem ds_state_pruned (w : World) (parms : sch_xml_to_gnode_parms) (gets : List String) :
    ds_state (after_calls w
      (get_tree_calls parms.deletes ++ get_tree_calls parms.creates ++ prune_calls parms ++
        get_calls gets)) = ds_state w ++ prune_calls parms := by
  rw [ds_state_after_calls]
  congr 1
  simp only [List.filter_append]
  have h1 : ∀ l : List String, (get_tree_calls l).filter DsOp.mutates = [] := by
    intro l
    induction l with
    | nil => rfl
    | cons a rest _ => simp [get_tree_calls, DsOp.mutates]
  have h2 : ∀ l : List String, (get_calls l).filter DsOp.mutates = [] := by
    intro l
    induction l with
    | nil => rfl
    | cons a rest _ => simp [get_calls, DsOp.mutates]
  have h3 : (prune_calls parms).filter DsOp.mutates = prune_calls parms := by
    rw [List.filter_eq_self]
    intro op hop
    simp only [prune_calls, List.mem_map] at hop
    obtain ⟨q, _, rfl⟩ := hop
    rfl
  rw [h1, h1, h2, h3]
  simp

/-- The statement "Edit database": the calls issued and the outcome. -/
theorem edit_database_calls (env : Env) (w : World) (parms : sch_xml_to_gnode_parms) :
    (edit_database env w parms).1 = after_calls w (set_tree_calls parms) ∧
    ((edit_database env w parms).2 = true ↔
      ∃ tree, parms.tree = some tree ∧ parms.need_tree_set = true ∧
        env.ds_set_tree (ds_state w) tree = false) := by
  unfold edit_database set_tree_calls
  cases ht : parms.tree with
  | none => simp [after_calls]
  | some tree =>
    cases hn : parms.need_tree_set with
    | false => simp [after_calls]
    | true => simp [after_calls, apteryx_set_tree]


/-- C13, amended: for every translated edit that passes the pre-flight checks, the datastore
calls issued after the look-ups are, in this order, a prune of every deletes path, of every
removes path and of every replaces path (with no existence check on the removes), then the
create re-checks.  A re-check that finds a value ends the request with `data-exists`, a
failed condition ends it with `invalid-value`, and in both cases no set-tree is issued.  When
no re-check finds a value and no condition fails, a single set-tree comes last, issued if and
only if `need_tree_set` holds and there is a mutation tree; a failing set-tree yields
`operation-failed` of type `application`, and otherwise the reply is `<ok/>`. -/
theorem handle_edit_execution (env : Env) (w : World) (session : netconf_session)
    (rpc : XmlNode) (parms : sch_xml_to_gnode_parms)
    (htr : edit_translation env w session rpc = some parms)
    (herr : parms.error.tag = .UNKNOWN)
    (hdel : ∀ q ∈ parms.deletes, env.ds_get_tree (ds_state w) q = true)
    (hcre : ∀ q ∈ parms.creates, env.ds_get_tree (ds_state w) q = false) :
    (∀ pre p post, parms.creates = pre ++ p :: post →
      (∀ q ∈ pre, env.ds_get (pruned_state w parms) q = false) →
      env.ds_get (pruned_state w parms) p = true →
      ∃ w1 s1 ret, handle_edit env w session rpc = .ok (w1, s1, ret) ∧
        ErrorSent (after_calls w (checked_calls parms ++ get_calls (pre ++ [p]))) w1 session s1
          (error_reply (some rpc) "data-exists" "application"
            "Requested data model content already exists" []) ret) ∧
    ((∀ q ∈ parms.creates, env.ds_get (pruned_state w parms) q = false) →
      conditions_fail env parms.tree parms.conditions = true →
      ∃ w1 s1 ret, handle_edit env w session rpc = .ok (w1, s1, ret) ∧
        ErrorSent (after_calls w (checked_calls parms ++ get_calls parms.creates)) w1 session s1
          (error_reply (some rpc) "invalid-value" "protocol"
            "Unacceptable value for one or more parameters" []) ret) ∧
    ((∀ q ∈ parms.creates, env.ds_get (pruned_state w parms) q = false) →
      conditions_fail env parms.tree parms.conditions = false →
      ∃ w1 s1 ret, handle_edit env w session rpc = .ok (w1, s1, ret) ∧
        w1.ds_log = w.ds_log ++
          (checked_calls parms ++ get_calls parms.creates ++ set_tree_calls parms) ∧
        (set_tree_fails env w parms →
          ErrorSent
            (after_calls w
              (checked_calls parms ++ get_calls parms.creates ++ set_tree_calls parms))
            w1 session s1
            (error_reply (some rpc) "operation-failed" "application"
              "Requested operation failed due to some reason" []) ret) ∧
        (¬ set_tree_fails env w parms →
          w1.tx = w.tx ++ [⟨session.fd, ok_reply rpc, ret⟩] ∧
          s1.counters.in_rpcs = session.counters.in_rpcs + 1 ∧
          w1.g.netconf_global_stats.session_totals.in_rpcs =
            w.g.netconf_global_stats.session_totals.in_rpcs + 1)) := by
  rw [handle_edit_translated env w session rpc parms htr,
    handle_edit_parms_checked env w session rpc parms herr hdel hcre]
  have hst0 : ds_state (after_calls w (get_tree_calls parms.deletes ++
      get_tree_calls parms.creates ++ prune_calls parms)) = pruned_state w parms := by
    have := ds_state_pruned w parms []
    simpa [get_calls, pruned_state] using this
  refine ⟨?_, ?_, ?_⟩
  · intro pre p post hsplit hpre hp
    have hc := creates_exist_fail env pre p post (after_calls w (get_tree_calls parms.deletes ++
      get_tree_calls parms.creates ++ prune_calls parms)) (by rw [hst0]; exact hpre)
      (by rw [hst0]; exact hp)
    rw [after_calls_append] at hc
    obtain ⟨w1, s1, ret, he, hs, _⟩ := send_rpc_error_default env
      (after_calls w (checked_calls parms ++ get_calls (pre ++ [p]))) session rpc
      .DATA_EXISTS .APP _ _ _ rfl (by decide) rfl (by decide) rfl (by decide)
    refine ⟨w1, s1, ret, ?_, hs⟩
    rw [← hsplit] at hc
    simp only [hc, if_true]
    exact congrArg Except.ok he
  · intro hall hcond
    have hc := creates_exist_pass env parms.creates (after_calls w
      (get_tree_calls parms.deletes ++ get_tree_calls parms.creates ++ prune_calls parms))
      (by rw [hst0]; exact hall)
    rw [after_calls_append] at hc
    obtain ⟨w1, s1, ret, he, hs, _⟩ := send_rpc_error_default env
      (after_calls w (checked_calls parms ++ get_calls parms.creates)) session rpc
      .INVALID_VAL .PROTOCOL _ _ _ rfl (by decide) rfl (by decide) rfl (by decide)
    refine ⟨w1, s1, ret, ?_, hs⟩
    simp only [hc, hcond, Bool.false_eq_true, if_false, if_true]
    exact congrArg Except.ok he
  · intro hall hcond
    have hc := creates_exist_pass env parms.creates (after_calls w
      (get_tree_calls parms.deletes ++ get_tree_calls parms.creates ++ prune_calls parms))
      (by rw [hst0]; exact hall)
    rw [after_calls_append] at hc
    have hdb := edit_database_calls env (after_calls w (checked_calls parms ++
      get_calls parms.creates)) parms
    have hst1 : ds_state (after_calls w (checked_calls parms ++ get_calls parms.creates)) =
        pruned_state w parms := ds_state_pruned w parms parms.creates
    rw [hst1, after_calls_append] at hdb
    simp only [hc, hcond, Bool.false_eq_true, if_false]
    by_cases hf : set_tree_fails env w parms
    · obtain ⟨w1, s1, ret, he, hs, _⟩ := send_rpc_error_default env
        (after_calls w (checked_calls parms ++ get_calls parms.creates ++ set_tree_calls parms))
        session rpc .OPR_FAILED .APP _ _ _ rfl (by decide) rfl (by decide) rfl (by decide)
      refine ⟨w1, s1, ret, ?_, hs.ds_log, fun _ => hs, fun hn => absurd hf hn⟩
      have h2 : (edit_database env (after_calls w (checked_calls parms ++
          get_calls parms.creates)) parms).2 = true := hdb.2.mpr hf
      simp only [checked_calls] at h2 hdb he
      simp only [h2, if_true, hdb.1]
      exact congrArg Except.ok he
    · have h2 : (edit_database env (after_calls w (checked_calls parms ++
          get_calls parms.creates)) parms).2 = false := by
        cases h : (edit_database env (after_calls w (checked_calls parms ++
          get_calls parms.creates)) parms).2 with
        | false => rfl
        | true => exact absurd (hdb.2.mp h) hf
      simp only [checked_calls] at h2 hdb
      simp only [h2, Bool.false_eq_true, if_false, hdb.1]
      refine ⟨_, _, _, rfl, ?_, fun h => absurd h hf, fun _ => ?_⟩
      · simp [send_rpc_ok, write_doc, count_in_rpcs, after_calls, checked_calls]
      · simp [send_rpc_ok, write_doc, count_in_rpcs, after_calls, ok_reply, xmlNewChild]

/-- Witness for C13: with `/a` and `/b` in the datastore, the edit `parms_edit` is carried
out in full; the path `/r` to remove is absent and the reply is `<ok/>`. -/
theorem handle_edit_execution_witness :
    ∃ w1 s1 ret,
      handle_edit (env_edit parms_edit ["/a", "/b"] true true) world_created (mk_session 7 5)
        rpc_edit = .ok (w1, s1, ret) ∧
      w1.ds_log = [.get_tree "/a", .get_tree "/b", .get_tree "/c", .get_tree "/d",
        .prune "/a", .prune "/b", .prune "/r", .prune "/p", .get "/c", .get "/d",
        .set_tree ⟨[("/c", "1"), ("/d", "2"), ("/p", "3")]⟩] ∧
      w1.tx = [⟨7, ok_reply rpc_edit, ret⟩] ∧ s1.counters.in_rpcs = 1 := by
  have h := (handle_edit_execution (env_edit parms_edit ["/a", "/b"] true true) world_created
    (mk_session 7 5) rpc_edit parms_edit rfl rfl (by decide) (by decide)).2.2
    (by decide) (by decide)
  obtain ⟨w1, s1, ret, he, hlog, _, hok⟩ := h
  have hnf : ¬ set_tree_fails (env_edit parms_edit ["/a", "/b"] true true) world_created
      parms_edit := by
    rintro ⟨tree, _, _, hset⟩
    cases hset
  exact ⟨w1, s1, ret, he, hlog, (hok hnf).1, (hok hnf).2.1⟩

/-- Counterexample to C13 as stated: the edit `parms_edit` passes the pre-flight checks, has
a mutation tree and `need_tree_set`, but its condition fails; the paths are pruned, the reply
is `invalid-value`, and no set-tree is issued. -/
theorem handle_edit_failed_condition_no_set_tree :
    (∀ q ∈ parms_edit.deletes, q ∈ ["/a", "/b"]) ∧
    (∀ q ∈ parms_edit.creates, q ∉ ["/a", "/b"]) ∧
    parms_edit.need_tree_set = true ∧ parms_edit.tree.isSome = true ∧
    ∃ w1 s1 ret,
      handle_edit (env_edit parms_edit ["/a", "/b"] true false) world_created (mk_session 7 5)
        rpc_edit = .ok (w1, s1, ret) ∧
      w1.ds_log = [.get_tree "/a", .get_tree "/b", .get_tree "/c", .get_tree "/d",
        .prune "/a", .prune "/b", .prune "/r", .prune "/p", .get "/c", .get "/d"] ∧
      w1.tx = [⟨7, error_reply (some rpc_edit) "invalid-value" "protocol"
        "Unacceptable value for one or more parameters" [], true⟩] := by
  exact ⟨by decide, by decide, rfl, rfl, _, _, _, rfl, by decide, rfl⟩


/-- C14: for every edit-config with target `running`, the default operation that
`handle_edit` hands to the translator (when no other session holds the lock and there is a
`<config>` element) is `merge` when `<default-operation>` is absent, and the body of the first
`<default-operation>` when that body is `merge`, `replace` or `none`.  Every other body, the
empty one included, is answered with `invalid-value` of type `protocol`: nothing but this
reply happens, no datastore call is issued, and the outcome depends on neither the translator
nor the datastore. -/
theorem handle_edit_default_operation (env : Env) (w : World) (session : netconf_session)
    (rpc : XmlNode) (htarget : check_target (xmlFirstElementChild rpc) = .running) :
    (∀ def_op,
      ((xmlFirstElementChild rpc).bind (fun a => xmlFindNodeByName a "default-operation") = none
          ∧ def_op = "merge") ∨
        (∃ node, (xmlFirstElementChild rpc).bind
            (fun a => xmlFindNodeByName a "default-operation") = some node ∧
          xmlNodeGetContent node = def_op ∧
          (def_op = "merge" ∨ def_op = "replace" ∨ def_op = "none")) →
      lock_held_by_other w.g session = false →
      ∀ config, (xmlFirstElementChild rpc).bind (fun a => xmlFindNodeByName a "config")
          = some config →
        handle_edit env w session rpc = .ok (handle_edit_parms env w session rpc
          (env.sch_xml_to_gnode (xmlFirstElementChild config)
            ⟨env.apteryx_netconf_verbose, false, false, false⟩ def_op))) ∧
    (∀ node, (xmlFirstElementChild rpc).bind
        (fun a => xmlFindNodeByName a "default-operation") = some node →
      xmlNodeGetContent node ≠ "merge" → xmlNodeGetContent node ≠ "replace" →
      xmlNodeGetContent node ≠ "none" →
      (∃ w1 s1 ret, handle_edit env w session rpc = .ok (w1, s1, ret) ∧
        ErrorSent w w1 session s1
          (error_reply (some rpc) "invalid-value" "protocol"
            "Invalid value for default-operation parameter" []) ret) ∧
      ∀ env2 : Env, env2.write_ok = env.write_ok →
        handle_edit env2 w session rpc = handle_edit env w session rpc) := by
  constructor
  · intro def_op hop hlock config hconfig
    have h2 : _handle_default_operation (xmlFirstElementChild rpc) = some def_op := by
      unfold _handle_default_operation
      rcases hop with ⟨habs, rfl⟩ | ⟨node, hnode, hcontent, hval⟩
      · simp [habs]
      · rcases hval with rfl | rfl | rfl <;> simp [hnode, hcontent]
    simp only [handle_edit, handle_edit_config, htarget, h2, hlock, hconfig, Bool.false_eq_true,
      if_false]
  · intro node hnode h1 h2 h3
    have hd : _handle_default_operation (xmlFirstElementChild rpc) = none := by
      unfold _handle_default_operation
      simp [hnode, h1, h2, h3]
    constructor
    · have he := send_rpc_error_full_effect env w session (some rpc) .INVALID_VAL .PROTOCOL
        (some "Invalid value for default-operation parameter") none none true
      rw [rpc_error_doc_no_info w (some rpc) .INVALID_VAL .PROTOCOL
        "Invalid value for default-operation parameter" "invalid-value" "protocol" (by decide)
        rfl (by decide) rfl (by decide)] at he
      simp only [handle_edit, htarget, hd]
      generalize send_rpc_error_full env w session (some rpc) .INVALID_VAL .PROTOCOL
        (some "Invalid value for default-operation parameter") none none true = r at he ⊢
      obtain ⟨w1, s1, ret⟩ := r
      refine ⟨w1, s1, ret, rfl, ?_⟩
      have h := he.1
      simp only at h he
      rw [he.2]
      exact h
    · intro env2 hw
      simp only [handle_edit, htarget, hd, send_rpc_error_full, _send_rpc_error, write_doc, hw]

/-- Witness for C14: without `<default-operation>` the translator is handed `merge`, with the
body `replace` it is handed `replace`, and the body `create` is answered with
`invalid-value`. -/
theorem handle_edit_default_operation_witness :
    handle_edit (env_edit parms_edit [] true true) world_created (mk_session 7 5) rpc_edit =
      .ok (handle_edit_parms (env_edit parms_edit [] true true) world_created (mk_session 7 5)
        rpc_edit ((env_edit parms_edit [] true true).sch_xml_to_gnode
          (some (.element "interfaces" [] [])) ⟨false, false, false, false⟩ "merge")) ∧
    handle_edit env_ok world_created (mk_session 7 5) (rpc_edit_default "replace") =
      .ok (handle_edit_parms env_ok world_created (mk_session 7 5) (rpc_edit_default "replace")
        (env_ok.sch_xml_to_gnode (some (.element "interfaces" [] []))
          ⟨false, false, false, false⟩ "replace")) ∧
    ∃ w1 s1 ret,
      handle_edit env_ok world_created (mk_session 7 5) (rpc_edit_default "create") =
        .ok (w1, s1, ret) ∧
      ErrorSent world_created w1 (mk_session 7 5) s1
        (error_reply (some (rpc_edit_default "create")) "invalid-value" "protocol"
          "Invalid value for default-operation parameter" []) ret :=
  ⟨(handle_edit_default_operation (env_edit parms_edit [] true true) world_created
      (mk_session 7 5) rpc_edit (by decide)).1 "merge" (Or.inl ⟨rfl, rfl⟩) (by decide)
      (.element "config" [] [.element "interfaces" [] []]) rfl,
   (handle_edit_default_operation env_ok world_created (mk_session 7 5)
      (rpc_edit_default "replace") (by decide)).1 "replace"
      (Or.inr ⟨.element "default-operation" [] [.text "replace"], rfl, by decide,
        Or.inr (Or.inl rfl)⟩) (by decide)
      (.element "config" [] [.element "interfaces" [] []]) rfl,
   ((handle_edit_default_operation env_ok world_created (mk_session 7 5)
      (rpc_edit_default "create") (by decide)).2
      (.element "default-operation" [] [.text "create"]) rfl (by decide) (by decide)
      (by decide)).1⟩


/-! ### Requests that the worker answers with an error -/

/-- An error reply with a message of its own and no `<error-info>`: one document is written
and nothing else changes. -/
theorem send_rpc_error_msg (env : Env) (w : World) (session : netconf_session)
    (rpc : XmlNode) (tag : NC_ERR_TAG) (type : NC_ERR_TYPE) (msg tagstr typestr : String)
    (hmsgne : msg ≠ "")
    (htag : rpc_error_tag_to_string tag = some tagstr) (htagne : tagstr ≠ "")
    (htype : rpc_error_type_to_string type = some typestr) (htypene : typestr ≠ "") :
    ∃ w1 s1 ret,
      send_rpc_error_full env w session (some rpc) tag type (some msg) none none true =
        (w1, s1, ret) ∧
      ErrorSent w w1 session s1 (error_reply (some rpc) tagstr typestr msg []) ret ∧
      ret = env.write_ok w.tx.length := by
  have he := send_rpc_error_full_effect env w session (some rpc) tag type (some msg) none none
    true
  rw [rpc_error_doc_no_info w (some rpc) tag type msg tagstr typestr hmsgne htag htagne
    htype htypene] at he
  generalize send_rpc_error_full env w session (some rpc) tag type (some msg) none none true = r
    at he ⊢
  obtain ⟨w1, s1, ret⟩ := r
  refine ⟨w1, s1, ret, rfl, ?_, he.2⟩
  have h1 := he.1
  simp only at h1 he
  rw [he.2]
  exact h1

/-- The conversion `%u` on numbers beyond the range of `unsigned long`: the body
"-99999999999999999999" is read as 4294967295, as is "99999999999999999999"; the body "-1"
is read as 4294967295 too, and "-4294967291" as 5. -/
theorem scan_session_id_out_of_range :
    scan_session_id ("-99999999999999999999".toList.map Char.toNat) = 4294967295 ∧
    scan_session_id ("99999999999999999999".toList.map Char.toNat) = 4294967295 ∧
    scan_session_id ("-1".toList.map Char.toNat) = 4294967295 ∧
    scan_session_id ("-4294967291".toList.map Char.toNat) = 5 := by
  decide

/-- C15: a kill-session request whose `<session-id>` reads as 0 (which is also what a body
that is not a number reads as), is the id of the requester, or is the id of no session of the
table, is answered with `invalid-value` of type `protocol`; no socket is shut down, the
session table and everything else but the error counter are unchanged, and the worker goes
round its loop again, so the requesting session stays open. -/
theorem handle_kill_session_invalid (env : Env) (w : World) (session : netconf_session)
    (rpc child node : XmlNode) (input : List Nat)
    (hchild : child.name = "kill-session")
    (hnode : (xmlFirstElementChild rpc).bind (fun a => xmlFindNodeByName a "session-id")
      = some node)
    (hbad : scan_session_id ((xmlNodeGetContent node).toList.map Char.toNat) = 0 ∨
      scan_session_id ((xmlNodeGetContent node).toList.map Char.toNat) = session.id ∨
      find_netconf_session_by_id w.g
        (scan_session_id ((xmlNodeGetContent node).toList.map Char.toNat)) = none) :
    ∃ w1 s1 ret msg, handle_kill_session env w session rpc = .ok (w1, s1, ret) ∧
      ErrorSent w w1 session s1 (error_reply (some rpc) "invalid-value" "protocol" msg []) ret ∧
      w1.shutdown_log = w.shutdown_log ∧
      w1.g.open_sessions_list = w.g.open_sessions_list ∧
      netconf_handle_session_dispatch env w session rpc child input =
        .ok (.again, w1, s1, input) := by
  have key : ∃ w1 s1 ret msg, handle_kill_session env w session rpc = .ok (w1, s1, ret) ∧
      ErrorSent w w1 session s1 (error_reply (some rpc) "invalid-value" "protocol" msg [])
        ret := by
    unfold handle_kill_session
    simp only [hnode]
    by_cases h0 : scan_session_id ((xmlNodeGetContent node).toList.map Char.toNat) = 0
    · obtain ⟨w1, s1, ret, he, hs, _⟩ := send_rpc_error_msg env w session rpc .INVALID_VAL
        .PROTOCOL "Invalid session ID - 0" _ _ (by decide) rfl (by decide) rfl (by decide)
      exact ⟨w1, s1, ret, _, by rw [if_pos h0, he], hs⟩
    · rw [if_neg h0]
      by_cases hself : session.id =
          scan_session_id ((xmlNodeGetContent node).toList.map Char.toNat)
      · obtain ⟨w1, s1, ret, he, hs, _⟩ := send_rpc_error_msg env w session rpc .INVALID_VAL
          .PROTOCOL "Attempt to kill own session is forbidden" _ _ (by decide) rfl (by decide)
          rfl (by decide)
        exact ⟨w1, s1, ret, _, by rw [if_pos hself, he], hs⟩
      · rw [if_neg hself]
        have hnone : find_netconf_session_by_id w.g
            (scan_session_id ((xmlNodeGetContent node).toList.map Char.toNat)) = none := by
          rcases hbad with h | h | h
          · exact absurd h h0
          · exact absurd h.symm hself
          · exact h
        obtain ⟨w1, s1, ret, he, hs, _⟩ := send_rpc_error_msg env w session rpc .INVALID_VAL
          .PROTOCOL ("Session ID - " ++
            fmt_u (scan_session_id ((xmlNodeGetContent node).toList.map Char.toNat)) ++
            " not found!") _ _
          (str_append_ne_empty _ _ (str_append_ne_empty _ _ (by decide))) rfl (by decide) rfl
          (by decide)
        exact ⟨w1, s1, ret, _, by simp only [hnone, he], hs⟩
  obtain ⟨w1, s1, ret, msg, he, hs⟩ := key
  refine ⟨w1, s1, ret, msg, he, hs, hs.shutdown_log, hs.sessions, ?_⟩
  simp [netconf_handle_session_dispatch, hchild, he, after_handler]

/-- Witness for C15: in the state with sessions 5 and 6, session 6 asks to kill the sessions
`abc`, 6 and 9; each request is refused and the worker goes on. -/
theorem handle_kill_session_invalid_witness :
    (∃ w1 s1 ret msg,
      handle_kill_session env_ok world_two (mk_session 8 6) (rpc_kill "abc") = .ok (w1, s1, ret) ∧
      ErrorSent world_two w1 (mk_session 8 6) s1
        (error_reply (some (rpc_kill "abc")) "invalid-value" "protocol" msg []) ret ∧
      w1.shutdown_log = world_two.shutdown_log ∧
      w1.g.open_sessions_list = world_two.g.open_sessions_list ∧
      netconf_handle_session_dispatch env_ok world_two (mk_session 8 6) (rpc_kill "abc")
        (.element "kill-session" [] [.element "session-id" [] [.text "abc"]]) [] =
        .ok (.again, w1, s1, [])) ∧
    (∃ w1 s1 ret msg,
      handle_kill_session env_ok world_two (mk_session 8 6) (rpc_kill "6") = .ok (w1, s1, ret) ∧
      ErrorSent world_two w1 (mk_session 8 6) s1
        (error_reply (some (rpc_kill "6")) "invalid-value" "protocol" msg []) ret ∧
      w1.shutdown_log = world_two.shutdown_log ∧
      w1.g.open_sessions_list = world_two.g.open_sessions_list ∧
      netconf_handle_session_dispatch env_ok world_two (mk_session 8 6) (rpc_kill "6")
        (.element "kill-session" [] [.element "session-id" [] [.text "6"]]) [] =
        .ok (.again, w1, s1, [])) ∧
    (∃ w1 s1 ret msg,
      handle_kill_session env_ok world_two (mk_session 8 6) (rpc_kill "9") = .ok (w1, s1, ret) ∧
      ErrorSent world_two w1 (mk_session 8 6) s1
        (error_reply (some (rpc_kill "9")) "invalid-value" "protocol" msg []) ret ∧
      w1.shutdown_log = world_two.shutdown_log ∧
      w1.g.open_sessions_list = world_two.g.open_sessions_list ∧
      netconf_handle_session_dispatch env_ok world_two (mk_session 8 6) (rpc_kill "9")
        (.element "kill-session" [] [.element "session-id" [] [.text "9"]]) [] =
        .ok (.again, w1, s1, [])) :=
  ⟨handle_kill_session_invalid env_ok world_two (mk_session 8 6) (rpc_kill "abc") _
      (.element "session-id" [] [.text "abc"]) [] rfl rfl (Or.inl (by decide)),
   handle_kill_session_invalid env_ok world_two (mk_session 8 6) (rpc_kill "6") _
      (.element "session-id" [] [.text "6"]) [] rfl rfl (Or.inr (Or.inl (by decide))),
   handle_kill_session_invalid env_ok world_two (mk_session 8 6) (rpc_kill "9") _
      (.element "session-id" [] [.text "9"]) [] rfl rfl (Or.inr (Or.inr (by decide)))⟩


/-- A message made of a single well-sized chunk, followed by more input. -/
theorem receive_message_framed (env : Env) (hrun : env.loop_running = true) (w : World)
    (s : netconf_session) (c rest : List Nat) (hc1 : 1 ≤ c.length) (hc2 : c.length ≤ 32768) :
    receive_message env w s (frame_chunks [c] ++ rest) =
      .ok ⟨w, { s with running := true }, some c, c.length, rest⟩ := by
  unfold receive_message frame_chunks
  simp only [List.map_cons, List.map_nil, List.flatten_cons, List.flatten_nil, List.append_nil,
    List.append_assoc]
  rw [show (chunk_frame c ++ (NETCONF_BASE_1_1_END ++ rest)).length + 1
      = ((chunk_frame c ++ (NETCONF_BASE_1_1_END ++ rest)).length - 1) + 1 + 1 by
    simp only [List.length_append, NETCONF_BASE_1_1_END, List.length_cons, List.length_nil]
    omega]
  rw [receive_message_loop_chunk env hrun _ w s none 0 c (NETCONF_BASE_1_1_END ++ rest) hc1 hc2
    (le_refl 0) (by omega)]
  rw [receive_message_loop_end env hrun _ w _ _ _ rest]
  simp

/-- One pass of the worker loop over a framed request that parses to an `<rpc>` element with
an element child: the pass ends as the check of `message-id` and the dispatch end. -/
theorem session_loop_parsed (env : Env) (hrun : env.loop_running = true) (w : World)
    (s : netconf_session) (c rest : List Nat) (hc1 : 1 ≤ c.length) (hc2 : c.length ≤ 32768)
    (rpc child : XmlNode)
    (hparse : (env.xmlParseMemory c).bind xmlDocGetRootElement = some rpc)
    (hname : rpc.name = "rpc") (hchild : xmlFirstElementChild rpc = some child) :
    netconf_handle_session_body env w { s with running := true } (frame_chunks [c] ++ rest) =
      if xmlHasProp rpc "message-id" = false then
        .ok (.leave,
          count_dropped (send_rpc_error_full env w { s with running := true } (some rpc)
            .MISSING_ATTR .PROTOCOL (some "RPC missing message-id attribute") (some "rpc")
            (some "message-id") false).1,
          (send_rpc_error_full env w { s with running := true } (some rpc)
            .MISSING_ATTR .PROTOCOL (some "RPC missing message-id attribute") (some "rpc")
            (some "message-id") false).2.1, rest)
      else netconf_handle_session_dispatch env w { s with running := true } rpc child rest := by
  have hr := receive_message_framed env hrun w { s with running := true } c rest hc1 hc2
  have htake : List.take (c.length : Int).toNat c = c := by simp
  simp only [netconf_handle_session_body, hr, netconf_handle_session_message, htake, hparse,
    hname, hchild, ne_eq, not_true_eq_false, if_false, Bool.true_eq_false]

/-- The document that `_send_rpc_error` builds for a missing `message-id`: its `<error-info>`
is empty, because `send_rpc_error_full` files the element name under the key `bad_element`
while `_create_error_info_xml` looks for `bad-element`. -/
theorem rpc_error_doc_missing_attr (w : World) (rpc : XmlNode) :
    rpc_error_doc (some rpc) (error_parms_full w .MISSING_ATTR .PROTOCOL
      (some "RPC missing message-id attribute") (some "rpc") (some "message-id") false) =
    error_reply (some rpc) "missing-attribute" "protocol" "RPC missing message-id attribute"
      [.element "error-info" [] []] := by
  simp [rpc_error_doc, error_parms_full, error_reply, NC_ERROR_PARMS_INIT, xmlNewChild,
    g_hash_table_insert, g_hash_table_lookup, _create_error_info_xml, rpc_error_tag_to_string,
    rpc_error_type_to_string]


/-- C16 (the code on a request without `message-id`): the worker answers a framed `<rpc>`
that has an element child but no `message-id` with `missing-attribute` of type `protocol`,
then leaves its loop with `dropped_sessions` one higher and the counters `in_rpcs` and
`in_bad_rpcs` unchanged.  The `<error-info>` of the reply has no children: neither
`<bad-attribute>message-id</bad-attribute>` nor `<bad-element>rpc</bad-element>` is in it. -/
theorem missing_message_id_reply (env : Env) (hrun : env.loop_running = true) (w : World)
    (s : netconf_session) (c rest : List Nat) (hc1 : 1 ≤ c.length) (hc2 : c.length ≤ 32768)
    (rpc child : XmlNode)
    (hparse : (env.xmlParseMemory c).bind xmlDocGetRootElement = some rpc)
    (hname : rpc.name = "rpc") (hchild : xmlFirstElementChild rpc = some child)
    (hid : xmlHasProp rpc "message-id" = false) (fuel : Nat) :
    ∃ w1 s1, netconf_handle_session_loop env (fuel + 1) w s (frame_chunks [c] ++ rest) =
        .ok (count_dropped w1, s1, rest) ∧
      ErrorSent w w1 { s with running := true } s1
        (error_reply (some rpc) "missing-attribute" "protocol"
          "RPC missing message-id attribute" [.element "error-info" [] []])
        (env.write_ok w.tx.length) := by
  have hb := session_loop_parsed env hrun w s c rest hc1 hc2 rpc child hparse hname hchild
  rw [if_pos hid] at hb
  have he := (send_rpc_error_full_effect env w { s with running := true } (some rpc)
    .MISSING_ATTR .PROTOCOL (some "RPC missing message-id attribute") (some "rpc")
    (some "message-id") false).1
  rw [rpc_error_doc_missing_attr] at he
  refine ⟨_, _, ?_, he⟩
  rw [netconf_handle_session_loop]
  simp only [hrun, Bool.true_eq_false, if_false, hb]

/-- Witness for C16: the request `<rpc><lock><target><running/></target></lock></rpc>`. -/
theorem missing_message_id_reply_witness :
    ∃ w1 s1, netconf_handle_session_loop (env_wire (fun _ => true)) 1 world_created
        (mk_session 7 5) (frame_chunks [wire xml_no_id] ++ []) =
        .ok (count_dropped w1, s1, []) ∧
      ErrorSent world_created w1 { mk_session 7 5 with running := true } s1
        (error_reply (some rpc_no_id) "missing-attribute" "protocol"
          "RPC missing message-id attribute" [.element "error-info" [] []])
        ((env_wire (fun _ => true)).write_ok world_created.tx.length) :=
  missing_message_id_reply (env_wire (fun _ => true)) rfl world_created (mk_session 7 5)
    (wire xml_no_id) [] (by decide) (by decide) rpc_no_id
    (.element "lock" [] [.element "target" [] [.element "running" [] []]]) rfl rfl rfl rfl 0

/-- The worker on a framed request for an operation it does not know: one
`operation-not-supported` reply, then the loop is left with `dropped_sessions` one higher and
the rest of the input unread. -/
theorem session_loop_unknown_rpc (env : Env) (hrun : env.loop_running = true) (w : World)
    (s : netconf_session) (c rest : List Nat) (hc1 : 1 ≤ c.length) (hc2 : c.length ≤ 32768)
    (rpc child : XmlNode)
    (hparse : (env.xmlParseMemory c).bind xmlDocGetRootElement = some rpc)
    (hname : rpc.name = "rpc") (hchild : xmlFirstElementChild rpc = some child)
    (hid : xmlHasProp rpc "message-id" = true)
    (h1 : child.name ≠ "close-session") (h2 : child.name ≠ "kill-session")
    (h3 : child.name ≠ "get") (h4 : child.name ≠ "get-config")
    (h5 : child.name ≠ "edit-config") (h6 : child.name ≠ "lock") (h7 : child.name ≠ "unlock")
    (fuel : Nat) :
    ∃ w1 s1, netconf_handle_session_loop env (fuel + 1) w s (frame_chunks [c] ++ rest) =
        .ok (count_dropped w1, s1, rest) ∧
      ErrorSent w w1 { s with running := true } s1
        (error_reply (some rpc) "operation-not-supported" "protocol"
          ("Unknown RPC (" ++ child.name ++ ")") [])
        (env.write_ok w.tx.length) := by
  have hb := session_loop_parsed env hrun w s c rest hc1 hc2 rpc child hparse hname hchild
  rw [if_neg (by simp [hid])] at hb
  have he := (send_rpc_error_full_effect env w { s with running := true } (some rpc)
    .OPR_NOT_SUPPORTED .PROTOCOL (some ("Unknown RPC (" ++ child.name ++ ")")) none none true).1
  rw [rpc_error_doc_no_info w (some rpc) .OPR_NOT_SUPPORTED .PROTOCOL
    ("Unknown RPC (" ++ child.name ++ ")") "operation-not-supported" "protocol"
    (str_append_ne_empty _ _ (str_append_ne_empty _ _ (by decide))) rfl (by decide) rfl
    (by decide)] at he
  refine ⟨_, _, ?_, he⟩
  rw [netconf_handle_session_loop]
  simp only [hrun, Bool.true_eq_false, if_false, hb, netconf_handle_session_dispatch, h1, h2,
    h3, h4, h5, h6, h7]

/-- C17, amended: for every framed, well-formed `<rpc>` with a `message-id` whose first
element child is none of close-session, kill-session, get, get-config, edit-config, lock and
unlock, the server replies with a single `operation-not-supported` of type `protocol` and
then terminates the session: the worker leaves its loop without reading the next message and
`dropped_sessions` is one higher. -/
theorem unknown_rpc_terminates_session (env : Env) (hrun : env.loop_running = true)
    (w : World) (s : netconf_session) (c rest : List Nat) (hc1 : 1 ≤ c.length)
    (hc2 : c.length ≤ 32768) (rpc child : XmlNode)
    (hparse : (env.xmlParseMemory c).bind xmlDocGetRootElement = some rpc)
    (hname : rpc.name = "rpc") (hchild : xmlFirstElementChild rpc = some child)
    (hid : xmlHasProp rpc "message-id" = true)
    (hop : child.name ∉ ["close-session", "kill-session", "get", "get-config", "edit-config",
      "lock", "unlock"])
    (fuel : Nat) :
    ∃ w1 s1, netconf_handle_session_loop env (fuel + 1) w s (frame_chunks [c] ++ rest) =
        .ok (count_dropped w1, s1, rest) ∧
      ErrorSent w w1 { s with running := true } s1
        (error_reply (some rpc) "operation-not-supported" "protocol"
          ("Unknown RPC (" ++ child.name ++ ")") [])
        (env.write_ok w.tx.length) ∧
      (count_dropped w1).g.netconf_global_stats.dropped_sessions =
        w.g.netconf_global_stats.dropped_sessions + 1 := by
  simp only [List.mem_cons, List.mem_singleton, List.not_mem_nil, or_false, not_or] at hop
  obtain ⟨w1, s1, hl, he⟩ := session_loop_unknown_rpc env hrun w s c rest hc1 hc2 rpc child
    hparse hname hchild hid hop.1 hop.2.1 hop.2.2.1 hop.2.2.2.1 hop.2.2.2.2.1 hop.2.2.2.2.2.1
    hop.2.2.2.2.2.2 fuel
  refine ⟨w1, s1, hl, he, ?_⟩
  simp only [count_dropped, he.dropped]

/-- Witness for C17: the request `<rpc message-id="107"><commit/></rpc>`. -/
theorem unknown_rpc_terminates_session_witness :
    ∃ w1 s1, netconf_handle_session_loop (env_wire (fun _ => true)) 1 world_created
        (mk_session 7 5) (frame_chunks [wire xml_commit] ++ []) =
        .ok (count_dropped w1, s1, []) ∧
      ErrorSent world_created w1 { mk_session 7 5 with running := true } s1
        (error_reply (some rpc_commit) "operation-not-supported" "protocol"
          ("Unknown RPC (" ++ "commit" ++ ")") [])
        ((env_wire (fun _ => true)).write_ok world_created.tx.length) ∧
      (count_dropped w1).g.netconf_global_stats.dropped_sessions =
        world_created.g.netconf_global_stats.dropped_sessions + 1 :=
  unknown_rpc_terminates_session (env_wire (fun _ => true)) rfl world_created (mk_session 7 5)
    (wire xml_commit) [] (by decide) (by decide) rpc_commit (.element "commit" [] []) rfl rfl
    rfl rfl (by decide) 0

/-- Counterexample to C17 as stated: the stream holds the request
`<rpc message-id="107"><commit/></rpc>` and then a lock request.  After the
`operation-not-supported` reply the worker leaves its loop: the lock request is never read,
one document was written, and `dropped_sessions` went from 0 to 1. -/
theorem unknown_rpc_next_message_unread :
    ∃ w1 s1, netconf_handle_session_loop (env_wire (fun _ => true))
        ((frame_chunks [wire xml_commit] ++ frame_chunks [wire xml_lock]).length + 1)
        world_created (mk_session 7 5)
        (frame_chunks [wire xml_commit] ++ frame_chunks [wire xml_lock]) =
        .ok (w1, s1, frame_chunks [wire xml_lock]) ∧
      w1.tx.length = 1 ∧
      world_created.g.netconf_global_stats.dropped_sessions = 0 ∧
      w1.g.netconf_global_stats.dropped_sessions = 1 := by
  obtain ⟨w1, s1, hl, he⟩ := session_loop_unknown_rpc (env_wire (fun _ => true)) rfl
    world_created (mk_session 7 5) (wire xml_commit) (frame_chunks [wire xml_lock])
    (by decide) (by decide) rpc_commit (.element "commit" [] []) rfl rfl rfl rfl
    (by decide) (by decide) (by decide) (by decide) (by decide) (by decide) (by decide)
    (frame_chunks [wire xml_commit] ++ frame_chunks [wire xml_lock]).length
  refine ⟨count_dropped w1, s1, hl, ?_, by decide, ?_⟩
  · simp only [count_dropped, he.tx, List.length_append, List.length_singleton]
    rfl
  · simp only [count_dropped, he.dropped]
    rfl


/-- The result of `handle_lock` on target `running` when the lock is free, with the value it
returns: that of the write of the `<ok/>` reply. -/
theorem handle_lock_free_ret (env : Env) (w : World) (s : netconf_session) (rpc : XmlNode)
    (htarget : check_target (xmlFirstElementChild rpc) = .running)
    (hfree : w.g.running_ds_lock.locked = false) :
    ∃ w1 s1, handle_lock env w s rpc = .ok (w1, s1, env.write_ok w.tx.length) ∧
      w1.tx = w.tx ++ [⟨s.fd, ok_reply rpc, env.write_ok w.tx.length⟩] := by
  unfold handle_lock
  simp only [htarget, hfree, if_true]
  refine ⟨(send_rpc_ok env (count_in_rpcs { w with g := set_lock w.g s } s).1
    (count_in_rpcs { w with g := set_lock w.g s } s).2 rpc).1,
    (count_in_rpcs { w with g := set_lock w.g s } s).2, ?_, ?_⟩
  · simp [send_rpc_ok, write_doc, count_in_rpcs]
  · simp [send_rpc_ok, write_doc, count_in_rpcs, set_lock, ok_reply, xmlNewChild]

/-- For each of the six operations that have a handler, the worker goes round its loop again
whatever the handler did, and reads on from the rest of the input. -/
theorem session_loop_goes_on (env : Env) (hrun : env.loop_running = true) (w : World)
    (s : netconf_session) (c rest : List Nat) (hc1 : 1 ≤ c.length) (hc2 : c.length ≤ 32768)
    (rpc child : XmlNode)
    (hparse : (env.xmlParseMemory c).bind xmlDocGetRootElement = some rpc)
    (hname : rpc.name = "rpc") (hchild : xmlFirstElementChild rpc = some child)
    (hid : xmlHasProp rpc "message-id" = true)
    (hop : child.name ∈ ["kill-session", "get", "get-config", "edit-config", "lock", "unlock"])
    (fuel : Nat) (x : LoopExit × World × netconf_session × List Nat)
    (hx : netconf_handle_session_body env w { s with running := true }
      (frame_chunks [c] ++ rest) = .ok x) :
    x.1 = .again ∧ x.2.2.2 = rest ∧
      netconf_handle_session_loop env (fuel + 1) w s (frame_chunks [c] ++ rest) =
        netconf_handle_session_loop env fuel x.2.1 x.2.2.1 rest := by
  have hb := session_loop_parsed env hrun w s c rest hc1 hc2 rpc child hparse hname hchild
  rw [if_neg (by simp [hid])] at hb
  have hx2 := hx
  rw [hb] at hx2
  have hagain : x.1 = .again ∧ x.2.2.2 = rest := by
    unfold netconf_handle_session_dispatch at hx2
    simp only [List.mem_cons, List.mem_singleton, List.not_mem_nil, or_false] at hop
    rcases hop with h | h | h | h | h | h <;> simp only [h] at hx2 <;>
      exact after_handler_input _ _ _ hx2
  refine ⟨hagain.1, hagain.2, ?_⟩
  obtain ⟨e, w1, s1, input1⟩ := x
  simp only at hagain
  obtain ⟨rfl, rfl⟩ := hagain
  rw [netconf_handle_session_loop]
  simp only [hrun, Bool.true_eq_false, if_false, hx]

/-- C18 (the code when the write of a reply fails): for each of kill-session, get,
get-config, edit-config, lock and unlock the worker does not look at what the handler
returns, so it goes round its loop again and reads the next message from the rest of the
input.  In particular a lock request on a free lock whose `<ok/>` reply is not written in
full makes `handle_lock` return false, and the worker still goes on. -/
theorem failed_write_session_goes_on (env : Env) (hrun : env.loop_running = true) (w : World)
    (s : netconf_session) (c rest : List Nat) (hc1 : 1 ≤ c.length) (hc2 : c.length ≤ 32768)
    (rpc child : XmlNode)
    (hparse : (env.xmlParseMemory c).bind xmlDocGetRootElement = some rpc)
    (hname : rpc.name = "rpc") (hchild : xmlFirstElementChild rpc = some child)
    (hid : xmlHasProp rpc "message-id" = true)
    (hop : child.name ∈ ["kill-session", "get", "get-config", "edit-config", "lock", "unlock"])
    (fuel : Nat) :
    (∀ x, netconf_handle_session_body env w { s with running := true }
        (frame_chunks [c] ++ rest) = .ok x →
      x.1 = .again ∧ x.2.2.2 = rest ∧
        netconf_handle_session_loop env (fuel + 1) w s (frame_chunks [c] ++ rest) =
          netconf_handle_session_loop env fuel x.2.1 x.2.2.1 rest) ∧
    (child.name = "lock" → check_target (xmlFirstElementChild rpc) = .running →
      w.g.running_ds_lock.locked = false → env.write_ok w.tx.length = false →
      ∃ w1 s1, handle_lock env w { s with running := true } rpc = .ok (w1, s1, false) ∧
        w1.tx = w.tx ++ [⟨s.fd, ok_reply rpc, false⟩] ∧
        netconf_handle_session_loop env (fuel + 1) w s (frame_chunks [c] ++ rest) =
          netconf_handle_session_loop env fuel w1 s1 rest) := by
  refine ⟨fun x hx => session_loop_goes_on env hrun w s c rest hc1 hc2 rpc child hparse hname
    hchild hid hop fuel x hx, ?_⟩
  intro hlock htarget hfree hwrite
  obtain ⟨w1, s1, hl, htx⟩ := handle_lock_free_ret env w { s with running := true } rpc htarget
    hfree
  rw [hwrite] at hl htx
  have hb := session_loop_parsed env hrun w s c rest hc1 hc2 rpc child hparse hname hchild
  rw [if_neg (by simp [hid])] at hb
  have hd : netconf_handle_session_dispatch env w { s with running := true } rpc child rest =
      .ok (.again, w1, s1, rest) := by
    simp [netconf_handle_session_dispatch, hlock, hl, after_handler]
  rw [hd] at hb
  refine ⟨w1, s1, hl, htx, ?_⟩
  exact (session_loop_goes_on env hrun w s c rest hc1 hc2 rpc child hparse hname hchild hid hop
    fuel _ hb).2.2

/-- Witness for C18: the stream holds a lock request and then an unlock request, and the
first write on the socket fails.  `handle_lock` returns false, and the worker goes on to the
unlock request. -/
theorem failed_write_session_goes_on_witness :
    ∃ w1 s1,
      handle_lock (env_wire (fun n => n != 0)) world_created
        { mk_session 7 5 with running := true } rpc_lock = .ok (w1, s1, false) ∧
      w1.tx = world_created.tx ++ [⟨7, ok_reply rpc_lock, false⟩] ∧
      netconf_handle_session_loop (env_wire (fun n => n != 0)) 2 world_created (mk_session 7 5)
          (frame_chunks [wire xml_lock] ++ frame_chunks [wire xml_unlock]) =
        netconf_handle_session_loop (env_wire (fun n => n != 0)) 1 w1 s1
          (frame_chunks [wire xml_unlock]) :=
  (failed_write_session_goes_on (env_wire (fun n => n != 0)) rfl world_created (mk_session 7 5)
    (wire xml_lock) (frame_chunks [wire xml_unlock]) (by decide) (by decide) rpc_lock
    (.element "lock" [] [.element "target" [] [.element "running" [] []]]) rfl rfl rfl rfl
    (by decide) 1).2 rfl (by decide) (by decide) (by decide)


/-! ### Session ids -/

theorem next_session_id_range (g : Global) :
    1 ≤ next_session_id g ∧ next_session_id g ≤ 4294967295 := by
  unfold next_session_id toUInt32
  split <;> omega

/-- One call of `create_session`: the id handed out, and the id that the next call will hand
out. -/
theorem create_session_next (env : Env) (g : Global) (fd : Int) :
    (create_session env g fd).2.id = next_session_id g ∧
      next_session_id (create_session env g fd).1 = next_session_id g % 4294967295 + 1 := by
  simp only [create_session, next_session_id, toUInt32]
  by_cases h0 : g.netconf_session_id % 4294967296 = 0
  · simp only [h0, if_true]
    have h1 : (g.netconf_session_id + 1) % 4294967296 = 1 := by omega
    simp [h1]
  · simp only [h0, if_false]
    by_cases h1 : g.netconf_session_id % 4294967296 = 4294967295
    · have h2 : (g.netconf_session_id + 1) % 4294967296 = 0 := by omega
      simp [h1, h2]
    · have h2 : (g.netconf_session_id + 1) % 4294967296 =
          g.netconf_session_id % 4294967296 + 1 := by omega
      have h3 : g.netconf_session_id % 4294967296 % 4294967295 =
          g.netconf_session_id % 4294967296 := by
        apply Nat.mod_eq_of_lt
        omega
      simp [h2, h3]

/-- The id that follows `n` calls of `create_session`. -/
theorem after_creates_next (env : Env) (fd : Nat → Int) (g : Global) (n : Nat) :
    next_session_id (after_creates env fd n g) =
      (next_session_id g - 1 + n) % 4294967295 + 1 := by
  have hr := next_session_id_range g
  induction n with
  | zero =>
    simp only [after_creates, Nat.add_zero]
    rw [Nat.mod_eq_of_lt (by omega)]
    omega
  | succ n ih =>
    rw [after_creates, (create_session_next env _ _).2, ih]
    congr 1
    rw [Nat.add_mod, Nat.mod_mod, ← Nat.add_mod]
    congr 1

/-- The id of the session that call number `n` creates, in closed form. -/
theorem nth_session_id (env : Env) (fd : Nat → Int) (g : Global) (n : Nat) :
    (nth_session env fd g n).id = (next_session_id g - 1 + n) % 4294967295 + 1 := by
  rw [nth_session, (create_session_next env _ _).1, after_creates_next]

/-- C19: whatever the value of the session-id counter, `create_session` gives the new
session an id different from 0: the counter read as a 32-bit value, or 1 when that is 0.  So
the counter 0 yields the id 1, the counter 0xFFFFFFFF yields the id 0xFFFFFFFF, and the call
after that one, which finds the counter wrapped to 0, yields the id 1. -/
theorem create_session_id_nonzero (env : Env) (g : Global) (fd fd2 : Int) :
    (create_session env g fd).2.id ≠ 0 ∧
    (create_session env g fd).2.id =
      (if g.netconf_session_id % 4294967296 = 0 then 1 else g.netconf_session_id % 4294967296) ∧
    (create_session env { g with netconf_session_id := 0 } fd).2.id = 1 ∧
    (create_session env { g with netconf_session_id := 4294967295 } fd).2.id = 4294967295 ∧
    (create_session env
      (create_session env { g with netconf_session_id := 4294967295 } fd).1 fd2).2.id = 1 := by
  refine ⟨?_, ?_, ?_, ?_, ?_⟩
  · have h := (create_session_next env g fd).1
    have hr := next_session_id_range g
    omega
  · rw [(create_session_next env g fd).1]
    rfl
  · rw [(create_session_next env _ fd).1]
    rfl
  · rw [(create_session_next env _ fd).1]
    rfl
  · rw [(create_session_next env _ fd2).1, (create_session_next env _ fd).2]
    simp [next_session_id, toUInt32]

/-- C20, amended: in every run of `create_session` calls, from any initial counter value, two
sessions created fewer than 2^32 - 1 calls apart receive different ids; so no two of the
sessions of a run of at most 2^32 - 1 calls receive the same id. -/
theorem session_ids_unique (env : Env) (fd : Nat → Int) (g : Global) (i j : Nat)
    (hij : i < j) (hnear : j - i < 4294967295) :
    (nth_session env fd g i).id ≠ (nth_session env fd g j).id := by
  rw [nth_session_id, nth_session_id]
  intro h
  have h1 : (next_session_id g - 1 + i) % 4294967295 =
      (next_session_id g - 1 + j) % 4294967295 := by omega
  have h2 : (next_session_id g - 1 + j) = (next_session_id g - 1 + i) + (j - i) := by omega
  rw [h2] at h1
  have h3 : (j - i) % 4294967295 = 0 := by
    have := Nat.ModEq.add_left_cancel' (next_session_id g - 1 + i)
      (show (next_session_id g - 1 + i + 0) ≡ (next_session_id g - 1 + i + (j - i))
        [MOD 4294967295] from by simpa [Nat.ModEq] using h1)
    exact this.symm
  rw [Nat.mod_eq_of_lt hnear] at h3
  omega

/-- Witness for C20: the first and the third session created after `netconf_init` drew 5. -/
theorem session_ids_unique_witness :
    (0 : Nat) < 2 ∧ 2 - 0 < 4294967295 ∧
    (nth_session env_ok (fun _ => 7) (netconf_init 5) 0).id ≠
      (nth_session env_ok (fun _ => 7) (netconf_init 5) 2).id :=
  ⟨by decide, by decide,
    session_ids_unique env_ok (fun _ => 7) (netconf_init 5) 0 2 (by decide) (by decide)⟩

/-- Counterexample to C20 as stated: starting from the counter value 1, the first session
and the session created 2^32 - 1 calls later both receive the id 1. -/
theorem session_ids_repeat :
    (netconf_init 1).netconf_session_id = 1 ∧
    (nth_session env_ok (fun _ => 7) (netconf_init 1) 0).id = 1 ∧
    (nth_session env_ok (fun _ => 7) (netconf_init 1) 4294967295).id = 1 := by
  have h1 : next_session_id (netconf_init 1) = 1 := by decide
  refine ⟨by decide, ?_, ?_⟩
  · rw [nth_session_id, h1]
  · rw [nth_session_id, h1]


/-! ### The header buffer -/

/-- C26 (the code on a header of 14 bytes): no write of `read_chunk_size` goes beyond index
14, and a stream of at most 12 bytes keeps every write inside the 14 bytes of the array; but
on the header "\n#12345678901\n" the pass with `len` bytes stored writes the indices `len`
and `len + 1` for every `len` from 0 to 13: the fourteenth byte is stored at index 13 and the
NUL that follows it at index 14, one past the end of the array. -/
theorem read_chunk_size_writes_past_buffer :
    chunk_header_size = 14 ∧
    (∀ input, ∀ i ∈ read_chunk_size_writes [] input, i ≤ chunk_header_size) ∧
    (∀ input, input.length ≤ 12 → ∀ i ∈ read_chunk_size_writes [] input,
      i < chunk_header_size) ∧
    read_chunk_size_writes [] [10, 35, 49, 50, 51, 52, 53, 54, 55, 56, 57, 48, 49, 10] =
      ((List.range 14).map (fun len => [len, len + 1])).flatten ∧
    14 ∈ read_chunk_size_writes [] [10, 35, 49, 50, 51, 52, 53, 54, 55, 56, 57, 48, 49, 10] ∧
    read_chunk_size true [10, 35, 49, 50, 51, 52, 53, 54, 55, 56, 57, 48, 49, 10] =
      (toInt32 12345678901, [], true) := by
  refine ⟨rfl, ?_, ?_, by decide, by decide, by decide⟩
  · intro input i hi
    exact (read_chunk_size_writes_le input [] i hi).2
  · intro input hlen i hi
    have := (read_chunk_size_writes_le input [] i hi).1
    simp only [List.length_nil, chunk_header_size, MAX_CHUNK_HEADER_SIZE] at this ⊢
    omega

/-! ### Streams that end without the end marker -/

/-- C27 (the code when no end marker follows): after a first well-sized chunk, whatever makes
`read_chunk_size` return 0 ends the message.  That is the end marker, but also the failure to
read a further header: `receive_message` then returns the chunks read so far as the
message. -/
theorem receive_message_unmarked_end (env : Env) (hrun : env.loop_running = true) (w : World)
    (s : netconf_session) (c tail : List Nat) (hc1 : 1 ≤ c.length) (hc2 : c.length ≤ 32768)
    (hfail : (read_chunk_size_loop [] tail).1 = 0) :
    receive_message env w s (chunk_frame c ++ tail) =
      .ok ⟨w, { s with running := true }, some c, c.length,
        (read_chunk_size_loop [] tail).2⟩ := by
  unfold receive_message
  rw [show (chunk_frame c ++ tail).length + 1 = (chunk_frame c ++ tail).length - 1 + 1 + 1 by
    simp only [List.length_append, chunk_frame, List.length_cons, List.length_nil]
    omega]
  rw [receive_message_loop_chunk env hrun _ w s none 0 c tail hc1 hc2 (le_refl 0) (by omega)]
  rw [receive_message_loop]
  simp [hrun, read_chunk_size, hfail]

/-- Witness for C27: the stream "\n#3\nabc" closed after the chunk, and the same chunk
followed by fourteen bytes that are no header. -/
theorem receive_message_unmarked_end_witness :
    receive_message env_ok world_created (mk_session 7 5) (chunk_frame [97, 98, 99] ++ []) =
      .ok ⟨world_created, { mk_session 7 5 with running := true }, some [97, 98, 99], 3, []⟩ ∧
    receive_message env_ok world_created (mk_session 7 5)
        (chunk_frame [97, 98, 99] ++
          [120, 120, 120, 120, 120, 120, 120, 120, 120, 120, 120, 120, 120, 120]) =
      .ok ⟨world_created, { mk_session 7 5 with running := true }, some [97, 98, 99], 3, []⟩ :=
  ⟨receive_message_unmarked_end env_ok rfl world_created (mk_session 7 5) [97, 98, 99] []
      (by decide) (by decide) (by decide),
   receive_message_unmarked_end env_ok rfl world_created (mk_session 7 5) [97, 98, 99]
      [120, 120, 120, 120, 120, 120, 120, 120, 120, 120, 120, 120, 120, 120]
      (by decide) (by decide) (by decide)⟩


/-! ### The admission bound -/

/-- The value that `g_ascii_strtoull` reads from the decimal form of a number below 2^64. -/
theorem g_ascii_strtoull_decimal (n : Nat) (hn : n < 18446744073709551616) :
    g_ascii_strtoull (decimalBytes n) = n := by
  have hd := decimalBytes_isdigit n
  have hz : ∀ b ∈ decimalBytes n, b ≠ 0 := by
    intro b hb h0
    have := hd b hb
    rw [h0] at this
    exact absurd this (by decide)
  have hv := decimalBytes_value n
  have hs := scan_digits_append (decimalBytes n) 0 [] hd (by simp)
  rw [List.append_nil] at hs
  have hsd : scan_digits 0 (decimalBytes n) = n := hs.trans hv
  unfold g_ascii_strtoull
  rw [cstr_of_ne_zero _ hz]
  cases hb : decimalBytes n with
  | nil => exact absurd hb (decimalBytes_ne_nil n)
  | cons d ds =>
    rw [hb] at hd hsd
    have h1 := hd d (List.mem_cons_self _ _)
    have h2 := isdigit_not_space d h1
    have h3 : ¬ (d = 45 ∨ d = 43) := by
      have := (isdigit_iff d).mp h1
      omega
    rw [List.dropWhile_cons_of_neg (by simp [h2])]
    simp only [h3, if_false, h1, if_true, hsd, strtoull, Bool.false_eq_true]
    rw [if_neg (by omega)]

/-- After `_netconf_max_sessions` the bound is the value computed from the argument. -/
theorem netconf_max_sessions_bound (w : World) (value : Option (List Nat)) :
    (_netconf_max_sessions w value).g.netconf_max_sessions = max_sessions_value value := by
  unfold _netconf_max_sessions
  by_cases h : w.g.netconf_max_sessions = max_sessions_value value
  · simp [h]
  · simp [h]

/-- The bound computed from the decimal form of a number. -/
theorem max_sessions_value_decimal (n : Nat) (hn : n < 18446744073709551616) :
    max_sessions_value (some (decimalBytes n)) = min (max (n % 4294967296) 1) 10 := by
  have hne : (cstr (decimalBytes n)).length ≠ 0 := by
    have hz : ∀ b ∈ decimalBytes n, b ≠ 0 := by
      intro b hb h0
      have := decimalBytes_isdigit n b hb
      rw [h0] at this
      exact absurd this (by decide)
    rw [cstr_of_ne_zero _ hz]
    intro h
    exact decimalBytes_ne_nil n (List.length_eq_zero.mp h)
  simp only [max_sessions_value, hne, if_false, g_ascii_strtoull_decimal n hn, toUInt32,
    NETCONF_MAX_SESSIONS_MIN, NETCONF_MAX_SESSIONS_MAX]
  split
  · omega
  · split <;> omega

/-- C22 (the code on large values): an absent or empty value gives the bound 4, and the
decimal form of a number below 2^32 gives that number clamped to [1, 10]; but the result of
`g_ascii_strtoull` is cut to 32 bits before it is clamped, so the value 4294967296 gives the
bound 1 and the value 4294967301 gives the bound 5, where the clamp of the number is 10.
The bound is written to the datastore exactly when it changes. -/
theorem netconf_max_sessions_wraps (w : World) :
    (_netconf_max_sessions w none).g.netconf_max_sessions = 4 ∧
    (_netconf_max_sessions w (some [])).g.netconf_max_sessions = 4 ∧
    (∀ n, n < 4294967296 →
      (_netconf_max_sessions w (some (decimalBytes n))).g.netconf_max_sessions =
        min (max n 1) 10) ∧
    (_netconf_max_sessions w (some [52, 50, 57, 52, 57, 54, 55, 50, 57, 54])).g.netconf_max_sessions
      = 1 ∧
    min (max 4294967296 1) 10 = 10 ∧
    (_netconf_max_sessions w (some [52, 50, 57, 52, 57, 54, 55, 51, 48, 49])).g.netconf_max_sessions
      = 5 ∧
    (∀ value,
      ((_netconf_max_sessions w value).g.netconf_max_sessions = w.g.netconf_max_sessions →
        (_netconf_max_sessions w value).ds_log = w.ds_log) ∧
      ((_netconf_max_sessions w value).g.netconf_max_sessions ≠ w.g.netconf_max_sessions →
        (_netconf_max_sessions w value).ds_log = w.ds_log ++
          [.set "/netconf/state/max-sessions"
            (toString (_netconf_max_sessions w value).g.netconf_max_sessions)])) := by
  refine ⟨?_, ?_, ?_, ?_, by decide, ?_, ?_⟩
  · rw [netconf_max_sessions_bound]
    rfl
  · rw [netconf_max_sessions_bound]
    rfl
  · intro n hn
    rw [netconf_max_sessions_bound, max_sessions_value_decimal n (by omega),
      Nat.mod_eq_of_lt hn]
  · rw [netconf_max_sessions_bound]
    decide
  · rw [netconf_max_sessions_bound]
    decide
  · intro value
    rw [netconf_max_sessions_bound]
    unfold _netconf_max_sessions
    by_cases h : w.g.netconf_max_sessions = max_sessions_value value
    · simp [h]
    · simp [h, Ne.symm h]

/-- Witness for C22: from the initial bound 4, the value "7" gives the bound 7 and one write
to the datastore, and the value "4" leaves the bound and the datastore alone. -/
theorem netconf_max_sessions_wraps_witness :
    (_netconf_max_sessions world_init (some (decimalBytes 7))).g.netconf_max_sessions = 7 ∧
    (_netconf_max_sessions world_init (some [55])).ds_log =
      [.set "/netconf/state/max-sessions" "7"] ∧
    (_netconf_max_sessions world_init (some [52])).ds_log = [] :=
  ⟨(netconf_max_sessions_wraps world_init).2.2.1 7 (by decide),
   by decide,
   ((netconf_max_sessions_wraps world_init).2.2.2.2.2.2 (some [52])).1 (by decide)⟩


/-! ### What an edit that ends in an error leaves behind -/

theorem send_rpc_error_full_ds_log (env : Env) (w : World) (s : netconf_session)
    (rpc : Option XmlNode) (tag : NC_ERR_TAG) (type : NC_ERR_TYPE)
    (msg bad_elem bad_attr : Option String) (no_info : Bool) :
    (send_rpc_error_full env w s rpc tag type msg bad_elem bad_attr no_info).1.ds_log =
      w.ds_log :=
  (send_rpc_error_full_effect env w s rpc tag type msg bad_elem bad_attr no_info).1.ds_log

theorem _send_rpc_error_ds_log (env : Env) (w : World) (s : netconf_session)
    (rpc : Option XmlNode) (parms : nc_error_parms) :
    (_send_rpc_error env w s rpc parms).1.ds_log = w.ds_log := by
  simp only [_send_rpc_error, write_doc]
  split <;> rfl

theorem ds_state_congr (w w1 : World) (h : w1.ds_log = w.ds_log) : ds_state w1 = ds_state w := by
  simp only [ds_state, h]

theorem _check_exist_world (env : Env) (w : World) (p : String) (t : NC_ERR_TAG)
    (expected : Bool) : (_check_exist env w p t expected).1 = (apteryx_get_tree env w p).1 := by
  simp only [_check_exist]
  split
  · rfl
  · split <;> rfl

/-- The pre-flight loop issues look-ups only. -/
theorem check_paths_state (env : Env) (expected : Bool) (paths : List String) :
    ∀ w : World, ds_state (check_paths env expected paths w).1 = ds_state w := by
  induction paths with
  | nil => intro w; rfl
  | cons p rest ih =>
    intro w
    have hst : ds_state (apteryx_get_tree env w p).1 = ds_state w := by
      simp [ds_state, apteryx_get_tree, DsOp.mutates]
    rw [check_paths]
    split
    · rw [_check_exist_world]
      exact hst
    · rw [ih, _check_exist_world]
      exact hst

/-- The pre-flight loop sets an error tag when some path does not answer as expected. -/
theorem check_paths_tag (env : Env) (expected : Bool) (paths : List String) (w : World)
    (h : ∃ q ∈ paths, env.ds_get_tree (ds_state w) q = !expected) :
    (check_paths env expected paths w).2 ≠ .UNKNOWN := by
  obtain ⟨pre, p, post, hsplit, hpre, hp⟩ := first_split
    (fun q => env.ds_get_tree (ds_state w) q == !expected) paths (by
      obtain ⟨q, hq, hv⟩ := h
      exact ⟨q, hq, by simp [hv]⟩)
  have hpre2 : ∀ q ∈ pre, env.ds_get_tree (ds_state w) q = expected := by
    intro q hq
    have := hpre q hq
    cases expected <;> cases hv : env.ds_get_tree (ds_state w) q <;> simp_all
  have hp2 : env.ds_get_tree (ds_state w) p = !expected := by simpa using hp
  rw [hsplit, check_paths_fail env expected pre p post w hpre2 hp2]
  cases expected <;> simp

/-- The create re-check issues look-ups only. -/
theorem creates_exist_state (env : Env) (paths : List String) :
    ∀ w : World, ds_state (creates_exist env paths w).1 = ds_state w := by
  induction paths with
  | nil => intro w; rfl
  | cons p rest ih =>
    intro w
    have hst : ds_state (apteryx_get env w p).1 = ds_state w := by
      simp [ds_state, apteryx_get, DsOp.mutates]
    rw [creates_exist]
    split
    · exact hst
    · rw [ih]
      exact hst

/-- An edit that fails in the translation or in the pre-flight issues no mutating call. -/
theorem handle_edit_parms_early (env : Env) (w : World) (session : netconf_session)
    (rpc : XmlNode) (parms : sch_xml_to_gnode_parms)
    (h : parms.error.tag ≠ .UNKNOWN ∨
      (∃ q ∈ parms.deletes, env.ds_get_tree (ds_state w) q = false) ∨
      (∃ q ∈ parms.creates, env.ds_get_tree (ds_state w) q = true)) :
    ds_state (handle_edit_parms env w session rpc parms).1 = ds_state w := by
  unfold handle_edit_parms
  by_cases herr : parms.error.tag = .UNKNOWN
  · simp only [herr, ne_eq, not_true_eq_false, if_false]
    by_cases hd : (check_paths env true parms.deletes w).2 = .UNKNOWN
    · simp only [hd, not_true_eq_false, if_false]
      have hc : (check_paths env false parms.creates
          (check_paths env true parms.deletes w).1).2 ≠ .UNKNOWN := by
        rcases h with h | h | h
        · exact absurd herr h
        · exact absurd hd (check_paths_tag env true parms.deletes w (by simpa using h))
        · apply check_paths_tag
          rw [check_paths_state]
          simpa using h
      simp only [hc, not_false_eq_true, if_true]
      rw [ds_state_congr _ _ (send_rpc_error_full_ds_log _ _ _ _ _ _ _ _ _ _),
        check_paths_state, check_paths_state]
    · simp only [hd, not_false_eq_true, if_true]
      rw [ds_state_congr _ _ (send_rpc_error_full_ds_log _ _ _ _ _ _ _ _ _ _), check_paths_state]
  · simp only [ne_eq, herr, not_false_eq_true, if_true]
    apply ds_state_congr
    rw [_send_rpc_error_ds_log]
    split <;> rfl

/-- An edit that passes the pre-flight has its prunes issued, whatever happens next. -/
theorem handle_edit_parms_late (env : Env) (w : World) (session : netconf_session)
    (rpc : XmlNode) (parms : sch_xml_to_gnode_parms)
    (herr : parms.error.tag = .UNKNOWN)
    (hdel : ∀ q ∈ parms.deletes, env.ds_get_tree (ds_state w) q = true)
    (hcre : ∀ q ∈ parms.creates, env.ds_get_tree (ds_state w) q = false) :
    (ds_state (handle_edit_parms env w session rpc parms).1 = ds_state w ++ prune_calls parms ∨
      ds_state (handle_edit_parms env w session rpc parms).1 =
        ds_state w ++ prune_calls parms ++ set_tree_calls parms) ∧
    (((creates_exist env parms.creates (after_calls w (checked_calls parms))).2 = true ∨
        conditions_fail env parms.tree parms.conditions = true) →
      ds_state (handle_edit_parms env w session rpc parms).1 =
        ds_state w ++ prune_calls parms) := by
  rw [handle_edit_parms_checked env w session rpc parms herr hdel hcre]
  have hst0 : ds_state (creates_exist env parms.creates (after_calls w
      (get_tree_calls parms.deletes ++ get_tree_calls parms.creates ++ prune_calls parms))).1 =
      ds_state w ++ prune_calls parms := by
    rw [creates_exist_state]
    have := ds_state_pruned w parms []
    simpa [get_calls] using this
  have hdb := edit_database_calls env (creates_exist env parms.creates (after_calls w
      (get_tree_calls parms.deletes ++ get_tree_calls parms.creates ++ prune_calls parms))).1
      parms
  have hst1 : ds_state (edit_database env (creates_exist env parms.creates (after_calls w
      (get_tree_calls parms.deletes ++ get_tree_calls parms.creates ++ prune_calls parms))).1
      parms).1 = ds_state w ++ prune_calls parms ++ set_tree_calls parms := by
    rw [hdb.1, ds_state_after_calls, hst0]
    congr 1
    rw [List.filter_eq_self]
    intro op hop
    unfold set_tree_calls at hop
    split at hop
    · split at hop
      · rw [List.mem_singleton] at hop
        rw [hop]
        rfl
      · cases hop
    · cases hop
  simp only [checked_calls]
  constructor
  · split
    · left
      rw [ds_state_congr _ _ (send_rpc_error_full_ds_log _ _ _ _ _ _ _ _ _ _), hst0]
    · split
      · left
        rw [ds_state_congr _ _ (send_rpc_error_full_ds_log _ _ _ _ _ _ _ _ _ _), hst0]
      · right
        split
        · rw [ds_state_congr _ _ (send_rpc_error_full_ds_log _ _ _ _ _ _ _ _ _ _), hst1]
        · rw [← hst1]
          apply ds_state_congr
          simp [send_rpc_ok, write_doc, count_in_rpcs]
  · intro h
    split
    · rw [ds_state_congr _ _ (send_rpc_error_full_ds_log _ _ _ _ _ _ _ _ _ _), hst0]
    · rename_i hne
      have hcond : conditions_fail env parms.tree parms.conditions = true := by
        rcases h with h | h
        · exact absurd h hne
        · exact h
      simp only [hcond, if_true]
      rw [ds_state_congr _ _ (send_rpc_error_full_ds_log _ _ _ _ _ _ _ _ _ _), hst0]


/-- C28, amended: an edit-config that `handle_edit` answers with an rpc-error before the
execution starts (unsupported target, invalid default operation, lock held by another
session, missing `<config>`, translation error, `data-missing` or `data-exists` of the
pre-flight) has issued no prune, set or set-tree, so the content of the datastore is what it
was.  Once the pre-flight is passed the prunes of all deletes, removes and replaces paths are
issued first, so an error found afterwards (a create conflict of the re-check, a failed
condition, a failed set-tree) leaves them applied. -/
theorem handle_edit_error_atomicity (env : Env) (w : World) (session : netconf_session)
    (rpc : XmlNode) :
    (edit_translation env w session rpc = none →
      handle_edit env w session rpc = .error .null_deref ∨
      ∃ w1 s1 ret, handle_edit env w session rpc = .ok (w1, s1, ret) ∧ w1.ds_log = w.ds_log) ∧
    (∀ parms, edit_translation env w session rpc = some parms →
      ∃ w1 s1 ret, handle_edit env w session rpc = .ok (w1, s1, ret) ∧
        ((parms.error.tag ≠ .UNKNOWN ∨
            (∃ q ∈ parms.deletes, env.ds_get_tree (ds_state w) q = false) ∨
            (∃ q ∈ parms.creates, env.ds_get_tree (ds_state w) q = true)) →
          ds_state w1 = ds_state w) ∧
        (parms.error.tag = .UNKNOWN →
          (∀ q ∈ parms.deletes, env.ds_get_tree (ds_state w) q = true) →
          (∀ q ∈ parms.creates, env.ds_get_tree (ds_state w) q = false) →
          (ds_state w1 = ds_state w ++ prune_calls parms ∨
            ds_state w1 = ds_state w ++ prune_calls parms ++ set_tree_calls parms) ∧
          (((creates_exist env parms.creates (after_calls w (checked_calls parms))).2 = true ∨
              conditions_fail env parms.tree parms.conditions = true) →
            ds_state w1 = ds_state w ++ prune_calls parms))) := by
  constructor
  · intro htr
    unfold edit_translation at htr
    unfold handle_edit handle_edit_config
    cases h1 : check_target (xmlFirstElementChild rpc) with
    | null_deref =>
      left
      simp only [h1]
    | unsupported name =>
      right
      simp only [h1]
      exact ⟨_, _, _, rfl, send_rpc_error_full_ds_log _ _ _ _ _ _ _ _ _ _⟩
    | running =>
      right
      cases h2 : _handle_default_operation (xmlFirstElementChild rpc) with
      | none =>
        simp only [h1, h2]
        exact ⟨_, _, _, rfl, send_rpc_error_full_ds_log _ _ _ _ _ _ _ _ _ _⟩
      | some def_op =>
        cases h3 : lock_held_by_other w.g session with
        | true =>
          simp only [h1, h2, h3, if_true]
          exact ⟨_, _, _, rfl, send_rpc_error_full_ds_log _ _ _ _ _ _ _ _ _ _⟩
        | false =>
          cases h4 : (xmlFirstElementChild rpc).bind
              (fun a => xmlFindNodeByName a "config") with
          | none =>
            simp only [h1, h2, h3, h4, Bool.false_eq_true, if_false]
            exact ⟨_, _, _, rfl, send_rpc_error_full_ds_log _ _ _ _ _ _ _ _ _ _⟩
          | some node => simp [h1, h2, h3, h4] at htr
  · intro parms htr
    rw [handle_edit_translated env w session rpc parms htr]
    refine ⟨_, _, _, rfl, ?_, ?_⟩
    · exact handle_edit_parms_early env w session rpc parms
    · exact handle_edit_parms_late env w session rpc parms

/-- Witness for C28: a request with the default operation `create` is refused with nothing
issued to the datastore; the edit `parms_edit` with `/b` absent is refused in the pre-flight
with the content unchanged; the same edit with a failing condition is refused with its four
prunes applied. -/
theorem handle_edit_error_atomicity_witness :
    (∃ w1 s1 ret,
      handle_edit env_ok world_created (mk_session 7 5) (rpc_edit_default "create") =
        .ok (w1, s1, ret) ∧ w1.ds_log = world_created.ds_log) ∧
    (∃ w1 s1 ret,
      handle_edit (env_edit parms_edit ["/a"] true true) world_created (mk_session 7 5)
        rpc_edit = .ok (w1, s1, ret) ∧ ds_state w1 = ds_state world_created) ∧
    (∃ w1 s1 ret,
      handle_edit (env_edit parms_edit ["/a", "/b"] true false) world_created (mk_session 7 5)
        rpc_edit = .ok (w1, s1, ret) ∧
      ds_state w1 = ds_state world_created ++ prune_calls parms_edit) := by
  refine ⟨?_, ?_, ?_⟩
  · rcases (handle_edit_error_atomicity env_ok world_created (mk_session 7 5)
      (rpc_edit_default "create")).1 rfl with h | h
    · rw [show handle_edit env_ok world_created (mk_session 7 5) (rpc_edit_default "create") =
        .ok (send_rpc_error_full env_ok world_created (mk_session 7 5)
          (some (rpc_edit_default "create")) .INVALID_VAL .PROTOCOL
          (some "Invalid value for default-operation parameter") none none true) from rfl] at h
      cases h
    · exact h
  · obtain ⟨w1, s1, ret, he, h1, _⟩ := (handle_edit_error_atomicity
      (env_edit parms_edit ["/a"] true true) world_created (mk_session 7 5) rpc_edit).2
      parms_edit rfl
    exact ⟨w1, s1, ret, he, h1 (Or.inr (Or.inl ⟨"/b", by decide, by decide⟩))⟩
  · obtain ⟨w1, s1, ret, he, _, h2⟩ := (handle_edit_error_atomicity
      (env_edit parms_edit ["/a", "/b"] true false) world_created (mk_session 7 5) rpc_edit).2
      parms_edit rfl
    exact ⟨w1, s1, ret, he, (h2 rfl (by decide) (by decide)).2 (Or.inr (by decide))⟩

/-- Counterexample to C28 as stated: the edit `parms_edit` passes the pre-flight and its
set-tree fails.  The reply is `operation-failed`, and the datastore, untouched before, has
received the prunes of `/a`, `/b`, `/r` and `/p` and the set-tree. -/
theorem handle_edit_failed_set_tree_keeps_prunes :
    ∃ w1 s1 ret,
      handle_edit (env_edit parms_edit ["/a", "/b"] false true) world_created (mk_session 7 5)
        rpc_edit = .ok (w1, s1, ret) ∧
      w1.tx = [⟨7, error_reply (some rpc_edit) "operation-failed" "application"
        "Requested operation failed due to some reason" [], true⟩] ∧
      ds_state world_created = [] ∧
      ds_state w1 = [.prune "/a", .prune "/b", .prune "/r", .prune "/p",
        .set_tree ⟨[("/c", "1"), ("/d", "2"), ("/p", "3")]⟩] :=
  ⟨_, _, _, rfl, rfl, by decide, by decide⟩


/-! ### The sweeps over an XPath result -/

theorem cleanup_xpath_tree_sweep_flag :
    ∀ (depth : Int) (first : Bool) (max_depth : Int) (root_deleted : Bool)
      (nodes : List MarkedNode), 0 < depth →
      (cleanup_xpath_tree_sweep depth first max_depth root_deleted nodes).2.2 = root_deleted := by
  apply @cleanup_xpath_tree_sweep.induct
    (fun depth max_depth root_deleted node => 0 < depth →
      (cleanup_xpath_children depth max_depth root_deleted node).2.2 = root_deleted)
    (fun depth first max_depth root_deleted nodes => 0 < depth →
      (cleanup_xpath_tree_sweep depth first max_depth root_deleted nodes).2.2 = root_deleted)
  · intro depth max_depth root_deleted n m cs ih hd
    rw [cleanup_xpath_children]
    exact ih hd
  · intro depth max_depth root_deleted c hd
    rw [cleanup_xpath_children]
  · intro depth first max_depth root_deleted hd
    rw [cleanup_xpath_tree_sweep]
  · intro depth first max_depth root_deleted cur next hc ih hd
    rw [cleanup_xpath_tree_sweep]
    simp only [hc, if_true]
    have h0 : ¬ (depth = 0 ∧ first = true) := by omega
    rw [ih hd, if_neg h0]
  · intro depth first max_depth root_deleted cur next hc r ih1 ih2 hd
    rw [cleanup_xpath_tree_sweep]
    simp only [hc, Bool.false_eq_true, if_false]
    rw [ih2 hd]
    exact ih1 (by omega)

theorem cleanup_empty_branches_flag :
    ∀ (depth max_depth : Int) (first root_deleted : Bool) (nodes : List MarkedNode),
      0 < depth →
      (cleanup_empty_branches depth max_depth first root_deleted nodes).2 = root_deleted := by
  apply @cleanup_empty_branches.induct
    (fun depth max_depth root_deleted node => 0 < depth →
      (cleanup_empty_children depth max_depth root_deleted node).2 = root_deleted)
    (fun depth max_depth first root_deleted nodes => 0 < depth →
      (cleanup_empty_branches depth max_depth first root_deleted nodes).2 = root_deleted)
  · intro depth max_depth root_deleted n m cs ih hd
    rw [cleanup_empty_children]
    exact ih hd
  · intro depth max_depth root_deleted c hd
    rw [cleanup_empty_children]
  · intro depth max_depth first root_deleted hd
    rw [cleanup_empty_branches]
  · intro depth max_depth first root_deleted cur next hg hc ih hd
    rw [cleanup_empty_branches]
    simp only [hg, hc, if_true]
    have h0 : ¬ (depth = 0 ∧ first = true) := by omega
    rw [ih hd, if_neg h0]
  · intro depth max_depth first root_deleted cur next hg hc r ih1 ih2 hd
    rw [cleanup_empty_branches]
    simp only [hg, hc, if_true, Bool.false_eq_true, if_false]
    rw [ih2 hd]
    exact ih1 (by omega)
  · intro depth max_depth first root_deleted cur next hg hd
    rw [cleanup_empty_branches]
    simp only [hg, if_false]

theorem cleanup_xpath_children_flag (depth max_depth : Int) (root_deleted : Bool)
    (node : MarkedNode) (hd : 0 < depth) :
    (cleanup_xpath_children depth max_depth root_deleted node).2.2 = root_deleted := by
  cases node with
  | element n m cs =>
    rw [cleanup_xpath_children]
    exact cleanup_xpath_tree_sweep_flag _ _ _ _ _ hd
  | text c => rw [cleanup_xpath_children]

theorem cleanup_empty_children_flag (depth max_depth : Int) (root_deleted : Bool)
    (node : MarkedNode) (hd : 0 < depth) :
    (cleanup_empty_children depth max_depth root_deleted node).2 = root_deleted := by
  cases node with
  | element n m cs =>
    rw [cleanup_empty_children]
    exact cleanup_empty_branches_flag _ _ _ _ _ hd
  | text c => rw [cleanup_empty_children]

/-- The root is reported deleted exactly when nothing of the tree is left. -/
theorem cleanup_xpath_tree_root (xml : MarkedNode) :
    (cleanup_xpath_tree xml).2 = true ↔ (cleanup_xpath_tree xml).1 = none := by
  unfold cleanup_xpath_tree
  by_cases hu : (xml.isElement && !xml.marked) = true
  · simp [cleanup_xpath_tree_sweep, hu, cleanup_empty_branches]
  · have h1 := cleanup_xpath_children_flag (0 + 1) 0 false xml (by omega)
    simp only [cleanup_xpath_tree_sweep, hu, Bool.false_eq_true, if_false, h1]
    generalize (if 0 > (cleanup_xpath_children (0 + 1) 0 false xml).2.1 then 0
      else (cleanup_xpath_children (0 + 1) 0 false xml).2.1) = md
    generalize xml.setChildren (cleanup_xpath_children (0 + 1) 0 false xml).1 = x
    rw [cleanup_empty_branches]
    by_cases hg : (0 : Int) < md - 1
    · simp only [hg, if_true]
      by_cases he : (x.isElement && x.children.isEmpty) = true
      · simp [he, cleanup_empty_branches]
      · have h2 := cleanup_empty_children_flag 1 md false x (by omega)
        simp [he, cleanup_empty_branches, h2]
    · simp [hg]

/-- C25 (the code on a branch that the second sweep empties): in
`<root><a><b/></a><c><d>x</d></c></root>` with every element marked, the second sweep removes
the childless `<b>` at depth 2 and leaves its parent `<a>`, already visited, without
children at depth 1, while `<d>` is retained at depth 2; the same is left when `<b>` loses
its only child `<e>` to the sweep of the unmarked elements.  The root is reported deleted
exactly when nothing of the tree is left. -/
theorem cleanup_xpath_tree_leaves_empty_element :
    cleanup_xpath_tree tree_all_marked = (some tree_swept, false) ∧
    cleanup_xpath_tree tree_one_unmarked = (some tree_swept, false) ∧
    empty_element_depths 0 [tree_swept] = [1] ∧
    element_depths 0 [tree_swept] = [0, 1, 1, 2] ∧
    (∀ xml, (cleanup_xpath_tree xml).2 = true ↔ (cleanup_xpath_tree xml).1 = none) :=
  ⟨rfl, rfl, by simp [empty_element_depths, tree_swept],
    by simp [element_depths, tree_swept], cleanup_xpath_tree_root⟩


/-! ### The session id in the published state and in the hello -/

theorem int_decimal_ofNat (k : Nat) : int_decimal ((k : Nat) : Int) = toString k := rfl

theorem int_decimal_negSucc (k : Nat) :
    int_decimal (Int.negSucc k) = "-" ++ toString (k + 1) := rfl

theorem toInt32_small (v : Nat) (h : toUInt32 v < 2147483648) :
    toInt32 (toUInt32 v) = ((toUInt32 v : Nat) : Int) := by
  unfold toInt32
  omega

theorem toInt32_large (v : Nat) (h : 2147483648 ≤ toUInt32 v) :
    toInt32 (toUInt32 v) = Int.negSucc (4294967295 - toUInt32 v) := by
  have hlt : toUInt32 v < 4294967296 := Nat.mod_lt _ (by norm_num)
  rw [Int.negSucc_eq]
  unfold toInt32
  omega

theorem fmt_d_small (v : Nat) (h : toUInt32 v < 2147483648) : fmt_d v = fmt_u v := by
  rw [fmt_d, fmt_u, toInt32_small v h, int_decimal_ofNat]

theorem fmt_d_large (v : Nat) (h : 2147483648 ≤ toUInt32 v) :
    fmt_d v = "-" ++ toString (4294967296 - toUInt32 v) := by
  have hlt : toUInt32 v < 4294967296 := Nat.mod_lt _ (by norm_num)
  have h2 : 4294967295 - toUInt32 v + 1 = 4294967296 - toUInt32 v := by omega
  rw [fmt_d, toInt32_large v h, int_decimal_negSucc, h2]

theorem ite_ne_of {α : Type} (c : Prop) [Decidable c] (a b x : α) (ha : a ≠ x) (hb : b ≠ x) :
    (if c then a else b) ≠ x := by
  split
  · exact ha
  · exact hb

theorem digitChar_ne_minus (n : Nat) : Nat.digitChar n ≠ '-' := by
  rw [Nat.digitChar]
  repeat (first | exact (by decide) | apply ite_ne_of)

theorem toDigitsCore_head (b : Nat) :
    ∀ (f n : Nat) (ds : List Char), (∀ c ∈ ds.head?, c ≠ '-') → ds ≠ [] ∨ 0 < f →
      ∃ c cs, Nat.toDigitsCore b f n ds = c :: cs ∧ c ≠ '-' := by
  intro f
  induction f with
  | zero =>
    intro n ds hds hne
    rcases hne with hne | hf
    · cases ds with
      | nil => exact absurd rfl hne
      | cons d ds => exact ⟨d, ds, rfl, hds d (by simp)⟩
    · omega
  | succ f ih =>
    intro n ds hds _
    rw [Nat.toDigitsCore]
    by_cases h : n / b = 0
    · simp only [h, if_true]
      exact ⟨_, _, rfl, digitChar_ne_minus _⟩
    · simp only [h, if_false]
      exact ih _ _ (by intro c hc; simp at hc; rw [← hc]; exact digitChar_ne_minus _)
        (Or.inl (by simp))

theorem nat_toString_head (n : Nat) : ∃ c cs, (toString n).data = c :: cs ∧ c ≠ '-' :=
  toDigitsCore_head 10 (n + 1) n [] (by simp) (Or.inr (by omega))

theorem minus_toString_ne (n m : Nat) : "-" ++ toString n ≠ toString m := by
  intro h
  obtain ⟨c, cs, h1, h2⟩ := nat_toString_head m
  have h3 := congrArg String.data h
  rw [String.data_append, h1] at h3
  have h4 : ("-" : String).data = ['-'] := rfl
  rw [h4] at h3
  simp at h3
  exact h2 h3.1.symm

theorem hello_doc_session_id (env : Env) (session : netconf_session) :
    hello_session_id (hello_doc env session) = some (fmt_u session.id) := by
  simp only [hello_session_id, hello_doc, create_rpc, xmlFindNodeByName, elementChildren,
    XmlNode.children, xmlNewChild]
  by_cases h : fmt_u session.id = ""
  · simp [h, XmlNode.isElement, XmlNode.name, List.filter, List.find?, xmlNodeGetContent,
      xmlNodeListGetContent]
  · simp [h, XmlNode.isElement, XmlNode.name, List.filter, List.find?, xmlNodeGetContent,
      xmlNodeListGetContent]

/-- C30 (the session id of the published record and of the hello): the hello carries the id
printed with `%u`, the key and the `session-id` leaf of the record built by
`_netconf_sessions_refresh` carry it printed with `%d`; the two strings are equal for an id
below 2^31, and for an id from 2^31 on the record carries a minus sign and the distance of the
id from 2^32, which is not the unsigned form sent in the hello. -/
theorem session_id_published_signed (env : Env) (g : Global) (session : netconf_session) :
    hello_session_id (hello_doc env session) = some (fmt_u session.id) ∧
    (session_record g session).key = fmt_d session.id ∧
    (session_record g session).leaves.head? = some ("session-id", some (fmt_d session.id)) ∧
    (toUInt32 session.id < 2147483648 → fmt_d session.id = fmt_u session.id) ∧
    (2147483648 ≤ toUInt32 session.id →
      fmt_d session.id = "-" ++ toString (4294967296 - toUInt32 session.id) ∧
      fmt_d session.id ≠ fmt_u session.id) := by
  refine ⟨hello_doc_session_id env session, by simp only [session_record],
    by simp only [session_record, List.head?], fmt_d_small _, ?_⟩
  intro h
  refine ⟨fmt_d_large _ h, ?_⟩
  rw [fmt_d_large _ h, fmt_u]
  exact minus_toString_ne _ _

/-- Witness for C30: the id 5 is published as it is sent in the hello; the id 4294967295 is
published as a minus sign followed by 1, which is not what the hello carries. -/
theorem session_id_published_signed_witness :
    fmt_d (mk_session 7 5).id = fmt_u (mk_session 7 5).id ∧
    fmt_d (mk_session 7 4294967295).id = "-" ++ toString (4294967296 - toUInt32 4294967295) ∧
    fmt_d (mk_session 7 4294967295).id ≠ fmt_u (mk_session 7 4294967295).id :=
  ⟨(session_id_published_signed env_ok world_init.g (mk_session 7 5)).2.2.2.1
     (by norm_num [toUInt32, mk_session]),
   (session_id_published_signed env_ok world_init.g (mk_session 7 4294967295)).2.2.2.2
     (by norm_num [toUInt32, mk_session])⟩


/-! ### Admission of a new connection -/

theorem eraseP_append_new (l : List netconf_session) (session : netconf_session)
    (h : ∀ s ∈ l, s.id ≠ session.id) :
    (l ++ [session]).eraseP (fun nc_session => session.id == nc_session.id) = l := by
  induction l with
  | nil => simp [List.eraseP]
  | cons a l ih =>
    have ha : (session.id == a.id) = false := by
      simpa using fun e => h a (by simp) e.symm
    rw [List.cons_append, List.eraseP_cons, ha]
    simp only [Bool.false_eq_true, if_false, cond_false]
    rw [ih (fun s hs => h s (by simp [hs]))]

theorem destroy_session_new (g : Global) (session : netconf_session)
    (l : List netconf_session) (hl : g.open_sessions_list = l ++ [session])
    (h : ∀ s ∈ l, s.id ≠ session.id) :
    (destroy_session g session).open_sessions_list = l ∧
    (destroy_session g session).netconf_num_sessions =
      toUInt32 (g.netconf_num_sessions + 4294967295) ∧
    (destroy_session g session).netconf_global_stats = g.netconf_global_stats ∧
    (destroy_session g session).netconf_max_sessions = g.netconf_max_sessions := by
  have key : ∀ g1 : Global, g1.open_sessions_list = l ++ [session] →
      (remove_netconf_session g1 session).open_sessions_list = l ∧
      (remove_netconf_session g1 session).netconf_num_sessions =
        toUInt32 (g1.netconf_num_sessions + 4294967295) ∧
      (remove_netconf_session g1 session).netconf_global_stats = g1.netconf_global_stats ∧
      (remove_netconf_session g1 session).netconf_max_sessions = g1.netconf_max_sessions := by
    intro g1 h1
    unfold remove_netconf_session
    rw [if_pos (by rw [h1]; simp)]
    refine ⟨?_, rfl, rfl, rfl⟩
    show g1.open_sessions_list.eraseP (fun nc_session => session.id == nc_session.id) = l
    rw [h1]
    exact eraseP_append_new l session h
  unfold destroy_session
  split
  · have h1 := key (reset_lock g) (by simpa [reset_lock] using hl)
    simpa [reset_lock] using h1
  · exact key g hl

/-- C21 (admission when the table is full): in a state with `num_sessions = max_sessions`, the
maximum being below 2^32 - 1 and no open session carrying the id that the newcomer receives,
`netconf_handle_session` returns without reading the input and without writing anything (no
hello is sent), `dropped_sessions` has grown by exactly 1, and `num_sessions` and the session
table are what they were before the arrival. -/
theorem netconf_handle_session_full (env : Env) (w : World) (fd : Int) (input : List Nat)
    (hfull : w.g.netconf_num_sessions = w.g.netconf_max_sessions)
    (hmax : w.g.netconf_max_sessions < 4294967295)
    (hid : ∀ s ∈ w.g.open_sessions_list, s.id ≠ (create_session env w.g fd).2.id) :
    ∃ w1, netconf_handle_session env w fd input = .ok (w1, input) ∧
      w1.tx = w.tx ∧
      w1.g.netconf_global_stats.dropped_sessions =
        w.g.netconf_global_stats.dropped_sessions + 1 ∧
      w1.g.netconf_num_sessions = w.g.netconf_num_sessions ∧
      w1.g.open_sessions_list = w.g.open_sessions_list := by
  have hnum : (create_session env w.g fd).1.netconf_num_sessions =
      w.g.netconf_num_sessions + 1 := by
    simp only [create_session, toUInt32]
    omega
  have hmx : (create_session env w.g fd).1.netconf_max_sessions = w.g.netconf_max_sessions := by
    simp only [create_session]
  have hlist : (create_session env w.g fd).1.open_sessions_list =
      w.g.open_sessions_list ++ [(create_session env w.g fd).2] := by
    simp only [create_session]
  have hgt : (create_session env w.g fd).1.netconf_num_sessions >
      (create_session env w.g fd).1.netconf_max_sessions := by
    rw [hnum, hmx]
    omega
  have hd := destroy_session_new (count_dropped { w with g := (create_session env w.g fd).1 }).g
    (create_session env w.g fd).2 w.g.open_sessions_list
    (by simpa [count_dropped] using hlist) hid
  refine ⟨{ count_dropped { w with g := (create_session env w.g fd).1 } with
      g := destroy_session (count_dropped { w with g := (create_session env w.g fd).1 }).g
        (create_session env w.g fd).2 }, ?_, rfl, ?_, ?_, hd.1⟩
  · unfold netconf_handle_session
    simp only [hgt, or_true, if_true]
    rfl
  · rw [hd.2.2.1]
    simp [count_dropped, create_session]
  · rw [hd.2.1]
    simp only [count_dropped, hnum, toUInt32]
    omega

/-- Witness for C21: with the sessions 5 and 6 open and room for two, a third connection is
dropped without a reply and without its input being read; the table still holds the two
sessions. -/
theorem netconf_handle_session_full_witness :
    ∃ w1, netconf_handle_session env_ok world_two_full 9 [60] = .ok (w1, [60]) ∧
      w1.tx = world_two_full.tx ∧
      w1.g.netconf_global_stats.dropped_sessions =
        world_two_full.g.netconf_global_stats.dropped_sessions + 1 ∧
      w1.g.netconf_num_sessions = world_two_full.g.netconf_num_sessions ∧
      w1.g.open_sessions_list = world_two_full.g.open_sessions_list :=
  netconf_handle_session_full env_ok world_two_full 9 [60] rfl (by decide) (by decide)

/-- Counterexample to C21 as stated (an open session with the id of the newcomer): with one
session of id 5 open, room for one session only and the counter of ids at 5 again, the
newcomer is dropped and no hello is sent, but the search by id of `remove_netconf_session`
comes upon the entry of the open session first: that entry is no longer in the table, which
is not what it was before the arrival. -/
theorem netconf_handle_session_full_same_id :
    world_full.g.netconf_num_sessions = world_full.g.netconf_max_sessions ∧
    world_full.g.open_sessions_list = [{ mk_session 7 5 with username := some "admin" }] ∧
    ∃ w1, netconf_handle_session env_ok world_full 8 [] = .ok (w1, []) ∧
      w1.tx = [] ∧
      w1.g.netconf_global_stats.dropped_sessions =
        world_full.g.netconf_global_stats.dropped_sessions + 1 ∧
      w1.g.netconf_num_sessions = 1 ∧
      { mk_session 7 5 with username := some "admin" } ∉ w1.g.open_sessions_list ∧
      w1.g.open_sessions_list ≠ world_full.g.open_sessions_list :=
  ⟨rfl, rfl, _, rfl, rfl, rfl, rfl, by decide, by decide⟩


/-! ### The hello size ceiling -/

theorem g_strstr_len_scan_some (needle : List Nat) :
    ∀ (l : List Nat) (p m : Nat), g_strstr_len_scan needle l p = some m →
      p ≤ m ∧ (m - p) + needle.length ≤ l.length ∧
      (l.drop (m - p)).take needle.length = needle := by
  intro l
  induction l with
  | nil => intro p m h; simp [g_strstr_len_scan] at h
  | cons b rest ih =>
    intro p m h
    rw [g_strstr_len_scan] at h
    by_cases h1 : (b :: rest).length < needle.length
    · rw [if_pos h1] at h
      cases h
    · rw [if_neg h1] at h
      by_cases h2 : b = 0
      · rw [if_pos h2] at h
        cases h
      · rw [if_neg h2] at h
        by_cases h3 : (b :: rest).take needle.length = needle
        · rw [if_pos h3] at h
          injection h with h
          subst h
          refine ⟨le_refl _, ?_, ?_⟩
          · simp only [Nat.sub_self, Nat.zero_add]
            omega
          · simpa using h3
        · rw [if_neg h3] at h
          obtain ⟨i1, i2, i3⟩ := ih (p + 1) m h
          have e : m - p = (m - (p + 1)) + 1 := by omega
          refine ⟨by omega, ?_, ?_⟩
          · simp only [List.length_cons]
            omega
          · rw [e, List.drop_succ_cons]
            exact i3

theorem g_strstr_len_some (haystack : List Nat) (n : Nat) (needle : List Nat) (m : Nat)
    (hn : needle.length ≠ 0) (h : g_strstr_len haystack n needle = some m) :
    m + needle.length ≤ n ∧ m + needle.length ≤ haystack.length ∧
    (haystack.drop m).take needle.length = needle := by
  unfold g_strstr_len at h
  rw [if_neg hn] at h
  by_cases h1 : n < needle.length
  · rw [if_pos h1] at h
    cases h
  · rw [if_neg h1] at h
    obtain ⟨_, i2, i3⟩ := g_strstr_len_scan_some needle _ 0 m h
    simp only [Nat.sub_zero, List.length_take] at i2
    have hmin : min needle.length (n - m) = needle.length := by omega
    refine ⟨by omega, by omega, ?_⟩
    simp only [Nat.sub_zero] at i3
    rw [List.drop_take, List.take_take, hmin] at i3
    exact i3

theorem handle_hello_loop_fuel (env : Env) :
    ∀ (fuel k : Nat) (front : List Nat) (total_len : Nat) (input : List Nat),
      16384 ≤ total_len + 1012 * fuel → total_len < 16384 →
      ∃ o, handle_hello_loop env fuel k front total_len input = .ok o := by
  intro fuel
  induction fuel with
  | zero => intro k front T input h1 h2; omega
  | succ f ih =>
    intro k front T input h1 h2
    rw [handle_hello_loop]
    by_cases hr : env.loop_running = false
    · rw [if_pos hr]
      exact ⟨_, rfl⟩
    · rw [if_neg hr]
      simp only [HELLO_RX_SIZE, NETCONF_HELLO_END_LEN, MAX_HELLO_RX_SIZE, Nat.reduceSub]
      by_cases hlen : min (min 1012 (env.hello_recv k)) input.length > 0
      · rw [if_pos hlen]
        cases hm : g_strstr_len
            (front ++ List.take (min (min 1012 (env.hello_recv k)) input.length) input)
            (min (min 1012 (env.hello_recv k)) input.length + 12) NETCONF_HELLO_END with
        | some m => exact ⟨_, rfl⟩
        | none =>
          simp only []
          by_cases hl : min (min 1012 (env.hello_recv k)) input.length < 1012
          · rw [if_pos hl]
            exact ⟨_, rfl⟩
          · rw [if_neg hl]
            by_cases hc : T + 1012 ≥ 16384
            · rw [if_pos hc]
              exact ⟨_, rfl⟩
            · rw [if_neg hc]
              exact ih _ _ _ _ (by omega) (by omega)
      · rw [if_neg hlen]
        exact ⟨_, rfl⟩

theorem handle_hello_returns (env : Env) (input : List Nat) :
    ∃ r, handle_hello env input = .ok r := by
  obtain ⟨o, ho⟩ := handle_hello_loop_fuel env
    (MAX_HELLO_RX_SIZE / (HELLO_RX_SIZE - NETCONF_HELLO_END_LEN) + 1) 0
    (List.replicate NETCONF_HELLO_END_LEN 32) 0 input (by decide) (by decide)
  unfold handle_hello
  rw [ho]
  cases o with
  | none => exact ⟨_, rfl⟩
  | some t =>
    simp only []
    split
    · exact ⟨_, rfl⟩
    · split
      · exact ⟨_, rfl⟩
      · split <;> exact ⟨_, rfl⟩

theorem replicate_append_drop (pre : List Nat) (t : Nat) (h : 12 ≤ t) :
    (List.replicate 12 32 ++ pre).drop t = pre.drop (t - 12) := by
  rw [List.drop_append_eq_append_drop]
  simp only [List.length_replicate]
  rw [List.drop_eq_nil_of_le (by simp; omega)]
  rfl

theorem handle_hello_loop_some (env : Env) (hrun : env.loop_running = true)
    (stream : List Nat) :
    ∀ (fuel k : Nat) (front : List Nat) (total_len : Nat) (input pre : List Nat) (j t : Nat),
      stream = pre ++ input → pre.length = total_len → total_len = 1012 * j → j ≤ 16 →
      front = (List.replicate 12 32 ++ pre).drop total_len →
      handle_hello_loop env fuel k front total_len input = .ok (some t) →
      t ≤ 17204 ∧ t ≤ stream.length ∧
      ((List.replicate 12 32 ++ stream).drop t).take 12 = NETCONF_HELLO_END := by
  intro fuel
  induction fuel with
  | zero =>
    intro k front T input pre j t _ _ _ _ _ h
    rw [handle_hello_loop] at h
    cases h
  | succ f ih =>
    intro k front T input pre j t hs hp hT hj hf h
    rw [handle_hello_loop] at h
    rw [if_neg (by simp [hrun])] at h
    simp only [HELLO_RX_SIZE, NETCONF_HELLO_END_LEN, MAX_HELLO_RX_SIZE, Nat.reduceSub] at h
    by_cases hlen : min (min 1012 (env.hello_recv k)) input.length > 0
    · rw [if_pos hlen] at h
      have hfl : front.length = 12 := by
        rw [hf]
        simp
        omega
      cases hm : g_strstr_len
          (front ++ List.take (min (min 1012 (env.hello_recv k)) input.length) input)
          (min (min 1012 (env.hello_recv k)) input.length + 12) NETCONF_HELLO_END with
      | some m =>
        rw [hm] at h
        simp only [] at h
        injection h with h
        injection h with h
        subst h
        obtain ⟨g1, g2, g3⟩ := g_strstr_len_some _ _ _ m (by decide) hm
        have hnl : NETCONF_HELLO_END.length = 12 := rfl
        rw [hnl] at g1 g2 g3
        have hsl : stream.length = T + input.length := by
          rw [hs, List.length_append, hp]
        refine ⟨by omega, by omega, ?_⟩
        have e1 : (List.replicate 12 32 ++ stream).drop T = front ++ input := by
          rw [hs, ← List.append_assoc, List.drop_append_eq_append_drop, ← hf]
          congr 1
          have : T - (List.replicate 12 32 ++ pre).length = 0 := by
            simp
            omega
          rw [this]
          rfl
        have e2 : front ++ List.take (min (min 1012 (env.hello_recv k)) input.length) input =
            (front ++ input).take (12 + min (min 1012 (env.hello_recv k)) input.length) := by
          rw [← hfl, List.take_append]
        have hmin : min 12 (12 + min (min 1012 (env.hello_recv k)) input.length - m) = 12 := by
          omega
        rw [e2, List.drop_take, List.take_take, hmin] at g3
        rw [← List.drop_drop, e1]
        exact g3
      | none =>
        rw [hm] at h
        simp only [] at h
        by_cases hl : min (min 1012 (env.hello_recv k)) input.length < 1012
        · rw [if_pos hl] at h
          cases h
        · rw [if_neg hl] at h
          by_cases hc : T + 1012 ≥ 16384
          · rw [if_pos hc] at h
            cases h
          · rw [if_neg hc] at h
            have hlen2 : min (min 1012 (env.hello_recv k)) input.length = 1012 := by omega
            rw [hlen2] at h
            have hil : 1012 ≤ input.length := by omega
            refine ih (k + 1) _ (T + 1012) _ (pre ++ input.take 1012) (j + 1) t ?_ ?_ ?_ ?_ ?_ h
            · rw [List.append_assoc, List.take_append_drop]
              exact hs
            · rw [List.length_append, List.length_take, hp]
              omega
            · omega
            · omega
            · rw [← List.append_assoc, List.drop_append_eq_append_drop]
              have e1 : (List.replicate 12 32 ++ pre).drop (T + 1012) = [] :=
                List.drop_eq_nil_of_le (by simp; omega)
              have e2 : T + 1012 - (List.replicate 12 32 ++ pre).length = 1000 := by
                simp
                omega
              rw [e1, e2]
              rfl
    · rw [if_neg hlen] at h
      cases h

theorem handle_hello_loop_stopped (env : Env) (hrun : env.loop_running = false)
    (fuel k : Nat) (front : List Nat) (input : List Nat) (o : Option Nat)
    (h : handle_hello_loop env fuel k front 0 input = .ok o) : o = some 0 := by
  cases fuel with
  | zero =>
    rw [handle_hello_loop] at h
    cases h
  | succ f =>
    rw [handle_hello_loop, if_pos hrun] at h
    injection h with h
    exact h.symm

theorem hello_end_position (stream : List Nat) (t : Nat)
    (h : ((List.replicate 12 32 ++ stream).drop t).take 12 = NETCONF_HELLO_END) :
    12 ≤ t ∧ (stream.take t).drop (t - 12) = NETCONF_HELLO_END := by
  have h12 : 12 ≤ t := by
    by_contra hlt
    have h1 := congrArg List.head? h
    rw [List.drop_append_of_le_length (by simp; omega)] at h1
    rw [List.drop_replicate] at h1
    obtain ⟨d, hd⟩ : ∃ d, 12 - t = d + 1 := ⟨12 - t - 1, by omega⟩
    rw [hd, List.replicate_succ] at h1
    simp [NETCONF_HELLO_END] at h1
  refine ⟨h12, ?_⟩
  rw [replicate_append_drop stream t h12] at h
  rw [List.drop_take]
  have e : t - (t - 12) = 12 := by omega
  rw [e]
  exact h

/-- C24 (the ceiling of the hello): `handle_hello` always returns; when it returns success it
has consumed a prefix of the stream of at most 17204 bytes (sixteen full reads of 1012 bytes,
then one more read) that ends with the bytes "hello>]]>]]>": the ceiling is tested only
after a full read without the trailer, so the result for a trailer ending after more than
17204 bytes, or missing, is a failure, while one ending between 16384 and 17204 bytes can be
accepted. -/
theorem handle_hello_ceiling (env : Env) (input : List Nat) :
    (∃ r, handle_hello env input = .ok r) ∧
    ∀ rest, handle_hello env input = .ok (true, rest) →
      ∃ n, 12 ≤ n ∧ n ≤ 17204 ∧ n ≤ input.length ∧ rest = input.drop n ∧
        (input.take n).drop (n - 12) = NETCONF_HELLO_END := by
  refine ⟨handle_hello_returns env input, ?_⟩
  intro rest h
  unfold handle_hello at h
  cases hl : handle_hello_loop env
      (MAX_HELLO_RX_SIZE / (HELLO_RX_SIZE - NETCONF_HELLO_END_LEN) + 1) 0
      (List.replicate NETCONF_HELLO_END_LEN 32) 0 input with
  | error f =>
    rw [hl] at h
    cases h
  | ok o =>
    rw [hl] at h
    cases o with
    | none =>
      simp only [] at h
      cases h
    | some t =>
      simp only [] at h
      by_cases ht : t = 0
      · rw [if_pos ht] at h
        cases h
      · rw [if_neg ht] at h
        by_cases hlen : (input.take t).length = 0
        · rw [if_pos hlen] at h
          cases h
        · rw [if_neg hlen] at h
          have hrun : env.loop_running = true := by
            by_contra hr
            have := handle_hello_loop_stopped env (by simpa using hr) _ _ _ _ _ hl
            injection this with this
            exact ht this
          obtain ⟨b1, b2, b3⟩ := handle_hello_loop_some env hrun input _ 0 _ 0 input [] 0 t
            rfl rfl rfl (by omega) rfl hl
          obtain ⟨c1, c2⟩ := hello_end_position input t b3
          refine ⟨t, c1, b1, b2, ?_, c2⟩
          cases hm : g_strstr_len (input.take t) (input.take t).length NETCONF_BASE_1_0_END with
          | none =>
            rw [hm] at h
            simp only [] at h
            injection h with h
            injection h with h1 h2
            cases h1
          | some e =>
            rw [hm] at h
            simp only [] at h
            injection h with h
            injection h with h1 h2
            exact h2.symm

theorem g_strstr_len_scan_blanks (needle : List Nat) (c : Nat) (hc : needle.head? = some c)
    (h32 : c ≠ 32) :
    ∀ (n p : Nat), g_strstr_len_scan needle (List.replicate n 32) p = none := by
  intro n
  induction n with
  | zero => intro p; rfl
  | succ n ih =>
    intro p
    rw [List.replicate_succ, g_strstr_len_scan]
    split
    · rfl
    · rw [if_neg (by decide)]
      rw [if_neg]
      · exact ih _
      · intro h
        have h1 := congrArg List.head? h
        rw [hc] at h1
        cases hn : needle.length with
        | zero =>
          rw [List.length_eq_zero] at hn
          rw [hn] at hc
          cases hc
        | succ k =>
          rw [hn, List.take_succ_cons, List.head?_cons] at h1
          injection h1 with h1
          exact h32 h1.symm

theorem g_strstr_len_scan_shift (needle : List Nat) :
    ∀ (l : List Nat) (p : Nat),
      g_strstr_len_scan needle l p = (g_strstr_len_scan needle l 0).map (fun m => m + p) := by
  intro l
  induction l with
  | nil => intro p; rfl
  | cons b rest ih =>
    intro p
    rw [g_strstr_len_scan, g_strstr_len_scan]
    split
    · rfl
    · split
      · rfl
      · split
        · simp
        · rw [ih (p + 1), ih (0 + 1)]
          cases g_strstr_len_scan needle rest 0 with
          | none => rfl
          | some m =>
            simp only [Option.map_some']
            congr 1
            omega

theorem g_strstr_len_scan_skip_blanks (needle : List Nat) (c : Nat)
    (hc : needle.head? = some c) (h32 : c ≠ 32) (l : List Nat)
    (hl : needle.length ≤ l.length) :
    ∀ (n p : Nat), g_strstr_len_scan needle (List.replicate n 32 ++ l) p =
      g_strstr_len_scan needle l (p + n) := by
  intro n
  induction n with
  | zero => intro p; rfl
  | succ n ih =>
    intro p
    rw [List.replicate_succ, List.cons_append, g_strstr_len_scan]
    rw [if_neg (by simp; omega), if_neg (by decide), if_neg]
    · rw [ih (p + 1)]
      congr 1
      omega
    · intro h
      have h1 := congrArg List.head? h
      rw [hc] at h1
      cases hn : needle.length with
      | zero =>
        rw [List.length_eq_zero] at hn
        rw [hn] at hc
        cases hc
      | succ k =>
        rw [hn, List.take_succ_cons, List.head?_cons] at h1
        injection h1 with h1
        exact h32 h1.symm

theorem dropWhile_blanks (l : List Nat) (n : Nat) :
    (List.replicate n 32 ++ l).dropWhile (fun b => b == 32) =
      l.dropWhile (fun b => b == 32) := by
  induction n with
  | zero => rfl
  | succ n ih =>
    rw [List.replicate_succ, List.cons_append, List.dropWhile_cons]
    simp only [beq_self_eq_true, if_true]
    exact ih

theorem handle_hello_loop_blanks (env : Env) (hrun : env.loop_running = true)
    (hrecv : ∀ k, 1012 ≤ env.hello_recv k) :
    ∀ (j fuel k T : Nat) (rest : List Nat), T + 1012 * j < 16384 →
      handle_hello_loop env (fuel + j) k (List.replicate 12 32) T
        (List.replicate (1012 * j) 32 ++ rest) =
      handle_hello_loop env fuel (k + j) (List.replicate 12 32) (T + 1012 * j) rest := by
  intro j
  induction j with
  | zero => intro fuel k T rest _; rfl
  | succ j ih =>
    intro fuel k T rest hT
    have e1 : List.replicate (1012 * (j + 1)) 32 ++ rest =
        List.replicate 1012 32 ++ (List.replicate (1012 * j) 32 ++ rest) := by
      rw [← List.append_assoc, ← List.replicate_add]
      congr 2
      omega
    have e2 : fuel + (j + 1) = (fuel + j) + 1 := by omega
    rw [e1, e2, handle_hello_loop, if_neg (by simp [hrun])]
    simp only [HELLO_RX_SIZE, NETCONF_HELLO_END_LEN, MAX_HELLO_RX_SIZE, Nat.reduceSub]
    have hlen : min (min 1012 (env.hello_recv k))
        (List.replicate 1012 32 ++ (List.replicate (1012 * j) 32 ++ rest)).length = 1012 := by
      have := hrecv k
      simp only [List.length_append, List.length_replicate]
      omega
    rw [hlen, if_pos (by omega)]
    have htake : List.take 1012 (List.replicate 1012 32 ++
        (List.replicate (1012 * j) 32 ++ rest)) = List.replicate 1012 32 := by
      rw [List.take_append_of_le_length (le_of_eq (List.length_replicate _ _).symm)]
      exact List.take_of_length_le (le_of_eq (List.length_replicate _ _))
    have hdrop : List.drop 1012 (List.replicate 1012 32 ++
        (List.replicate (1012 * j) 32 ++ rest)) = List.replicate (1012 * j) 32 ++ rest := by
      rw [List.drop_append_of_le_length (le_of_eq (List.length_replicate _ _).symm)]
      rw [List.drop_eq_nil_of_le (le_of_eq (List.length_replicate _ _))]
      rfl
    have hnone : g_strstr_len (List.replicate 12 32 ++ List.replicate 1012 32) (1012 + 12)
        NETCONF_HELLO_END = none := by
      unfold g_strstr_len
      rw [if_neg (by decide), if_neg (by decide), ← List.replicate_add,
        List.take_of_length_le (by rw [List.length_replicate])]
      exact g_strstr_len_scan_blanks NETCONF_HELLO_END 104 rfl (by decide) _ _
    rw [htake, hdrop, hnone]
    simp only []
    rw [if_neg (by omega), if_neg (by omega)]
    have hfront : List.drop 1000 (List.replicate 1012 32) = List.replicate 12 32 := by
      simp only [List.drop_replicate, Nat.reduceSub]
    have ek : k + 1 + j = k + (j + 1) := by omega
    have eT : T + 1012 + 1012 * j = T + 1012 * (j + 1) := by omega
    rw [hfront, ih fuel (k + 1) (T + 1012) rest (by omega), ek, eT]

theorem hello_bytes_length : hello_bytes.length = 101 := by decide

theorem padded_hello_length (pad : Nat) : (padded_hello pad).length = pad + 107 := by
  unfold padded_hello
  rw [List.length_append, List.length_append, List.length_replicate, hello_bytes_length]
  rfl

theorem padded_hello_split :
    padded_hello 16300 = List.replicate (1012 * 16) 32 ++ padded_hello 108 := by
  unfold padded_hello
  rw [← List.append_assoc (List.replicate (1012 * 16) 32), ← List.replicate_add]

set_option maxRecDepth 20000 in
theorem handle_hello_loop_tail :
    handle_hello_loop env_hello 1 (0 + 16) (List.replicate 12 32) (0 + 1012 * 16)
      (padded_hello 108) = .ok (some 16407) := by
  rfl

set_option maxRecDepth 20000 in
theorem hello_trailer_scan :
    g_strstr_len_scan NETCONF_BASE_1_0_END (hello_bytes ++ NETCONF_BASE_1_0_END) 0 =
      some 101 := by
  rfl

set_option maxRecDepth 20000 in
theorem handle_hello_small : handle_hello env_hello (padded_hello 2) = .ok (true, []) := by
  rfl

set_option maxRecDepth 20000 in
theorem hello_bytes_dropWhile : hello_bytes.dropWhile (fun b => b == 32) = hello_bytes := by
  rfl

theorem parse_hello_bytes_blanks (n : Nat) :
    parse_hello_bytes (List.replicate n 32 ++ hello_bytes) = some helloS1 := by
  rw [parse_hello_bytes, dropWhile_blanks, if_pos hello_bytes_dropWhile]

theorem env_hello_xmlParseMemory : env_hello.xmlParseMemory = parse_hello_bytes := rfl

theorem hello_trailer_found :
    g_strstr_len (padded_hello 16300) 16407 NETCONF_BASE_1_0_END = some 16401 := by
  unfold g_strstr_len
  rw [if_neg (by decide), if_neg (by decide),
    List.take_of_length_le (le_of_eq (padded_hello_length 16300))]
  unfold padded_hello
  rw [g_strstr_len_scan_skip_blanks NETCONF_BASE_1_0_END 93 rfl (by decide) _
    (by rw [List.length_append, hello_bytes_length]; decide) 16300 0]
  rw [g_strstr_len_scan_shift]
  rw [hello_trailer_scan]
  rfl

theorem padded_hello_body :
    (padded_hello 16300).take 16401 = List.replicate 16300 32 ++ hello_bytes := by
  unfold padded_hello
  rw [List.take_append_eq_append_take, List.length_replicate,
    List.take_of_length_le (le_of_lt (by rw [List.length_replicate]; decide))]
  have e : 16401 - 16300 = hello_bytes.length := by rw [hello_bytes_length]
  rw [e, List.take_left]

/-- C24 (a hello past the ceiling): the stream of 16300 blanks, the hello of scenario S1 and
the trailer has its trailer end at byte 16407, beyond 16384; sixteen reads of 1012 blanks
leave `total_len` at 16192, below the ceiling, the seventeenth read finds the trailer, and
`handle_hello` returns success having consumed all 16407 bytes. -/
theorem handle_hello_accepts_past_ceiling :
    (padded_hello 16300).length = 16407 ∧ MAX_HELLO_RX_SIZE < 16407 ∧
    (padded_hello 16300).drop 16401 = NETCONF_BASE_1_0_END ∧
    handle_hello env_hello (padded_hello 16300) = .ok (true, []) := by
  have hlen := padded_hello_length 16300
  have hloop : handle_hello_loop env_hello
      (MAX_HELLO_RX_SIZE / (HELLO_RX_SIZE - NETCONF_HELLO_END_LEN) + 1) 0
      (List.replicate NETCONF_HELLO_END_LEN 32) 0 (padded_hello 16300) =
      .ok (some 16407) := by
    rw [padded_hello_split]
    exact (handle_hello_loop_blanks env_hello rfl (fun _ => le_refl _) 16 1 0 0
      (padded_hello 108) (by decide)).trans handle_hello_loop_tail
  refine ⟨hlen, by decide, ?_, ?_⟩
  · unfold padded_hello
    rw [List.drop_append_eq_append_drop,
      List.drop_eq_nil_of_le (le_of_lt (by rw [List.length_replicate]; decide)),
      List.length_replicate]
    have e : 16401 - 16300 = hello_bytes.length := by rw [hello_bytes_length]
    rw [e, List.drop_left]
    rfl
  · unfold handle_hello
    rw [hloop]
    simp only []
    rw [if_neg (by decide), List.take_of_length_le (le_of_eq hlen), hlen, if_neg (by decide),
      hello_trailer_found]
    simp only []
    rw [padded_hello_body, List.drop_eq_nil_of_le (le_of_eq hlen)]
    rw [env_hello_xmlParseMemory, parse_hello_bytes_blanks 16300]
    rfl

/-- Witness for C24: the hello of scenario S1 after two blanks is accepted, and what was
consumed ends with the trailer. -/
theorem handle_hello_ceiling_witness :
    ∃ n, 12 ≤ n ∧ n ≤ 17204 ∧ n ≤ (padded_hello 2).length ∧
      ([] : List Nat) = (padded_hello 2).drop n ∧
      ((padded_hello 2).take n).drop (n - 12) = NETCONF_HELLO_END :=
  (handle_hello_ceiling env_hello (padded_hello 2)).2 [] handle_hello_small


/-- Witness for C26: on the header "\n#3\n" every write stays inside the array. -/
theorem read_chunk_size_writes_past_buffer_witness :
    ∀ i ∈ read_chunk_size_writes [] [10, 35, 51, 10], i < chunk_header_size :=
  read_chunk_size_writes_past_buffer.2.2.1 [10, 35, 51, 10] (by decide)


/-! ### Accounting of the query pipeline -/

/-- A query without XPath evaluation does not stop. -/
theorem get_query_to_xml_total (env : Env) (st : GetState) (rpc : XmlNode)
    (query : Option GNodeTree) (path : String) (x_type : xpath_type) (schflags : SchFlags)
    (is_subtree is_filter : Bool) (rschema : Option sch_node)
    (hx : x_type ≠ .XPATH_EVALUATE) :
    ∃ r, get_query_to_xml env st rpc query path x_type schflags is_subtree is_filter rschema
      = .ok r := by
  unfold get_query_to_xml
  simp only []
  split
  · rw [if_neg hx]
    exact ⟨_, rfl⟩
  · exact ⟨_, rfl⟩

theorem handle_get_lock_held (env : Env) (w : World) (session : netconf_session)
    (rpc : XmlNode) (config_only : Bool) (h : lock_held_by_other w.g session = true) :
    ∃ w1 s1 ret, handle_get env w session rpc config_only = .ok (w1, s1, ret) ∧
      ErrorSent w w1 session s1
        (error_reply (some rpc) "in-use" "application" "Lock is already held"
          [session_id_info w.g.running_ds_lock.nc_sess.id])
        (env.write_ok w.tx.length) := by
  have he := (send_rpc_error_full_effect env w session (some rpc) .IN_USE .APP
    (some "Lock is already held") none none false).1
  rw [rpc_error_doc_in_use] at he
  unfold handle_get
  rw [if_pos h]
  exact ⟨_, _, _, rfl, he⟩

/-- The two loops of `get_process_action` on a filter whose first path is a leaf that cannot
be read: both answer `operation-not-supported` with the same message, the loop of the XPath
filter counts the request in `in_bad_rpcs` and the loop of the subtree filter does not. -/
theorem unreadable_path_accounting (env : Env) (rpc node : XmlNode) (attr : String)
    (schflags : SchFlags) (st : GetState) :
    (∀ (part : String) (rest : List String) (query : Option GNodeTree) (x_type : xpath_type),
      env.sch_xpath_to_gnode rpc node ((part.trim).replace "child::" "") schflags =
        ⟨query, some ⟨true, false⟩, x_type⟩ →
      x_type ≠ .XPATH_ERROR → (query.isNone = true → x_type ≠ .XPATH_SIMPLE) →
      get_process_xpath env rpc node attr schflags (part :: rest) st =
        .ok (get_error env st rpc .OPR_NOT_SUPPORTED .APP
          ("NETCONF: Path \"" ++ attr ++ "\" not readable") none none true true)) ∧
    (∀ (tnode : XmlNode) (rest : List XmlNode) (query : GNodeTree),
      env.sch_xml_to_gnode_query tnode schflags = (some query, some ⟨true, false⟩) →
      get_process_subtree env rpc attr schflags (tnode :: rest) st =
        .ok (get_error env st rpc .OPR_NOT_SUPPORTED .APP
          ("NETCONF: Path \"" ++ attr ++ "\" not readable") none none true false)) := by
  constructor
  · intro part rest query x_type hq h1 h2
    rw [get_process_xpath]
    simp only [hq]
    rw [if_neg (by
      rintro (h | ⟨h3, h4⟩)
      · exact h1 h
      · exact h2 h3 h4)]
    simp
  · intro tnode rest query hq
    rw [get_process_subtree]
    simp only [hq]
    simp

/-- Examples for the accounting of `handle_get`.  In an environment that translates no
filter and finds no data, a subtree filter is answered with `malformed-message` and counted
in `in_bad_rpcs`, a get without filter is answered with an empty `<data>` and counted in
`in_rpcs`, and an XPath filter without `select` is answered with `missing-attribute` and not
counted.  In an environment whose schema maps the filter to a leaf that cannot be read, the
subtree filter is answered with `operation-not-supported` and not counted. -/
theorem handle_get_accounting_examples :
    (∃ w1 s1 ret,
      handle_get (env_query env_ok) world_created (mk_session 7 5) rpc_get_subtree false =
        .ok (w1, s1, ret) ∧
      w1.tx = world_created.tx ++ [⟨7, rpc_error_doc (some rpc_get_subtree)
        (GetError.parms world_created .subtree_malformed_query), true⟩] ∧
      s1.counters.in_rpcs = 0 ∧ s1.counters.in_bad_rpcs = 1) ∧
    (∃ w1 s1 ret,
      handle_get (env_query env_ok) world_created (mk_session 7 5) rpc_get_all false =
        .ok (w1, s1, ret) ∧
      w1.tx = world_created.tx ++ [⟨7, data_reply rpc_get_all [none], true⟩] ∧
      s1.counters.in_rpcs = 1 ∧ s1.counters.in_bad_rpcs = 0) ∧
    (∃ w1 s1 ret,
      handle_get (env_query env_ok) world_created (mk_session 7 5) rpc_get_no_select false =
        .ok (w1, s1, ret) ∧
      w1.tx = world_created.tx ++ [⟨7, rpc_error_doc (some rpc_get_no_select)
        (GetError.parms world_created .missing_select), true⟩] ∧
      s1.counters.in_rpcs = 0 ∧ s1.counters.in_bad_rpcs = 0) ∧
    (∃ w1 s1 ret,
      handle_get (env_query env_unreadable) world_created (mk_session 7 5) rpc_get_subtree
        false = .ok (w1, s1, ret) ∧
      w1.tx = world_created.tx ++ [⟨7, rpc_error_doc (some rpc_get_subtree)
        (GetError.parms world_created .subtree_not_readable), true⟩] ∧
      s1.counters.in_rpcs = 0 ∧ s1.counters.in_bad_rpcs = 0) :=
  ⟨⟨_, _, _, rfl, rfl, rfl, rfl⟩, ⟨_, _, _, rfl, rfl, rfl, rfl⟩, ⟨_, _, _, rfl, rfl, rfl, rfl⟩,
    ⟨_, _, _, rfl, rfl, rfl, rfl⟩⟩

/-! ### The lock test of get and get-config -/

/-- C29: the lock test of `handle_get` does not read `config_only`.  While the lock is held by
another session a plain get and a get-config have the same result, the reply `in-use` of type
`application` that names the owner, with nothing else changed; when the lock is free or held
by the session itself both pass the test and go on to the options.  The worker calls
`handle_get` with `config_only = false` for `<get>` and with `config_only = true` for
`<get-config>`. -/
theorem handle_get_lock_check_config_independent (env : Env) (w : World)
    (session : netconf_session) (rpc : XmlNode) :
    (w.g.running_ds_lock.locked = true → session.id ≠ w.g.running_ds_lock.nc_sess.id →
      handle_get env w session rpc false = handle_get env w session rpc true ∧
      ∃ w1 s1 ret, handle_get env w session rpc false = .ok (w1, s1, ret) ∧
        ErrorSent w w1 session s1
          (error_reply (some rpc) "in-use" "application" "Lock is already held"
            [session_id_info w.g.running_ds_lock.nc_sess.id])
          (env.write_ok w.tx.length)) ∧
    ((w.g.running_ds_lock.locked = false ∨ session.id = w.g.running_ds_lock.nc_sess.id) →
      ∀ config_only, handle_get env w session rpc config_only =
        handle_get_options env w session rpc config_only) ∧
    (∀ (child : XmlNode) (input : List Nat),
      (child.name = "get" →
        netconf_handle_session_dispatch env w session rpc child input =
          after_handler input (handle_get env w session rpc false)) ∧
      (child.name = "get-config" →
        netconf_handle_session_dispatch env w session rpc child input =
          after_handler input (handle_get env w session rpc true))) := by
  refine ⟨?_, ?_, ?_⟩
  · intro hheld hne
    have hother : lock_held_by_other w.g session = true := by
      simp [lock_held_by_other, hheld, hne]
    refine ⟨?_, handle_get_lock_held env w session rpc false hother⟩
    unfold handle_get
    rw [if_pos hother, if_pos hother]
  · intro hfree config_only
    have hother : ¬ lock_held_by_other w.g session = true := by
      rcases hfree with h | h
      · simp [lock_held_by_other, h]
      · simp [lock_held_by_other, h]
    unfold handle_get
    rw [if_neg hother]
  · intro child input
    constructor
    · intro h
      unfold netconf_handle_session_dispatch
      simp [h]
    · intro h
      unfold netconf_handle_session_dispatch
      simp [h]

/-- Witness for C29: a plain get of the second session of `world_two`, made while the first
one holds the lock, has the result of the get-config and is answered with `in-use`. -/
theorem handle_get_lock_check_config_independent_witness :
    handle_get env_ok world_two (mk_session 8 6) rpc_get_all false =
      handle_get env_ok world_two (mk_session 8 6) rpc_get_all true ∧
    ∃ w1 s1 ret, handle_get env_ok world_two (mk_session 8 6) rpc_get_all false =
        .ok (w1, s1, ret) ∧
      ErrorSent world_two w1 (mk_session 8 6) s1
        (error_reply (some rpc_get_all) "in-use" "application" "Lock is already held"
          [session_id_info world_two.g.running_ds_lock.nc_sess.id])
        (env_ok.write_ok world_two.tx.length) :=
  (handle_get_lock_check_config_independent env_ok world_two (mk_session 8 6) rpc_get_all).1
    (by decide) (by decide)


/-! ### Two open sessions with the same id -/

/-- Two values of the globals with the same six variables are equal. -/
theorem global_ext (a b : Global)
    (h1 : a.netconf_session_id = b.netconf_session_id)
    (h2 : a.netconf_max_sessions = b.netconf_max_sessions)
    (h3 : a.netconf_num_sessions = b.netconf_num_sessions)
    (h4 : a.open_sessions_list = b.open_sessions_list)
    (h5 : a.running_ds_lock = b.running_ds_lock)
    (h6 : a.netconf_global_stats = b.netconf_global_stats) : a = b := by
  cases a
  cases b
  simp_all

/-- Two worlds with the same globals and the same logs are equal. -/
theorem world_ext (a b : World) (h1 : a.g = b.g) (h2 : a.tx = b.tx)
    (h3 : a.ds_log = b.ds_log) (h4 : a.shutdown_log = b.shutdown_log) : a = b := by
  cases a
  cases b
  simp_all

/-- Connections that come and go lead from a reachable state to a reachable state. -/
theorem connections_reachable (env : Env) (fd : Int) (n : Nat) (w : World) (h : Reachable w) :
    Reachable (connections env fd n w) := by
  induction n with
  | zero => exact h
  | succ n ih =>
    have h1 := Reachable.create env _ fd ih
    exact Reachable.destroy _ (connections env fd n w).g.open_sessions_list.length
      (create_session env (connections env fd n w).g fd).2 h1 (by simp [create_session])

/-- One more connection after `n`, while the id handed out is not 5: the session gets the
next id, is appended and removed again, and the lock of session 5 is not touched. -/
theorem world_after_step (env : Env) (fd : Int) (n : Nat) (hn : n < 4294967294) :
    connect_and_leave env fd (world_after n) = world_after (n + 1) := by
  have hl : world_locked.g.open_sessions_list = [session_a] := by decide
  have hk : world_locked.g.running_ds_lock.nc_sess.id = 5 := by decide
  have hnum : world_locked.g.netconf_num_sessions = 1 := by decide
  have hin : world_locked.g.netconf_global_stats.in_sessions = 1 := by decide
  have hidn : (create_session env (world_after n).g fd).2.id ≠ 5 := by
    simp only [create_session, world_after, counter_after, toUInt32]
    split_ifs <;> omega
  have hcnt : (create_session env (world_after n).g fd).1.netconf_session_id =
      counter_after (n + 1) := by
    simp only [create_session, world_after, counter_after, toUInt32]
    split_ifs <;> omega
  obtain ⟨h1, h2, h3, h4⟩ := destroy_session_new (create_session env (world_after n).g fd).1
    (create_session env (world_after n).g fd).2 [session_a]
    (by simp only [create_session, world_after, hl])
    (by
      intro s hs
      simp only [List.mem_singleton] at hs
      rw [hs]
      exact fun h => hidn h.symm)
  have h5 : (destroy_session (create_session env (world_after n).g fd).1
      (create_session env (world_after n).g fd).2).netconf_session_id =
      counter_after (n + 1) := by
    rw [← hcnt]
    simp only [destroy_session, remove_netconf_session]
    split_ifs <;> rfl
  have h6 : (destroy_session (create_session env (world_after n).g fd).1
      (create_session env (world_after n).g fd).2).running_ds_lock =
      world_locked.g.running_ds_lock := by
    have hne : ¬ ((create_session env (world_after n).g fd).2.id =
        (create_session env (world_after n).g fd).1.running_ds_lock.nc_sess.id) := by
      intro h
      apply hidn
      rw [h]
      exact hk
    simp only [destroy_session, remove_netconf_session_lock, if_neg hne]
    rfl
  unfold connect_and_leave
  apply world_ext
  · apply global_ext
    · exact h5
    · rw [h4]; rfl
    · rw [h2]
      simp only [create_session, world_after, hnum, toUInt32]
    · rw [h1]; exact hl.symm
    · rw [h6]; rfl
    · rw [h3]
      simp only [create_session, world_after, hin]
      rfl
  · rfl
  · rfl
  · rfl

/-- The state after `n` connections, in closed form. -/
theorem world_after_connections (env : Env) (fd : Int) (n : Nat) (hn : n ≤ 4294967294) :
    connections env fd n world_locked = world_after n := by
  induction n with
  | zero => rfl
  | succ n ih =>
    rw [connections, ih (by omega)]
    exact world_after_step env fd n (by omega)

/-- The state with two open sessions of id 5 is reachable: session 5 takes the lock,
4294967294 connections come and go, and the next session is given the id 5 again. -/
theorem world_same_id_reachable : Reachable world_same_id := by
  have h := connections_reachable env_ok 9 4294967294 world_locked world_locked_reachable
  rw [world_after_connections env_ok 9 4294967294 (le_refl _)] at h
  exact Reachable.create env_ok _ 8 h

/-- Counterexample to C6 as stated: in the reachable state `world_same_id` the session on
socket 7 owns the lock and the session on socket 8, which never took it, has the same id 5.
The unlock request of the session on socket 8 is not answered `lock-denied`: the reply is
`<ok/>` and the lock of the other session is cleared. -/
theorem handle_unlock_same_id :
    Reachable world_same_id ∧
    world_same_id.g.open_sessions_list = [session_a, mk_session 8 5] ∧
    owns_lock world_same_id.g session_a ∧ session_a ≠ mk_session 8 5 ∧
    ¬ owns_lock world_same_id.g (mk_session 8 5) ∧
    ∃ w1 s1 ret,
      handle_unlock env_ok world_same_id (mk_session 8 5) rpc_unlock = .ok (w1, s1, ret) ∧
      w1.tx = world_same_id.tx ++ [⟨8, ok_reply rpc_unlock, true⟩] ∧
      w1.g.running_ds_lock.locked = false ∧ w1.g.running_ds_lock.nc_sess.id = 0 :=
  ⟨world_same_id_reachable, by decide, ⟨by decide, by decide, by decide⟩, by decide,
    (fun h => absurd h.2.2 (by decide)), _, _, _, rfl, rfl, rfl, rfl⟩

/-- Counterexample to C10 as stated: in the reachable state `world_same_id` the session on
socket 7 owns the lock and the session on socket 8, which never took it, has the same id 5.
The get-config of the session on socket 8 is answered with `<data>` and its edit-config is
carried out on the datastore and answered `<ok/>`: neither is rejected with `in-use`. -/
theorem lock_check_same_id :
    Reachable world_same_id ∧
    world_same_id.g.open_sessions_list = [session_a, mk_session 8 5] ∧
    owns_lock world_same_id.g session_a ∧ session_a ≠ mk_session 8 5 ∧
    ¬ owns_lock world_same_id.g (mk_session 8 5) ∧
    (∃ w1 s1 ret,
      handle_get (env_query env_ok) world_same_id (mk_session 8 5) rpc_get_config true =
        .ok (w1, s1, ret) ∧
      w1.tx = world_same_id.tx ++ [⟨8, data_reply rpc_get_config [none], true⟩]) ∧
    (∃ w1 s1 ret,
      handle_edit (env_edit parms_edit ["/a", "/b"] true true) world_same_id (mk_session 8 5)
        rpc_edit = .ok (w1, s1, ret) ∧
      w1.tx = world_same_id.tx ++ [⟨8, ok_reply rpc_edit, true⟩] ∧
      w1.ds_log = [.get_tree "/a", .get_tree "/b", .get_tree "/c", .get_tree "/d",
        .prune "/a", .prune "/b", .prune "/r", .prune "/p", .get "/c", .get "/d",
        .set_tree ⟨[("/c", "1"), ("/d", "2"), ("/p", "3")]⟩]) :=
  ⟨world_same_id_reachable, by decide, ⟨by decide, by decide, by decide⟩, by decide,
    (fun h => absurd h.2.2 (by decide)), ⟨_, _, _, rfl, rfl⟩, ⟨_, _, _, rfl, rfl, rfl⟩⟩

end Netconf
